import Mathlib

/-!
# Gamepad input: translator, sampler, dispatcher, facade

A shallow embedding of `SerialPrograms/Source/Controllers/GamepadInput/GamepadInput.cpp`.

* Machine integers are `Nat` / `Int`; the one place where a value is narrowed
  (`axis_to_switch(-source.axis_left_y)`, an `int` passed as `int16_t`) is made
  explicit with `int16_wrap`.
* The worker thread of `GamepadCommandProcessor` is a step function: one call of
  `worker_iteration` is one pass through the body of `while (true)` in
  `worker_loop`.  The part of the pass that runs under `m_mutex`
  (`locked_section`) reads and writes only the fields shared with `submit_state` /
  `set_active`; the rest of the pass (`unlocked_section`) touches only fields
  private to the worker, so a call from another thread that lands during it has
  the effect of one that lands right after it (`unlocked_section_submit_state`,
  `unlocked_section_set_active`).  A pass is therefore one atomic step.
* The sampler `GamepadInputDevice` is a step function as well: `poll` takes what
  `query_state` answers on the tick and returns the signals it emits, in order.
  The XInput structs and constants are those of `Xinput.h` (Windows SDK).
* The target session is external.  Its answers during one pass are the record
  `ControllerSession`; what the dispatcher asks of it is recorded as a list of
  `Event`s, in program order.
-/

namespace GamepadInput

/-! ## Data model -/

/-- The struct `GamepadState` (GamepadInput.cpp, lines 43-99).  `trigger_l2`,
`trigger_r2` are `uint8_t`, the four axes are `int16_t`. -/
structure GamepadState where
  connected : Bool := false
  south : Bool := false
  east : Bool := false
  west : Bool := false
  north : Bool := false
  l1 : Bool := false
  r1 : Bool := false
  trigger_l2 : Nat := 0
  trigger_r2 : Nat := 0
  l3 : Bool := false
  r3 : Bool := false
  select : Bool := false
  start : Bool := false
  guide : Bool := false
  share : Bool := false
  options : Bool := false
  center : Bool := false
  dpad_up : Bool := false
  dpad_down : Bool := false
  dpad_left : Bool := false
  dpad_right : Bool := false
  axis_left_x : Int := 0
  axis_left_y : Int := 0
  axis_right_x : Int := 0
  axis_right_y : Int := 0
  deriving DecidableEq, Repr

namespace GamepadState

/-- The values a `GamepadState` can hold in the program: triggers fit `uint8_t`,
axes fit `int16_t`. -/
def in_range (s : GamepadState) : Prop :=
  s.trigger_l2 < 256 ∧ s.trigger_r2 < 256 ∧
  (-32768 ≤ s.axis_left_x ∧ s.axis_left_x ≤ 32767) ∧
  (-32768 ≤ s.axis_left_y ∧ s.axis_left_y ≤ 32767) ∧
  (-32768 ≤ s.axis_right_x ∧ s.axis_right_x ≤ 32767) ∧
  (-32768 ≤ s.axis_right_y ∧ s.axis_right_y ≤ 32767)

instance (s : GamepadState) : Decidable s.in_range := by
  unfold in_range; infer_instance

/-- The member `operator==` (lines 75-86): the conjunction of the 25 field comparisons. -/
def eq (a other : GamepadState) : Bool :=
  a.connected == other.connected &&
  a.south == other.south && a.east == other.east && a.west == other.west && a.north == other.north &&
  a.l1 == other.l1 && a.r1 == other.r1 &&
  a.trigger_l2 == other.trigger_l2 && a.trigger_r2 == other.trigger_r2 &&
  a.l3 == other.l3 && a.r3 == other.r3 &&
  a.select == other.select && a.start == other.start && a.guide == other.guide &&
  a.share == other.share && a.options == other.options && a.center == other.center &&
  a.dpad_up == other.dpad_up && a.dpad_down == other.dpad_down &&
  a.dpad_left == other.dpad_left && a.dpad_right == other.dpad_right &&
  a.axis_left_x == other.axis_left_x && a.axis_left_y == other.axis_left_y &&
  a.axis_right_x == other.axis_right_x && a.axis_right_y == other.axis_right_y

/-- The member `operator!=` (line 88). -/
def ne (a other : GamepadState) : Bool := !(a.eq other)

/-- The member `is_neutral` (lines 90-98). -/
def is_neutral (s : GamepadState) : Bool :=
  !s.south && !s.east && !s.west && !s.north &&
  !s.l1 && !s.r1 && s.trigger_l2 == 0 && s.trigger_r2 == 0 &&
  !s.l3 && !s.r3 &&
  !s.select && !s.start && !s.guide && !s.share && !s.options && !s.center &&
  !s.dpad_up && !s.dpad_down && !s.dpad_left && !s.dpad_right &&
  s.axis_left_x == 0 && s.axis_left_y == 0 &&
  s.axis_right_x == 0 && s.axis_right_y == 0

end GamepadState

/-- Modelled from the spec: the enum `ControllerType` is declared in
`Controllers/ControllerTypes.h`, which is not among the sources.  The six
enumerators named by `is_pro_controller_type` are kept; every other enumerator
is `other n`. -/
inductive ControllerType where
  | NintendoSwitch_WiredController
  | NintendoSwitch_WiredProController
  | NintendoSwitch_WirelessProController
  | NintendoSwitch2_WiredController
  | NintendoSwitch2_WiredProController
  | NintendoSwitch2_WirelessProController
  | other (n : Nat)
  deriving DecidableEq, Repr

/-- Modelled from the spec: the enum `NintendoSwitch::DpadPosition` is declared in
`NintendoSwitch_ControllerButtons.h`, which is not among the sources: "one of 9:
none + 8 compass directions". -/
inductive DpadPosition where
  | DPAD_UP
  | DPAD_UP_RIGHT
  | DPAD_RIGHT
  | DPAD_DOWN_RIGHT
  | DPAD_DOWN
  | DPAD_DOWN_LEFT
  | DPAD_LEFT
  | DPAD_UP_LEFT
  | DPAD_NONE
  deriving DecidableEq, Repr

/-- Modelled from the spec: the enumerators of `NintendoSwitch::Button` used by
`apply_to_pro_state`.  The enum is declared in `NintendoSwitch_ControllerButtons.h`,
which is not among the sources; the button mask is a bitmask, so each enumerator
is taken to be a single bit, all distinct.  `Button.mask b` is the value of the
enumerator. -/
inductive Button where
  | BUTTON_Y | BUTTON_B | BUTTON_A | BUTTON_X
  | BUTTON_L | BUTTON_R | BUTTON_ZL | BUTTON_ZR
  | BUTTON_MINUS | BUTTON_PLUS | BUTTON_LCLICK | BUTTON_RCLICK
  | BUTTON_HOME | BUTTON_CAPTURE
  | BUTTON_UP | BUTTON_RIGHT | BUTTON_DOWN | BUTTON_LEFT
  deriving DecidableEq, Repr

namespace Button

/-- Modelled from the spec: the bit position of each `Button` enumerator (see `Button`). -/
def bit : Button → Nat
  | BUTTON_Y => 0 | BUTTON_B => 1 | BUTTON_A => 2 | BUTTON_X => 3
  | BUTTON_L => 4 | BUTTON_R => 5 | BUTTON_ZL => 6 | BUTTON_ZR => 7
  | BUTTON_MINUS => 8 | BUTTON_PLUS => 9 | BUTTON_LCLICK => 10 | BUTTON_RCLICK => 11
  | BUTTON_HOME => 12 | BUTTON_CAPTURE => 13
  | BUTTON_UP => 16 | BUTTON_RIGHT => 17 | BUTTON_DOWN => 18 | BUTTON_LEFT => 19

/-- Modelled from the spec: the value of a `Button` enumerator, `1 << bit`. -/
def mask (b : Button) : Nat := 2 ^ b.bit

end Button

/-- Modelled from the spec: the struct `NintendoSwitch::ProControllerState`
(declared in `NintendoSwitch_ProController.h`, not among the sources): "a button
bitmask, a single discretized directional-pad position, and four unsigned
analog-stick coordinates".  Its `operator==` (used at line 610) is taken to
compare all six members. -/
structure ProControllerState where
  buttons : Nat
  dpad : DpadPosition
  left_x : Nat
  left_y : Nat
  right_x : Nat
  right_y : Nat
  deriving DecidableEq, Repr

namespace ProControllerState

/-- Modelled from the spec: `ProControllerState::clear()`, which leaves the command
at rest: no buttons, pad none, sticks centred (128). -/
def clear : ProControllerState :=
  { buttons := 0, dpad := DpadPosition.DPAD_NONE,
    left_x := 128, left_y := 128, right_x := 128, right_y := 128 }

/-- Modelled from the spec: `ProControllerState::is_neutral()`: "fully neutral (no
buttons, centered sticks, pad=none)". -/
def is_neutral (s : ProControllerState) : Bool :=
  s.buttons == 0 && s.dpad == DpadPosition.DPAD_NONE &&
  s.left_x == 128 && s.left_y == 128 && s.right_x == 128 && s.right_y == 128

instance : Inhabited ProControllerState := ⟨clear⟩

end ProControllerState

/-! ## Translator (lines 110-193) -/

/-- The constant `TRIGGER_THRESHOLD` (line 110). -/
def TRIGGER_THRESHOLD : Nat := 64

/-- Conversion of an `int` to `int16_t` (two's complement wrap). -/
def int16_wrap (v : Int) : Int := (v + 32768) % 65536 - 32768

/-- The function `std::clamp` on `int`. -/
def clamp (v lo hi : Int) : Int := if v < lo then lo else if hi < v then hi else v

/-- The function `axis_to_switch` (lines 113-116); `axis` is an `int16_t` value. -/
def axis_to_switch (axis : Int) : Nat :=
  let value := axis + 128
  (clamp value 0 255).toNat

/-- The function `is_pro_controller_type` (lines 118-130). -/
def is_pro_controller_type : ControllerType → Bool
  | .NintendoSwitch_WiredController => true
  | .NintendoSwitch_WiredProController => true
  | .NintendoSwitch_WirelessProController => true
  | .NintendoSwitch2_WiredController => true
  | .NintendoSwitch2_WiredProController => true
  | .NintendoSwitch2_WirelessProController => true
  | _ => false

/-- The function `compose_dpad` (lines 132-152). -/
def compose_dpad (state : GamepadState) : DpadPosition :=
  let dx : Int := (if state.dpad_right then 1 else 0) - (if state.dpad_left then 1 else 0)
  let dy : Int := (if state.dpad_down then 1 else 0) - (if state.dpad_up then 1 else 0)
  if dx = 0 ∧ dy = 0 then DpadPosition.DPAD_NONE
  else if dx = 0 then (if dy > 0 then DpadPosition.DPAD_DOWN else DpadPosition.DPAD_UP)
  else if dy = 0 then (if dx > 0 then DpadPosition.DPAD_RIGHT else DpadPosition.DPAD_LEFT)
  else if dx > 0 ∧ dy > 0 then DpadPosition.DPAD_DOWN_RIGHT
  else if dx > 0 ∧ dy < 0 then DpadPosition.DPAD_UP_RIGHT
  else if dx < 0 ∧ dy > 0 then DpadPosition.DPAD_DOWN_LEFT
  else DpadPosition.DPAD_UP_LEFT

/-- The statement `if (c) dest.buttons |= b;`. -/
def or_if (c : Bool) (b : Button) (buttons : Nat) : Nat :=
  if c then buttons ||| b.mask else buttons

/-- The button mask built by lines 160-183 of `apply_to_pro_state`, starting from the
cleared mask. -/
def pro_buttons (source : GamepadState) : Nat :=
  (0 : Nat)
  |> or_if source.south Button.BUTTON_B
  |> or_if source.east Button.BUTTON_A
  |> or_if source.west Button.BUTTON_Y
  |> or_if source.north Button.BUTTON_X
  |> or_if source.l1 Button.BUTTON_L
  |> or_if source.r1 Button.BUTTON_R
  |> or_if (decide (source.trigger_l2 ≥ TRIGGER_THRESHOLD)) Button.BUTTON_ZL
  |> or_if (decide (source.trigger_r2 ≥ TRIGGER_THRESHOLD)) Button.BUTTON_ZR
  |> or_if source.l3 Button.BUTTON_LCLICK
  |> or_if source.r3 Button.BUTTON_RCLICK
  |> or_if source.select Button.BUTTON_MINUS
  |> or_if source.start Button.BUTTON_PLUS
  |> or_if source.options Button.BUTTON_PLUS
  |> or_if source.share Button.BUTTON_CAPTURE
  |> or_if source.guide Button.BUTTON_HOME
  |> or_if source.center Button.BUTTON_CAPTURE
  |> or_if source.dpad_up Button.BUTTON_UP
  |> or_if source.dpad_down Button.BUTTON_DOWN
  |> or_if source.dpad_left Button.BUTTON_LEFT
  |> or_if source.dpad_right Button.BUTTON_RIGHT

/-- The function `apply_to_pro_state` (lines 154-193): returns the neutrality flag
and the value left in `dest`. -/
def apply_to_pro_state (source : GamepadState) : Bool × ProControllerState :=
  let dest := ProControllerState.clear
  if !source.connected then (true, dest)
  else
    let dest : ProControllerState :=
      { buttons := pro_buttons source
        dpad := compose_dpad source
        left_x := axis_to_switch source.axis_left_x
        left_y := axis_to_switch (int16_wrap (-source.axis_left_y))
        right_x := axis_to_switch source.axis_right_x
        right_y := axis_to_switch (int16_wrap (-source.axis_right_y)) }
    (dest.is_neutral, dest)

/-! ## Dispatcher: `GamepadCommandProcessor` (lines 468-656) -/

/-- What the dispatcher asks of its collaborators, in program order: the three calls
it makes on the target controller and the lines it hands to `m_logger.log`.
Each controller call is written inside a lambda handed to `m_session.try_run`
(lines 561-563 and 609-625); an event records that the dispatcher made the
request.  What `try_run` (declared in `Controllers/ControllerSession.h`, not
among the sources) does with the request is the session's business; the
dispatcher sees only the error string it returns. -/
inductive Event where
  | cancel_all_commands
  | replace_on_next_command
  | issue_full_controller_state (duration : Nat) (state : ProControllerState)
  | log (message : String)
  deriving DecidableEq, Repr

namespace Event

def is_cancel : Event → Bool
  | cancel_all_commands => true
  | _ => false

def is_replace : Event → Bool
  | replace_on_next_command => true
  | _ => false

def is_issue : Event → Bool
  | issue_full_controller_state _ _ => true
  | _ => false

def is_log : Event → Bool
  | log _ => true
  | _ => false

end Event

/-- The answers of the target session (`ControllerSession`, declared in
`Controllers/ControllerSession.h`, not among the sources) during one pass of the
worker: `controller_type()`, `ready()`, `user_input_blocked()`, the controller's
`ticksize()` in milliseconds, and the error string `try_run` returns for the
issuing lambda of `process_state` (empty on success).  The error string
`try_run` returns for the cancelling lambda of `ensure_cancel` is discarded by
the program and has no field.  A pass asks for `controller_type()` up to twice
(lines 575 and 557); the session is taken to give the same answer both times. -/
structure ControllerSession where
  controller_type : ControllerType
  ready : Bool
  user_input_blocked : String
  ticksize : Nat
  issue_error : String
  deriving DecidableEq, Repr

/-- The data members of `GamepadCommandProcessor` (lines 642-655), with their
initial values. -/
structure GamepadCommandProcessor where
  m_stop : Bool := false
  m_active : Bool := false
  m_activeChanged : Bool := false
  m_hasPending : Bool := false
  m_pending : GamepadState := {}
  m_lastNeutral : Bool := true
  m_lastProState : ProControllerState := ProControllerState.clear
  m_lastError : Option String := none
  m_warnedUnsupported : Option ControllerType := none
  deriving DecidableEq, Repr

/-- The warning logged by `process_state` for an unsupported controller type (line 578). -/
def unsupported_warning : String :=
  "Gamepad input is currently supported only for Nintendo Switch Pro Controller profiles."

/-- The line logged for a failed issuance (line 628). -/
def failure_message (error : String) : String := "Gamepad command failed: " ++ error

namespace GamepadCommandProcessor

/-- The destructor up to `notify_one` (lines 476-481): sets the stop flag. -/
def request_stop (p : GamepadCommandProcessor) : GamepadCommandProcessor :=
  { p with m_stop := true }

/-- The method `submit_state` (lines 487-497). -/
def submit_state (p : GamepadCommandProcessor) (state : GamepadState) : GamepadCommandProcessor :=
  if p.m_hasPending && state.eq p.m_pending then p
  else { p with m_pending := state, m_hasPending := true }

/-- The method `set_active` (lines 499-509). -/
def set_active (p : GamepadCommandProcessor) (active : Bool) : GamepadCommandProcessor :=
  if p.m_active == active then p
  else { p with m_active := active, m_activeChanged := true }

/-- The method `ensure_cancel` (lines 553-565). -/
def ensure_cancel (p : GamepadCommandProcessor) (session : ControllerSession) :
    GamepadCommandProcessor × List Event :=
  if p.m_lastNeutral then (p, [])
  else if !is_pro_controller_type session.controller_type then
    ({ p with m_lastNeutral := true }, [])
  else
    ({ p with m_lastNeutral := true }, [Event.cancel_all_commands])

/-- The method `log_once` (lines 567-572). -/
def log_once (p : GamepadCommandProcessor) (message : String) :
    GamepadCommandProcessor × List Event :=
  if p.m_lastError.isNone || p.m_lastError != some message then
    ({ p with m_lastError := some message }, [Event.log message])
  else (p, [])

/-- The requests written in the lambda of lines 609-625, in order. -/
def issue_requests (p : GamepadCommandProcessor) (session : ControllerSession)
    (new_state : ProControllerState) : List Event :=
  let replace : List Event :=
    if !p.m_lastNeutral && !(new_state == p.m_lastProState) then [Event.replace_on_next_command]
    else []
  let ticksize := session.ticksize
  let duration := if ticksize == 0 then 2000 else ticksize * 255
  replace ++ [Event.issue_full_controller_state duration new_state]

/-- The method `process_state` (lines 574-636). -/
def process_state (p : GamepadCommandProcessor) (session : ControllerSession)
    (state : GamepadState) : GamepadCommandProcessor × List Event :=
  let type := session.controller_type
  if !is_pro_controller_type type then
    let (p1, ev1) :=
      if p.m_warnedUnsupported.isNone || p.m_warnedUnsupported != some type then
        ({ p with m_warnedUnsupported := some type }, [Event.log unsupported_warning])
      else (p, [])
    let (p2, ev2) := ensure_cancel p1 session
    (p2, ev1 ++ ev2)
  else
    let p := { p with m_warnedUnsupported := none }
    if !session.ready then ensure_cancel p session
    else
      let block := session.user_input_blocked
      if !(block == "") then ensure_cancel p session
      else if !state.connected then ensure_cancel p session
      else
        let (neutral, new_state) := apply_to_pro_state state
        if neutral then ensure_cancel p session
        else
          let ev := issue_requests p session new_state
          let error := session.issue_error
          if !(error == "") then
            let (p1, ev1) := log_once p (failure_message error)
            let (p2, ev2) := ensure_cancel p1 session
            (p2, ev ++ ev1 ++ ev2)
          else
            ({ p with m_lastError := none, m_lastProState := new_state, m_lastNeutral := false }, ev)

end GamepadCommandProcessor

/-- The locals of one pass of `worker_loop` (lines 514-517). -/
structure Locals where
  state : GamepadState := {}
  hasState : Bool := false
  active : Bool := false
  activeChanged : Bool := false
  deriving DecidableEq, Repr

/-- The outcome of one pass through the body of `while (true)` in `worker_loop`. -/
inductive LoopStep where
  /-- The predicate of `m_cv.wait` is false: the worker stays suspended. -/
  | waiting
  /-- The worker saw `m_stop`, left the loop and ran the final `ensure_cancel` (line 550). -/
  | exited (p : GamepadCommandProcessor) (events : List Event)
  /-- The pass ended (by `continue` or by reaching the end of the body); the loop goes on. -/
  | continued (p : GamepadCommandProcessor) (events : List Event)
  deriving DecidableEq, Repr

namespace GamepadCommandProcessor

/-- The block of `worker_loop` that holds `m_mutex` (lines 519-533), once
`m_cv.wait` has returned and `m_stop` is false: it moves the pending slot and
the flags into the locals of the pass. -/
def locked_section (p : GamepadCommandProcessor) : GamepadCommandProcessor × Locals :=
  ({ p with m_hasPending := false, m_activeChanged := false },
   { state := if p.m_hasPending then p.m_pending else {}
     hasState := p.m_hasPending
     active := p.m_active
     activeChanged := p.m_activeChanged })

/-- The rest of the pass (lines 535-547), which runs without the mutex. -/
def unlocked_section (p : GamepadCommandProcessor) (l : Locals) (session : ControllerSession) :
    GamepadCommandProcessor × List Event :=
  if !l.active then
    let (p1, ev) :=
      if l.activeChanged || !p.m_lastNeutral then ensure_cancel p session else (p, [])
    ({ p1 with m_lastNeutral := true }, ev)
  else if !l.hasState then (p, [])
  else process_state p session l.state

/-- One pass of `worker_loop` (lines 512-551), the final `ensure_cancel` included when
the pass leaves the loop. -/
def worker_iteration (p : GamepadCommandProcessor) (session : ControllerSession) : LoopStep :=
  if !(p.m_stop || p.m_hasPending || p.m_activeChanged) then LoopStep.waiting
  else if p.m_stop then
    LoopStep.exited (ensure_cancel p session).1 (ensure_cancel p session).2
  else
    LoopStep.continued
      (unlocked_section (locked_section p).1 (locked_section p).2 session).1
      (unlocked_section (locked_section p).1 (locked_section p).2 session).2

/-- The fields of `q` that `m_mutex` guards, put into `p`: the fields the other
threads write. -/
def with_shared (p q : GamepadCommandProcessor) : GamepadCommandProcessor :=
  { p with m_stop := q.m_stop, m_active := q.m_active, m_activeChanged := q.m_activeChanged,
           m_hasPending := q.m_hasPending, m_pending := q.m_pending }

end GamepadCommandProcessor

/-- The state a `LoopStep` leaves the dispatcher in (`p` itself when the worker stays
suspended). -/
def LoopStep.state (p : GamepadCommandProcessor) : LoopStep → GamepadCommandProcessor
  | .waiting => p
  | .exited q _ => q
  | .continued q _ => q

/-- The events of a `LoopStep`. -/
def LoopStep.events : LoopStep → List Event
  | .waiting => []
  | .exited _ ev => ev
  | .continued _ ev => ev

/-! ## Runs of the dispatcher -/

/-- What can happen to a `GamepadCommandProcessor`: a call of one of its public
methods from another thread, the destructor raising the stop flag, or the worker
making one pass (with the session answering as given). -/
inductive Op where
  | submit_state (state : GamepadState)
  | set_active (active : Bool)
  | request_stop
  | worker_pass (session : ControllerSession)
  deriving DecidableEq, Repr

namespace GamepadCommandProcessor

/-- The effect of one `Op`. -/
def apply (p : GamepadCommandProcessor) : Op → GamepadCommandProcessor × List Event
  | .submit_state state => (p.submit_state state, [])
  | .set_active active => (p.set_active active, [])
  | .request_stop => (p.request_stop, [])
  | .worker_pass session =>
    ((p.worker_iteration session).state p, (p.worker_iteration session).events)

/-- The effect of a sequence of `Op`s, with the events in order.  (Once the worker
has left its loop, `m_stop` and `m_lastNeutral` are set, so a further `worker_pass`
changes nothing and has no events.) -/
def run (p : GamepadCommandProcessor) : List Op → GamepadCommandProcessor × List Event
  | [] => (p, [])
  | op :: ops => ((p.apply op).1.run ops |>.1, (p.apply op).2 ++ ((p.apply op).1.run ops).2)

/-- Several `submit_state` calls in a row. -/
def submit_all (p : GamepadCommandProcessor) (states : List GamepadState) :
    GamepadCommandProcessor :=
  states.foldl submit_state p

end GamepadCommandProcessor

/-- The four checks of `process_state` that precede translation (lines 576, 586, 592,
597), all passing: supported controller type, session ready, no input-blocked
reason, state connected. -/
def passes_gates (session : ControllerSession) (state : GamepadState) : Bool :=
  is_pro_controller_type session.controller_type && session.ready &&
  (session.user_input_blocked == "") && state.connected

/-- A dispatch cycle that reaches the issuing call (line 609): all gates pass and the
translated command is not neutral. -/
def attempts_issue (session : ControllerSession) (state : GamepadState) : Bool :=
  passes_gates session state && !(apply_to_pro_state state).1

/-- How a dispatch cycle ends, as seen from outside: the command was issued, the
issuing call failed with an error message, or the cycle never reached the
issuing call (a gate failed, or the command was neutral). -/
inductive Outcome where
  | issued
  | failed (error : String)
  | dropped
  deriving DecidableEq, Repr

/-- The outcome of the dispatch cycle for `state` when the session answers as given. -/
def outcome (session : ControllerSession) (state : GamepadState) : Outcome :=
  if attempts_issue session state then
    (if session.issue_error = "" then Outcome.issued else Outcome.failed session.issue_error)
  else Outcome.dropped

/-- What is remembered of one past dispatch cycle: its outcome and whether it wrote a
log line. -/
structure CycleRecord where
  outcome : Outcome
  logged : Bool
  deriving DecidableEq, Repr

namespace GamepadCommandProcessor

/-- A sequence of dispatch cycles: `process_state` on each pair of session answers and
state in turn.  Returns the final dispatcher and all events, in order. -/
def dispatch_cycles (p : GamepadCommandProcessor) :
    List (ControllerSession × GamepadState) → GamepadCommandProcessor × List Event
  | [] => (p, [])
  | c :: cs =>
    ((dispatch_cycles (p.process_state c.1 c.2).1 cs).1,
     (p.process_state c.1 c.2).2 ++ (dispatch_cycles (p.process_state c.1 c.2).1 cs).2)

/-- A sequence of dispatch cycles, keeping a record of each: returns the final
dispatcher and the records, most recent first, in front of `history`. -/
def dispatch_history (p : GamepadCommandProcessor) (history : List CycleRecord) :
    List (ControllerSession × GamepadState) → GamepadCommandProcessor × List CycleRecord
  | [] => (p, history)
  | c :: cs =>
    dispatch_history (p.process_state c.1 c.2).1
      ({ outcome := outcome c.1 c.2, logged := (p.process_state c.1 c.2).2.any Event.is_log }
        :: history) cs

end GamepadCommandProcessor

/-- The error message of "the immediately preceding logged failure", provided "no
successful issuance happened since": walking back through the history (most
recent cycle first), a successful issuance ends the search with nothing, a
failure that was logged ends it with its message, anything else is skipped. -/
def last_logged_failure : List CycleRecord → Option String
  | [] => none
  | r :: older =>
    match r.outcome with
    | Outcome.issued => none
    | Outcome.failed error => if r.logged then some error else last_logged_failure older
    | Outcome.dropped => last_logged_failure older

namespace GamepadCommandProcessor

/-- Whether `op` is a pass of the worker in which a non-neutral command is issued with
success (the pass runs `process_state` down to line 635): the worker has not
been told to stop, the dispatcher is active, a state is pending, all gates pass,
the command is not neutral and the session reports no error. -/
def issues (p : GamepadCommandProcessor) : Op → Bool
  | .worker_pass session =>
    !p.m_stop && p.m_active && p.m_hasPending && attempts_issue session p.m_pending &&
      (session.issue_error == "")
  | _ => false

/-- No operation of the sequence, run from `p`, is a successful issuance. -/
def never_issues (p : GamepadCommandProcessor) : List Op → Bool
  | [] => true
  | op :: ops => !p.issues op && (p.apply op).1.never_issues ops

end GamepadCommandProcessor

/-- The command carried by an `issue_full_controller_state` request. -/
def Event.issued_state : Event → Option ProControllerState
  | .issue_full_controller_state _ state => some state
  | _ => none

namespace GamepadCommandProcessor

/-- The command issued to the target by an operation, if any: the one carried by the
issue request of a pass of the worker, when the session reports no error for the
request (line 627).  It is read off the requests the pass makes, not off the data
members. -/
def issued_by (p : GamepadCommandProcessor) : Op → Option ProControllerState
  | .worker_pass session =>
    if session.issue_error = "" then
      (p.worker_iteration session).events.findSome? Event.issued_state
    else none
  | _ => none

/-- The command most recently issued to the target in a run from `p`; `previous` if the
run issues none. -/
def previously_issued (p : GamepadCommandProcessor) (previous : Option ProControllerState) :
    List Op → Option ProControllerState
  | [] => previous
  | op :: ops => (p.apply op).1.previously_issued ((p.issued_by op).or previous) ops

end GamepadCommandProcessor

/-! ## The worker and its callers, step by step (lines 476-551)

The passes above take `worker_loop` one iteration at a time.  Here the threads are
interleaved at the grain of the lock: a step is a thread taking `m_mutex`, the holder
running its block to the closing brace, or the worker running the code it runs without
the lock. -/

/-- Who holds `m_mutex`: the worker (`unique_lock`, line 519), or a thread inside the
block of `submit_state` (line 489), of `set_active` (line 501) or of the destructor
(line 478), with the argument of the call. -/
inductive Holder where
  | worker
  | submit_state (state : GamepadState)
  | set_active (active : Bool)
  | destructor
  deriving DecidableEq, Repr

/-- Where the worker thread stands in `worker_loop`. -/
inductive WorkerAt where
  /-- At the top of the loop body (lines 513-518), before the lock is taken. -/
  | top
  /-- Holding the lock (line 519, or woken inside `m_cv.wait`), about to evaluate the
  predicate of the wait (line 520). -/
  | locked
  /-- Suspended inside `m_cv.wait`, which has released the lock. -/
  | suspended
  /-- Past the closing brace of line 533, with the locals copied, running lines 535-547. -/
  | dispatching (l : Locals)
  /-- Out of the loop by the `break` of line 522, before the `ensure_cancel` of line 550. -/
  | leaving
  /-- Returned from `worker_loop`. -/
  | returned
  deriving DecidableEq, Repr

/-- The dispatcher with its threads: the data members, the holder of `m_mutex`, the
position of the worker, and the requests made on the session so far. -/
structure Machine where
  p : GamepadCommandProcessor := {}
  mutex : Option Holder := none
  pc : WorkerAt := WorkerAt.top
  trace : List Event := []
  deriving DecidableEq, Repr

/-- One step of one thread. -/
inductive Action where
  /-- A thread takes `m_mutex`. -/
  | enter (h : Holder)
  /-- The holder of `m_mutex` runs its block to the end, which releases the lock. -/
  | leave_block
  /-- The worker runs the code it runs without the lock (lines 535-547, or line 550
  after the loop), the session answering as given. -/
  | session_calls (session : ControllerSession)
  deriving DecidableEq, Repr

namespace Machine

/-- The step relation: the state after the action, or nothing if the thread cannot
take the step now (the lock is held by another thread, or the thread is elsewhere).
A suspended worker may wake at any time, as `m_cv.wait` allows. -/
def step (s : Machine) : Action → Option Machine
  | .enter h =>
    if s.mutex = none then
      match h with
      | .worker =>
        if s.pc = WorkerAt.top ∨ s.pc = WorkerAt.suspended then
          some { s with mutex := some Holder.worker, pc := WorkerAt.locked }
        else none
      | caller => some { s with mutex := some caller }
    else none
  | .leave_block =>
    match s.mutex with
    | none => none
    | some .worker =>
      if !(s.p.m_stop || s.p.m_hasPending || s.p.m_activeChanged) then
        some { s with mutex := none, pc := WorkerAt.suspended }
      else if s.p.m_stop then
        some { s with mutex := none, pc := WorkerAt.leaving }
      else
        some { s with mutex := none, p := s.p.locked_section.1,
                      pc := WorkerAt.dispatching s.p.locked_section.2 }
    | some (.submit_state state) => some { s with mutex := none, p := s.p.submit_state state }
    | some (.set_active active) => some { s with mutex := none, p := s.p.set_active active }
    | some .destructor => some { s with mutex := none, p := s.p.request_stop }
  | .session_calls session =>
    match s.pc with
    | .dispatching l =>
      some { s with p := (s.p.unlocked_section l session).1, pc := WorkerAt.top,
                    trace := s.trace ++ (s.p.unlocked_section l session).2 }
    | .leaving =>
      some { s with p := (s.p.ensure_cancel session).1, pc := WorkerAt.returned,
                    trace := s.trace ++ (s.p.ensure_cancel session).2 }
    | _ => none

/-- The state after a sequence of steps, if each can be taken in turn. -/
def run (s : Machine) : List Action → Option Machine
  | [] => some s
  | a :: rest =>
    match s.step a with
    | none => none
    | some next => next.run rest

/-- The worker is running code that calls the session. -/
def in_session_calls (s : Machine) : Bool :=
  match s.pc with
  | .dispatching _ => true
  | .leaving => true
  | _ => false

end Machine

/-! ## Sampler: XInput backend and `GamepadInputDevice` (lines 237-322, 394-465) -/

/-- The struct `XINPUT_GAMEPAD` of `Xinput.h` (Windows SDK, external to the
repository): `wButtons` is a `WORD`, the triggers are `BYTE`s, the thumb values
are `SHORT`s. -/
structure XINPUT_GAMEPAD where
  wButtons : Nat := 0
  bLeftTrigger : Nat := 0
  bRightTrigger : Nat := 0
  sThumbLX : Int := 0
  sThumbLY : Int := 0
  sThumbRX : Int := 0
  sThumbRY : Int := 0
  deriving DecidableEq, Repr

/-- The struct `XINPUT_STATE` of `Xinput.h`. -/
structure XINPUT_STATE where
  dwPacketNumber : Nat := 0
  Gamepad : XINPUT_GAMEPAD := {}
  deriving DecidableEq, Repr

/-! The button masks and dead zones of `Xinput.h`. -/

def XINPUT_GAMEPAD_DPAD_UP : Nat := 0x0001
def XINPUT_GAMEPAD_DPAD_DOWN : Nat := 0x0002
def XINPUT_GAMEPAD_DPAD_LEFT : Nat := 0x0004
def XINPUT_GAMEPAD_DPAD_RIGHT : Nat := 0x0008
def XINPUT_GAMEPAD_START : Nat := 0x0010
def XINPUT_GAMEPAD_BACK : Nat := 0x0020
def XINPUT_GAMEPAD_LEFT_THUMB : Nat := 0x0040
def XINPUT_GAMEPAD_RIGHT_THUMB : Nat := 0x0080
def XINPUT_GAMEPAD_LEFT_SHOULDER : Nat := 0x0100
def XINPUT_GAMEPAD_RIGHT_SHOULDER : Nat := 0x0200
def XINPUT_GAMEPAD_A : Nat := 0x1000
def XINPUT_GAMEPAD_B : Nat := 0x2000
def XINPUT_GAMEPAD_X : Nat := 0x4000
def XINPUT_GAMEPAD_Y : Nat := 0x8000
def XINPUT_GAMEPAD_LEFT_THUMB_DEADZONE : Int := 7849
def XINPUT_GAMEPAD_RIGHT_THUMB_DEADZONE : Int := 8689

/-- The macro `XINPUT_GAMEPAD_GUIDE` tested at line 303.  `Xinput.h` does not define
it, so `translate_state` is compiled with its `#else` branch. -/
def XINPUT_GAMEPAD_GUIDE : Option Nat := none

/-- The conversion of `buttons & mask` to `bool`. -/
def test_mask (buttons mask : Nat) : Bool := (buttons &&& mask) != 0

/-- The value `std::lround(n / d)` for integers `n` and `d > 0`: the nearest integer,
halves away from zero. -/
def lround_quotient (n d : Int) : Int :=
  if 0 ≤ n then (2 * n + d) / (2 * d) else -((2 * (-n) + d) / (2 * d))

/-- The function `convert_thumb_axis` (lines 257-275).  The source computes
`lround(clamp(value / (32767 - deadzone), -1, 1) * 128)` in `double`; here the
quotient is exact.  The two agree: multiplying by 128 is exact in `double`, a
quotient that is an exact half-integer over 128 is representable, and any other
is further from a rounding boundary than the error of the division. -/
def convert_thumb_axis (value : Int) (deadzone : Int) : Int :=
  let scale (value : Int) : Int :=
    let maxMagnitude : Int := 32767
    let d := maxMagnitude - deadzone
    let scaled := lround_quotient (128 * clamp value (-d) d) d
    clamp scaled (-128) 128
  if value ≥ 0 then
    if value ≤ deadzone then 0 else scale (value - deadzone)
  else
    if -value ≤ deadzone then 0 else scale (value + deadzone)

/-- The function `convert_trigger` (lines 277-279). -/
def convert_trigger (value : Nat) : Nat := value

/-- The function `translate_state` (lines 281-322). -/
def translate_state (xstate : XINPUT_STATE) : GamepadState :=
  let buttons := xstate.Gamepad.wButtons
  let select := test_mask buttons XINPUT_GAMEPAD_BACK
  let start := test_mask buttons XINPUT_GAMEPAD_START
  let guide :=
    match XINPUT_GAMEPAD_GUIDE with
    | some mask => test_mask buttons mask
    | none => false
  { connected := true
    south := test_mask buttons XINPUT_GAMEPAD_A
    east := test_mask buttons XINPUT_GAMEPAD_B
    west := test_mask buttons XINPUT_GAMEPAD_X
    north := test_mask buttons XINPUT_GAMEPAD_Y
    l1 := test_mask buttons XINPUT_GAMEPAD_LEFT_SHOULDER
    r1 := test_mask buttons XINPUT_GAMEPAD_RIGHT_SHOULDER
    trigger_l2 := convert_trigger xstate.Gamepad.bLeftTrigger
    trigger_r2 := convert_trigger xstate.Gamepad.bRightTrigger
    l3 := test_mask buttons XINPUT_GAMEPAD_LEFT_THUMB
    r3 := test_mask buttons XINPUT_GAMEPAD_RIGHT_THUMB
    select := select
    start := start
    share := select
    options := start
    guide := guide
    center := guide
    dpad_up := test_mask buttons XINPUT_GAMEPAD_DPAD_UP
    dpad_down := test_mask buttons XINPUT_GAMEPAD_DPAD_DOWN
    dpad_left := test_mask buttons XINPUT_GAMEPAD_DPAD_LEFT
    dpad_right := test_mask buttons XINPUT_GAMEPAD_DPAD_RIGHT
    axis_left_x := convert_thumb_axis xstate.Gamepad.sThumbLX XINPUT_GAMEPAD_LEFT_THUMB_DEADZONE
    axis_left_y := convert_thumb_axis xstate.Gamepad.sThumbLY XINPUT_GAMEPAD_LEFT_THUMB_DEADZONE
    axis_right_x :=
      convert_thumb_axis xstate.Gamepad.sThumbRX XINPUT_GAMEPAD_RIGHT_THUMB_DEADZONE
    axis_right_y :=
      convert_thumb_axis xstate.Gamepad.sThumbRY XINPUT_GAMEPAD_RIGHT_THUMB_DEADZONE }

/-- The two signals of `GamepadInputDevice` (lines 429-431). -/
inductive Signal where
  | stateUpdated (state : GamepadState)
  | connectionStateChanged (connected : Bool)
  deriving DecidableEq, Repr

namespace Signal

def is_state : Signal → Bool
  | stateUpdated _ => true
  | _ => false

def is_connection : Signal → Bool
  | connectionStateChanged _ => true
  | _ => false

end Signal

/-- The constant `HEARTBEAT_TICKS` (line 443). -/
def HEARTBEAT_TICKS : Int := 25

/-- The local `next` of `poll` (line 442), from the answer of `query_state`. -/
def next_state (connected : Bool) (xstate : XINPUT_STATE) : GamepadState :=
  if connected then translate_state xstate else {}

/-- The data members of `GamepadInputDevice` (lines 460-464) that change; `timer_active`
is `m_timer->isActive()`. -/
structure GamepadInputDevice where
  timer_active : Bool := false
  m_connected : Bool := false
  m_lastState : GamepadState := {}
  m_unchanged_ticks : Int := 0
  deriving DecidableEq, Repr

namespace GamepadInputDevice

/-- The slot `poll` (lines 434-457).  `connected` and `xstate` are what
`query_state(m_deviceId, xstate)` answers on this tick. -/
def poll (d : GamepadInputDevice) (connected : Bool) (xstate : XINPUT_STATE) :
    GamepadInputDevice × List Signal :=
  let previous := d.m_connected
  let d := { d with m_connected := connected }
  let ev1 : List Signal :=
    if connected != previous then [Signal.connectionStateChanged connected] else []
  let next := next_state connected xstate
  if next.ne d.m_lastState then
    ({ d with m_lastState := next, m_unchanged_ticks := 0 },
     ev1 ++ [Signal.stateUpdated next])
  else if connected then
    if d.m_unchanged_ticks + 1 ≥ HEARTBEAT_TICKS then
      ({ d with m_unchanged_ticks := 0 }, ev1 ++ [Signal.stateUpdated d.m_lastState])
    else
      ({ d with m_unchanged_ticks := d.m_unchanged_ticks + 1 }, ev1)
  else (d, ev1)

/-- The method `start` (lines 407-412). -/
def start (d : GamepadInputDevice) (connected : Bool) (xstate : XINPUT_STATE) :
    GamepadInputDevice × List Signal :=
  if !d.timer_active then
    ({ (d.poll connected xstate).1 with timer_active := true }, (d.poll connected xstate).2)
  else (d, [])

/-- The method `stop` (lines 414-427). -/
def stop (d : GamepadInputDevice) : GamepadInputDevice × List Signal :=
  let d := if d.timer_active then { d with timer_active := false } else d
  let neutral : GamepadState := { ({} : GamepadState) with connected := false }
  let (d, ev1) : GamepadInputDevice × List Signal :=
    if neutral.ne d.m_lastState then
      ({ d with m_lastState := neutral }, [Signal.stateUpdated neutral])
    else (d, [])
  let previous := d.m_connected
  let d := { d with m_connected := false }
  (d, ev1 ++ (if previous then [Signal.connectionStateChanged false] else []))

/-- Timer ticks in a row: `poll` on each answer of the backend in turn.  Returns the
final sampler and all signals, in order. -/
def ticks (d : GamepadInputDevice) :
    List (Bool × XINPUT_STATE) → GamepadInputDevice × List Signal
  | [] => (d, [])
  | a :: rest =>
    ((ticks (d.poll a.1 a.2).1 rest).1, (d.poll a.1 a.2).2 ++ (ticks (d.poll a.1 a.2).1 rest).2)

end GamepadInputDevice

/-- What can happen to a `GamepadInputDevice`: the timer fires, or its owner calls
`start` or `stop`.  A tick and a `start` carry what `query_state` answers. -/
inductive SamplerOp where
  | tick (connected : Bool) (xstate : XINPUT_STATE)
  | start (connected : Bool) (xstate : XINPUT_STATE)
  | stop
  deriving DecidableEq, Repr

namespace GamepadInputDevice

/-- The effect of one `SamplerOp`. -/
def apply (d : GamepadInputDevice) : SamplerOp → GamepadInputDevice × List Signal
  | .tick connected xstate => d.poll connected xstate
  | .start connected xstate => d.start connected xstate
  | .stop => d.stop

/-- The effect of a sequence of `SamplerOp`s, with the signals in order. -/
def run (d : GamepadInputDevice) : List SamplerOp → GamepadInputDevice × List Signal
  | [] => (d, [])
  | op :: ops => (((d.apply op).1.run ops).1, (d.apply op).2 ++ ((d.apply op).1.run ops).2)

end GamepadInputDevice

/-- The values carried by the connectivity events among some signals, in order. -/
def connection_values : List Signal → List Bool
  | [] => []
  | Signal.connectionStateChanged connected :: rest => connected :: connection_values rest
  | Signal.stateUpdated _ :: rest => connection_values rest

/-- A list of booleans that starts with `first` and changes value at every step. -/
def alternates : Bool → List Bool → Bool
  | _, [] => true
  | first, value :: rest => (value == first) && alternates (!first) rest

/-! ## Facade: `GamepadController::Impl` (lines 659-796) -/

/-- The struct `GamepadStatus` (GamepadInput.h, lines 52-60). -/
structure GamepadStatus where
  enabled_request : Bool := false
  device_selected : Bool := false
  device_connected : Bool := false
  session_ready : Bool := false
  active : Bool := false
  device_name : String := ""
  block_reason : String := ""
  deriving DecidableEq, Repr

/-- The data members of `GamepadController::Impl` (lines 787-795) read or written by
`status` and `update_active_state`. -/
structure GamepadController where
  m_processor : GamepadCommandProcessor := {}
  m_deviceId : Option Int := none
  m_enabledRequest : Bool := false
  m_deviceConnected : Bool := false
  m_deviceName : String := ""
  deriving DecidableEq, Repr

namespace GamepadController

/-- The method `status` (lines 753-766). -/
def status (c : GamepadController) (session : ControllerSession) : GamepadStatus :=
  let enabled_request := c.m_enabledRequest
  let device_selected := c.m_deviceId.isSome
  let device_connected := c.m_deviceConnected
  let session_ready := session.ready
  let block_reason := session.user_input_blocked
  { enabled_request := enabled_request
    device_selected := device_selected
    device_connected := device_connected
    session_ready := session_ready
    block_reason := block_reason
    device_name := c.m_deviceName
    active := enabled_request && device_selected && device_connected && session_ready &&
      (block_reason == "") }

/-- The local `should_active` of `update_active_state` (lines 774-777). -/
def should_active (c : GamepadController) (session : ControllerSession) : Bool :=
  c.m_enabledRequest && c.m_deviceId.isSome && c.m_deviceConnected && session.ready

/-- The method `update_active_state` (lines 773-780). -/
def update_active_state (c : GamepadController) (session : ControllerSession) :
    GamepadController :=
  { c with m_processor := c.m_processor.set_active (c.should_active session) }

/-- The method `handle_connection_changed` (lines 747-751), up to the `statusChanged`
signal. -/
def handle_connection_changed (c : GamepadController) (session : ControllerSession)
    (connected : Bool) : GamepadController :=
  update_active_state { c with m_deviceConnected := connected } session

end GamepadController

/-! ## Build without gamepad support (lines 860-992) -/

/-- The function `is_gamepad_supported` of the build with the XInput backend (lines
850-852). -/
def is_gamepad_supported : Bool := true

/-- The struct `DeviceInfo` (GamepadInput.h, lines 24-28). -/
structure DeviceInfo where
  id : Int := -1
  name : String := ""
  manufacturer : String := ""
  deriving DecidableEq, Repr

/-- The function `fallback_device_name` (lines 210-212 and 869-871).  The ids the
program passes are slot numbers (0 to 3) or -1, for which `deviceId + 1` is far from
the bounds of `int`. -/
def fallback_device_name (deviceId : Int) : String :=
  "Controller " ++ toString (deviceId + 1)

namespace Unsupported

/-- The function `is_gamepad_supported` of the build without a backend (lines 987-989). -/
def is_gamepad_supported : Bool := false

/-- The method `DeviceMonitor::Impl::devices` of that build (line 876). -/
def devices : List DeviceInfo := []

/-- The method `DeviceMonitor::Impl::lookup_name` of that build (lines 878-880). -/
def lookup_name (deviceId : Int) : String := fallback_device_name deviceId

/-- The data members of `GamepadController::Impl` in that build (lines 955-957). -/
structure GamepadController where
  m_deviceId : Option Int := none
  m_enabled : Bool := false
  deriving DecidableEq, Repr

namespace GamepadController

/-- The method `set_device` (lines 912-918); the boolean tells whether `statusChanged`
was raised. -/
def set_device (c : GamepadController) (device_id : Option Int) : GamepadController × Bool :=
  if c.m_deviceId = device_id then (c, false)
  else ({ c with m_deviceId := device_id }, true)

/-- The method `device` (lines 920-922). -/
def device (c : GamepadController) : Option Int := c.m_deviceId

/-- The method `set_enabled` (lines 924-930); the boolean tells whether `statusChanged`
was raised. -/
def set_enabled (c : GamepadController) (enabled : Bool) : GamepadController × Bool :=
  if c.m_enabled = enabled then (c, false)
  else ({ c with m_enabled := enabled }, true)

/-- The method `enabled` (lines 932-934). -/
def enabled (c : GamepadController) : Bool := c.m_enabled

/-- The method `status` (lines 936-943). -/
def status (c : GamepadController) : GamepadStatus :=
  { enabled_request := c.m_enabled
    device_selected := c.m_deviceId.isSome
    session_ready := false
    block_reason := "Controller support unavailable on this platform." }

end GamepadController

/-- A call of one of the two setters of the facade. -/
inductive Call where
  | set_device (device_id : Option Int)
  | set_enabled (enabled : Bool)
  deriving DecidableEq, Repr

namespace GamepadController

/-- The facade after one call. -/
def apply (c : GamepadController) : Call → GamepadController
  | .set_device device_id => (c.set_device device_id).1
  | .set_enabled enabled => (c.set_enabled enabled).1

/-- The facade after a sequence of calls. -/
def run (c : GamepadController) (calls : List Call) : GamepadController :=
  calls.foldl apply c

end GamepadController

/-- The argument of the most recent `set_enabled` among some calls (`false`, the
initial value, if there is none). -/
def latest_enabled (calls : List Call) : Bool :=
  (calls.reverse.findSome? (fun call =>
    match call with
    | .set_enabled enabled => some enabled
    | _ => none)).getD false

/-- The argument of the most recent `set_device` among some calls (no device, the
initial value, if there is none). -/
def latest_device (calls : List Call) : Option Int :=
  (calls.reverse.findSome? (fun call =>
    match call with
    | .set_device device_id => some device_id
    | _ => none)).getD none

end Unsupported

/-! ## Device registry: `DeviceMonitor::Impl` (lines 214-255, 325-391) -/

/-- The constant `MAX_GAMEPADS` (line 111). -/
def MAX_GAMEPADS : Nat := 4

/-! The device subtypes of `Xinput.h`. -/

def XINPUT_DEVSUBTYPE_UNKNOWN : Nat := 0x00
def XINPUT_DEVSUBTYPE_GAMEPAD : Nat := 0x01
def XINPUT_DEVSUBTYPE_WHEEL : Nat := 0x02
def XINPUT_DEVSUBTYPE_ARCADE_STICK : Nat := 0x03
def XINPUT_DEVSUBTYPE_FLIGHT_STICK : Nat := 0x04
def XINPUT_DEVSUBTYPE_DANCE_PAD : Nat := 0x05
def XINPUT_DEVSUBTYPE_GUITAR : Nat := 0x06
def XINPUT_DEVSUBTYPE_GUITAR_ALTERNATE : Nat := 0x07
def XINPUT_DEVSUBTYPE_DRUM_KIT : Nat := 0x08
def XINPUT_DEVSUBTYPE_GUITAR_BASS : Nat := 0x0B
def XINPUT_DEVSUBTYPE_ARCADE_PAD : Nat := 0x13

/-- The function `subtype_to_name` (lines 214-235).  `Xinput.h` defines
`XINPUT_DEVSUBTYPE_UNKNOWN` and does not define
`XINPUT_DEVSUBTYPE_NAVIGATION_CONTROLLER`. -/
def subtype_to_name (subtype : Nat) : String :=
  if subtype = XINPUT_DEVSUBTYPE_GAMEPAD then "Xbox Controller"
  else if subtype = XINPUT_DEVSUBTYPE_WHEEL then "Racing Wheel"
  else if subtype = XINPUT_DEVSUBTYPE_ARCADE_STICK then "Arcade Stick"
  else if subtype = XINPUT_DEVSUBTYPE_ARCADE_PAD then "Arcade Pad"
  else if subtype = XINPUT_DEVSUBTYPE_FLIGHT_STICK then "Flight Stick"
  else if subtype = XINPUT_DEVSUBTYPE_DANCE_PAD then "Dance Pad"
  else if subtype = XINPUT_DEVSUBTYPE_GUITAR then "Guitar"
  else if subtype = XINPUT_DEVSUBTYPE_GUITAR_ALTERNATE then "Guitar (Alt)"
  else if subtype = XINPUT_DEVSUBTYPE_GUITAR_BASS then "Bass Guitar"
  else if subtype = XINPUT_DEVSUBTYPE_DRUM_KIT then "Drum Kit"
  else if subtype = XINPUT_DEVSUBTYPE_UNKNOWN then "Gamepad"
  else "Gamepad"

/-- The function `query_device_info` (lines 243-255).  `capabilities` is what
`XInputGetCapabilities` answers for the slot: nothing if the call fails, the
`SubType` of the device if it succeeds.  The result is `info` when the function
returns true. -/
def query_device_info (deviceId : Int) (capabilities : Option Nat) : Option DeviceInfo :=
  match capabilities with
  | none => none
  | some subtype =>
    let base := subtype_to_name subtype
    some
      { id := deviceId
        name :=
          if base = "" then fallback_device_name deviceId
          else base ++ " #" ++ toString (deviceId + 1)
        manufacturer := "XInput" }

/-- The member `m_devices`, a `std::map<int, DeviceInfo>` (line 389): its entries, in
the order of the keys. -/
abbrev Registry := List (Int × DeviceInfo)

namespace Registry

/-- The call `m_devices.find(id)`: the entry under the key, if any. -/
def find (r : Registry) (id : Int) : Option DeviceInfo := r.lookup id

/-- The assignment `m_devices[id] = info`. -/
def assign (r : Registry) (id : Int) (info : DeviceInfo) : Registry :=
  r.filter (fun e => decide (e.1 < id)) ++ [(id, info)] ++ r.filter (fun e => decide (id < e.1))

/-- The call `m_devices.erase(id)`: the map without the key, and the number of entries
removed. -/
def erase (r : Registry) (id : Int) : Registry × Nat :=
  (r.filter (fun e => e.1 != id), (r.filter (fun e => e.1 == id)).length)

end Registry

/-- The comparison `a < b` of two `std::string`s: lexicographic, character by
character (the order of the bytes of UTF-8 text is the order of its characters). -/
def string_less (a b : String) : Bool := decide (a.data < b.data)

namespace DeviceMonitor

/-- The comparator handed to `std::sort` in `devices` (lines 344-349). -/
def devices_less (a b : DeviceInfo) : Bool :=
  if a.name = b.name then decide (a.id < b.id) else string_less a.name b.name

/-- The method `devices` (lines 337-351).  `std::sort` is modelled by insertion sort:
both return the elements rearranged so that none is `devices_less` than an
earlier one. -/
def devices (m : Registry) : List DeviceInfo :=
  (m.map (fun e => e.2)).insertionSort (fun a b => devices_less b a = false)

/-- The method `lookup_name` (lines 353-360). -/
def lookup_name (m : Registry) (deviceId : Int) : String :=
  match m.find deviceId with
  | some info => info.name
  | none => fallback_device_name deviceId

/-- The slots visited by the loop of `poll` (line 365). -/
def slots : List Int := (List.range MAX_GAMEPADS).map Int.ofNat

/-- One turn of the loop of `poll` (lines 366-379) for the slot `id`: the registry and
the local `changed`, before and after. -/
def poll_slot (capabilities : Int → Option Nat) (acc : Registry × Bool) (id : Int) :
    Registry × Bool :=
  match query_device_info id (capabilities id) with
  | some info =>
    match acc.1.find id with
    | none => (acc.1.assign id info, true)
    | some entry =>
      if entry.name ≠ info.name ∨ entry.manufacturer ≠ info.manufacturer then
        (acc.1.assign id info, true)
      else acc
  | none =>
    if (acc.1.erase id).2 > 0 then ((acc.1.erase id).1, true) else ((acc.1.erase id).1, acc.2)

/-- The method `poll` (lines 363-384): the registry afterwards and the number of
`devicesChanged` notifications raised.  `capabilities` is what
`XInputGetCapabilities` answers for each slot during the pass. -/
def poll (m : Registry) (capabilities : Int → Option Nat) : Registry × Nat :=
  let result := slots.foldl (poll_slot capabilities) (m, false)
  (result.1, if result.2 then 1 else 0)

/-- The registry after the polling passes made so far (the first one by the
constructor, line 333), given what the backend answered during each. -/
def registry_after (answers : List (Int → Option Nat)) : Registry :=
  answers.foldl (fun m capabilities => (poll m capabilities).1) []

/-- A registry in which every entry sits in one of the slots, under its own id. -/
def well_formed (m : Registry) : Prop :=
  ∀ k v, m.find k = some v → v.id = k ∧ k ∈ slots

end DeviceMonitor

/-! ## Reading a translated command -/

/-- The local `dx` of `compose_dpad` (line 133): right minus left. -/
def dpad_dx (state : GamepadState) : Int :=
  (if state.dpad_right then 1 else 0) - (if state.dpad_left then 1 else 0)

/-- The local `dy` of `compose_dpad` (line 134): down minus up. -/
def dpad_dy (state : GamepadState) : Int :=
  (if state.dpad_down then 1 else 0) - (if state.dpad_up then 1 else 0)

/-- Whether the bit of button `b` is set in the button mask of a command. -/
def ProControllerState.pressed (s : ProControllerState) (b : Button) : Bool :=
  s.buttons.testBit b.bit

/-! ## Concrete inputs -/

/-- A connected gamepad with only the left trigger pulled, to the given magnitude. -/
def pull_l2 (magnitude : Nat) : GamepadState := { connected := true, trigger_l2 := magnitude }

/-- An XInput sample with only the A button down. -/
def xinput_a : XINPUT_STATE := { Gamepad := { wButtons := XINPUT_GAMEPAD_A } }

/-- An XInput sample with only the BACK button down. -/
def xinput_back : XINPUT_STATE := { Gamepad := { wButtons := XINPUT_GAMEPAD_BACK } }

/-- An XInput sample with nothing pressed. -/
def xinput_idle : XINPUT_STATE := {}

/-- A connected gamepad whose only activity is the left stick's vertical axis at the
given reading. -/
def tilt_left_y (y : Int) : GamepadState := { connected := true, axis_left_y := y }


/-- A session with a supported controller, ready, not blocked, issuing without error. -/
def pro_session : ControllerSession :=
  { controller_type := ControllerType.NintendoSwitch_WirelessProController
    ready := true, user_input_blocked := "", ticksize := 0, issue_error := "" }

/-- The same session after the user selected a controller type that is not supported. -/
def unsupported_session : ControllerSession :=
  { pro_session with controller_type := ControllerType.other 0 }

/-- The same session, no longer ready. -/
def not_ready_session : ControllerSession :=
  { pro_session with ready := false }

/-- The same session when the issuing call fails. -/
def failing_session : ControllerSession :=
  { pro_session with issue_error := "timeout" }

/-- The same session when the issuing call fails with another message. -/
def busy_session : ControllerSession :=
  { pro_session with issue_error := "busy" }

/-- A connected gamepad with only the south button pressed. -/
def press_south : GamepadState := { connected := true, south := true }

/-- A connected gamepad with only the east button pressed. -/
def press_east : GamepadState := { connected := true, east := true }

/-- A connected gamepad at rest. -/
def at_rest : GamepadState := { connected := true }

/-- A dispatcher that is active and holds a non-neutral command: the state reached
from the initial one by `set_active(true)`, `submit_state(press_south)` and one
pass of the worker against `pro_session`. -/
def held_processor : GamepadCommandProcessor :=
  (({} : GamepadCommandProcessor).run
    [Op.set_active true, Op.submit_state press_south, Op.worker_pass pro_session]).1

/-- The steps by which the dispatcher is activated, `press_south` is submitted, and the
worker takes both out of the handoff block. -/
def in_flight_steps : List Action :=
  [Action.enter (Holder.set_active true), Action.leave_block,
   Action.enter (Holder.submit_state press_south), Action.leave_block,
   Action.enter Holder.worker, Action.leave_block]

/-- The state after `in_flight_steps`: the worker is about to translate and issue
`press_south`. -/
def in_flight : Machine :=
  { p := { m_active := true, m_pending := press_south }
    mutex := none
    pc := WorkerAt.dispatching
      { state := press_south, hasState := true, active := true, activeChanged := true }
    trace := [] }

/-! ## General facts -/

theorem GamepadState.eq_iff (a b : GamepadState) : a.eq b = true ↔ a = b := by
  cases a; cases b
  simp only [GamepadState.eq, Bool.and_eq_true, beq_iff_eq, GamepadState.mk.injEq, and_assoc]

namespace GamepadCommandProcessor

theorem submit_state_eq (p : GamepadCommandProcessor) (state : GamepadState) :
    p.submit_state state = { p with m_pending := state, m_hasPending := true } := by
  unfold submit_state
  split
  · rename_i h
    simp only [Bool.and_eq_true, GamepadState.eq_iff] at h
    obtain ⟨h1, h2⟩ := h
    cases p
    simp_all
  · rfl

theorem submit_all_frame (states : List GamepadState) (p : GamepadCommandProcessor) :
    ∃ x b, p.submit_all states = { p with m_pending := x, m_hasPending := b } := by
  unfold submit_all
  induction states generalizing p with
  | nil => exact ⟨p.m_pending, p.m_hasPending, rfl⟩
  | cons s sts ih =>
    obtain ⟨x, b, hx⟩ := ih (p.submit_state s)
    refine ⟨x, b, ?_⟩
    rw [List.foldl_cons, hx, submit_state_eq]

theorem submit_all_snoc (p : GamepadCommandProcessor) (states : List GamepadState)
    (state : GamepadState) :
    p.submit_all (states ++ [state]) = { p with m_pending := state, m_hasPending := true } := by
  obtain ⟨x, b, hx⟩ := submit_all_frame states p
  unfold submit_all at hx ⊢
  rw [List.foldl_append]
  simp only [List.foldl_cons, List.foldl_nil]
  rw [submit_state_eq, hx]

theorem ensure_cancel_state (p : GamepadCommandProcessor) (session : ControllerSession) :
    (p.ensure_cancel session).1 = { p with m_lastNeutral := true } := by
  unfold ensure_cancel
  split
  · rename_i h; cases p; simp_all
  · split <;> rfl

theorem ensure_cancel_events (p : GamepadCommandProcessor) (session : ControllerSession) :
    (p.ensure_cancel session).2 =
      if !p.m_lastNeutral && is_pro_controller_type session.controller_type
      then [Event.cancel_all_commands] else [] := by
  unfold ensure_cancel
  cases p.m_lastNeutral <;> cases is_pro_controller_type session.controller_type <;> rfl

theorem worker_iteration_inactive (p : GamepadCommandProcessor) (session : ControllerSession)
    (hstop : p.m_stop = false) (hactive : p.m_active = false)
    (hwake : (p.m_hasPending || p.m_activeChanged) = true) :
    p.worker_iteration session =
      LoopStep.continued
        { p with m_hasPending := false, m_activeChanged := false, m_lastNeutral := true }
        (if !p.m_lastNeutral && is_pro_controller_type session.controller_type
         then [Event.cancel_all_commands] else []) := by
  obtain ⟨st, ac, ch, hp, pe, ln, lp, le, wu⟩ := p
  simp only at hstop hactive hwake
  subst hstop hactive
  unfold worker_iteration locked_section unlocked_section
  simp only [Bool.false_or, hwake, Bool.not_true, Bool.false_eq_true, if_false, Bool.not_false,
    if_true]
  cases ln <;> cases ch <;> cases hpro : is_pro_controller_type session.controller_type <;>
    simp [ensure_cancel, hpro]

theorem worker_iteration_stop (p : GamepadCommandProcessor) (session : ControllerSession)
    (hstop : p.m_stop = true) :
    p.worker_iteration session =
      LoopStep.exited { p with m_lastNeutral := true }
        (if !p.m_lastNeutral && is_pro_controller_type session.controller_type
         then [Event.cancel_all_commands] else []) := by
  obtain ⟨st, ac, ch, hp, pe, ln, lp, le, wu⟩ := p
  simp only at hstop
  subst hstop
  unfold worker_iteration
  cases ln <;> cases hpro : is_pro_controller_type session.controller_type <;>
    simp [ensure_cancel, hpro]

/-- While the dispatcher is inactive and the target known-neutral, nothing that
happens (short of `set_active(true)`) produces an event. -/
theorem run_inactive_neutral (ops : List Op) (p : GamepadCommandProcessor)
    (hactive : p.m_active = false) (hneutral : p.m_lastNeutral = true)
    (hops : ∀ op ∈ ops, op ≠ Op.set_active true) :
    (p.run ops).2 = [] ∧ (p.run ops).1.m_active = false ∧ (p.run ops).1.m_lastNeutral = true := by
  induction ops generalizing p with
  | nil => exact ⟨rfl, hactive, hneutral⟩
  | cons op ops ih =>
    have hrest : ∀ o ∈ ops, o ≠ Op.set_active true := fun o ho => hops o (List.mem_cons_of_mem _ ho)
    have hop : op ≠ Op.set_active true := hops op (List.mem_cons_self _ _)
    have key : (p.apply op).2 = [] ∧ (p.apply op).1.m_active = false ∧
        (p.apply op).1.m_lastNeutral = true := by
      cases op with
      | submit_state state =>
        simp [apply, submit_state_eq, hactive, hneutral]
      | set_active active =>
        cases active with
        | true => exact absurd rfl hop
        | false =>
          simp [apply, set_active, hactive, hneutral]
      | request_stop => exact ⟨rfl, hactive, hneutral⟩
      | worker_pass session =>
        simp only [apply]
        cases hstop : p.m_stop with
        | true =>
          rw [worker_iteration_stop p session hstop]
          simp [LoopStep.events, LoopStep.state, hneutral, hactive]
        | false =>
          cases hwake : (p.m_hasPending || p.m_activeChanged) with
          | true =>
            rw [worker_iteration_inactive p session hstop hactive hwake]
            simp [LoopStep.events, LoopStep.state, hneutral, hactive]
          | false =>
            have : p.worker_iteration session = LoopStep.waiting := by
              unfold worker_iteration
              simp only [Bool.or_eq_false_iff] at hwake
              simp [hstop, hwake.1, hwake.2]
            rw [this]
            exact ⟨rfl, hactive, hneutral⟩
    obtain ⟨k1, k2, k3⟩ := key
    obtain ⟨i1, i2, i3⟩ := ih (p.apply op).1 k2 k3 hrest
    refine ⟨?_, i2, i3⟩
    show (p.apply op).2 ++ ((p.apply op).1.run ops).2 = []
    rw [k1, i1]; rfl

theorem worker_iteration_active_pending (p : GamepadCommandProcessor)
    (session : ControllerSession)
    (hstop : p.m_stop = false) (hactive : p.m_active = true) (hpending : p.m_hasPending = true) :
    p.worker_iteration session =
      LoopStep.continued
        (process_state { p with m_hasPending := false, m_activeChanged := false } session
          p.m_pending).1
        (process_state { p with m_hasPending := false, m_activeChanged := false } session
          p.m_pending).2 := by
  obtain ⟨st, ac, ch, hp, pe, ln, lp, le, wu⟩ := p
  simp only at hstop hactive hpending
  subst hstop hactive hpending
  simp [worker_iteration, locked_section, unlocked_section]

theorem worker_iteration_active_idle (p : GamepadCommandProcessor)
    (session : ControllerSession)
    (hstop : p.m_stop = false) (hactive : p.m_active = true) (hpending : p.m_hasPending = false)
    (hchanged : p.m_activeChanged = true) :
    p.worker_iteration session = LoopStep.continued { p with m_activeChanged := false } [] := by
  obtain ⟨st, ac, ch, hp, pe, ln, lp, le, wu⟩ := p
  simp only at hstop hactive hpending hchanged
  subst hstop hactive hpending hchanged
  simp [worker_iteration, locked_section, unlocked_section]

/-- The requests of the issuing lambda: an optional `replace_on_next_command`, then
the `issue_full_controller_state` call. -/
theorem issue_requests_eq (p : GamepadCommandProcessor) (session : ControllerSession)
    (new_state : ProControllerState) :
    issue_requests p session new_state =
      (if !p.m_lastNeutral && !(new_state == p.m_lastProState)
       then [Event.replace_on_next_command] else []) ++
      [Event.issue_full_controller_state
        (if session.ticksize == 0 then 2000 else session.ticksize * 255) new_state] := rfl

/-- The path of `process_state` through all four gates with a non-neutral command. -/
theorem process_state_issue (p : GamepadCommandProcessor) (session : ControllerSession)
    (state : GamepadState)
    (hpro : is_pro_controller_type session.controller_type = true)
    (hready : session.ready = true) (hblock : session.user_input_blocked = "")
    (hconn : state.connected = true) (hnn : (apply_to_pro_state state).1 = false) :
    process_state p session state =
      if session.issue_error = "" then
        ({ p with m_warnedUnsupported := none, m_lastError := none,
                  m_lastProState := (apply_to_pro_state state).2, m_lastNeutral := false },
         issue_requests p session (apply_to_pro_state state).2)
      else
        ({ p with m_warnedUnsupported := none,
                  m_lastError := some (failure_message session.issue_error),
                  m_lastNeutral := true },
         issue_requests p session (apply_to_pro_state state).2 ++
          (if p.m_lastError = some (failure_message session.issue_error) then []
           else [Event.log (failure_message session.issue_error)]) ++
          (if !p.m_lastNeutral then [Event.cancel_all_commands] else [])) := by
  obtain ⟨st, ac, ch, hp, pe, ln, lp, le, wu⟩ := p
  unfold process_state
  simp only [hpro, hready, hblock, hconn, hnn, Bool.not_true, Bool.false_eq_true, if_false,
    beq_self_eq_true]
  by_cases herr : session.issue_error = ""
  · simp [herr, issue_requests]
  · by_cases hle : le = some (failure_message session.issue_error)
    · cases ln <;> simp [log_once, ensure_cancel, hle, hpro, issue_requests, herr]
    · cases ln <;> cases le <;> simp_all [log_once, ensure_cancel, hpro, issue_requests]

/-- Every path of `process_state` that does not reach the issuing call: the optional
unsupported-type warning, then `ensure_cancel`. -/
theorem process_state_dropped (p : GamepadCommandProcessor) (session : ControllerSession)
    (state : GamepadState) (h : attempts_issue session state = false) :
    process_state p session state =
      ({ p with
          m_warnedUnsupported :=
            if is_pro_controller_type session.controller_type then none
            else some session.controller_type,
          m_lastNeutral := true },
       (if is_pro_controller_type session.controller_type then []
        else if p.m_warnedUnsupported = some session.controller_type then []
        else [Event.log unsupported_warning]) ++
       (if !p.m_lastNeutral && is_pro_controller_type session.controller_type
        then [Event.cancel_all_commands] else [])) := by
  obtain ⟨st, ac, ch, hp, pe, ln, lp, le, wu⟩ := p
  unfold attempts_issue passes_gates at h
  unfold process_state
  cases hpro : is_pro_controller_type session.controller_type
  · by_cases hw : wu = some session.controller_type
    · cases ln <;> simp [hw, ensure_cancel, hpro]
    · cases ln <;> cases wu <;> simp_all [ensure_cancel]
  · cases hready : session.ready
    · cases ln <;> simp [ensure_cancel, hpro]
    · by_cases hblock : session.user_input_blocked = ""
      · cases hconn : state.connected
        · cases ln <;> simp [ensure_cancel, hpro, hblock]
        · have hn : (apply_to_pro_state state).1 = true := by
            simpa [hpro, hready, hblock, hconn] using h
          cases ln <;> simp [ensure_cancel, hpro, hblock, hn]
      · cases ln <;> simp [ensure_cancel, hpro, hblock]

/-- The method `ensure_cancel` neither reads nor writes the fields guarded by `m_mutex`. -/
theorem ensure_cancel_with_shared (p q : GamepadCommandProcessor) (session : ControllerSession) :
    (with_shared p q).ensure_cancel session =
      (with_shared (p.ensure_cancel session).1 q, (p.ensure_cancel session).2) := by
  apply Prod.ext
  · simp only [ensure_cancel_state]; rfl
  · simp only [ensure_cancel_events]; rfl

/-- The method `process_state` neither reads nor writes the fields guarded by `m_mutex`. -/
theorem process_state_with_shared (p q : GamepadCommandProcessor) (session : ControllerSession)
    (state : GamepadState) :
    (with_shared p q).process_state session state =
      (with_shared (p.process_state session state).1 q, (p.process_state session state).2) := by
  cases hatt : attempts_issue session state with
  | false =>
    rw [process_state_dropped _ session state hatt, process_state_dropped _ session state hatt]
    rfl
  | true =>
    unfold attempts_issue passes_gates at hatt
    simp only [Bool.and_eq_true, beq_iff_eq, Bool.not_eq_true'] at hatt
    obtain ⟨⟨⟨⟨hpro, hready⟩, hblock⟩, hconn⟩, hnn⟩ := hatt
    rw [process_state_issue _ session _ hpro hready hblock hconn hnn,
      process_state_issue _ session _ hpro hready hblock hconn hnn]
    split <;> rfl

/-- The part of a pass that runs without the mutex neither reads nor writes the fields
guarded by it. -/
theorem unlocked_section_with_shared (p q : GamepadCommandProcessor) (l : Locals)
    (session : ControllerSession) :
    unlocked_section (with_shared p q) l session =
      (with_shared (unlocked_section p l session).1 q, (unlocked_section p l session).2) := by
  unfold unlocked_section
  cases l.active with
  | false =>
    simp only [Bool.not_false, if_true]
    cases hc : (l.activeChanged || !p.m_lastNeutral) with
    | true =>
      have hc2 : (l.activeChanged || !(with_shared p q).m_lastNeutral) = true := hc
      simp only [hc2, if_true, ensure_cancel_with_shared]
      rfl
    | false =>
      have hc2 : (l.activeChanged || !(with_shared p q).m_lastNeutral) = false := hc
      simp only [hc2, Bool.false_eq_true, if_false]
      rfl
  | true =>
    simp only [Bool.not_true, Bool.false_eq_true, if_false]
    cases l.hasState with
    | false => rfl
    | true => exact process_state_with_shared p q session l.state

/-- A `submit_state` that lands while the worker is in the part of a pass that runs
without the mutex has the effect of one that lands right after the pass. -/
theorem unlocked_section_submit_state (p : GamepadCommandProcessor) (l : Locals)
    (session : ControllerSession) (state : GamepadState) :
    unlocked_section (p.submit_state state) l session =
      ((unlocked_section p l session).1.submit_state state, (unlocked_section p l session).2) := by
  have h : p.submit_state state = with_shared p (p.submit_state state) := by
    rw [submit_state_eq]; rfl
  have key := unlocked_section_with_shared p (p.submit_state state) l session
  rw [← h] at key
  have hu : (unlocked_section p l session).1 = with_shared (unlocked_section p l session).1 p :=
    congrArg Prod.fst (unlocked_section_with_shared p p l session)
  rw [key]
  generalize (unlocked_section p l session).1 = u at hu
  rw [submit_state_eq, submit_state_eq, hu]
  rfl

/-- A `set_active` that lands while the worker is in the part of a pass that runs
without the mutex has the effect of one that lands right after the pass. -/
theorem unlocked_section_set_active (p : GamepadCommandProcessor) (l : Locals)
    (session : ControllerSession) (active : Bool) :
    unlocked_section (p.set_active active) l session =
      ((unlocked_section p l session).1.set_active active, (unlocked_section p l session).2) := by
  have h : p.set_active active = with_shared p (p.set_active active) := by
    unfold set_active; split <;> rfl
  have key := unlocked_section_with_shared p (p.set_active active) l session
  rw [← h] at key
  have hu : (unlocked_section p l session).1 = with_shared (unlocked_section p l session).1 p :=
    congrArg Prod.fst (unlocked_section_with_shared p p l session)
  rw [key]
  generalize (unlocked_section p l session).1 = u at hu
  rw [hu]
  unfold set_active with_shared
  simp only
  split <;> rfl

/-- The events of one pass of the worker, path by path. -/
theorem worker_iteration_events (p : GamepadCommandProcessor) (session : ControllerSession) :
    (p.worker_iteration session).events =
      if p.m_stop = false ∧ p.m_active = true then
        (if p.m_hasPending then
          (process_state { p with m_hasPending := false, m_activeChanged := false } session
            p.m_pending).2
         else [])
      else if (p.m_stop || p.m_hasPending || p.m_activeChanged) &&
          (!p.m_lastNeutral && is_pro_controller_type session.controller_type)
        then [Event.cancel_all_commands] else [] := by
  cases hstop : p.m_stop with
  | true =>
    rw [worker_iteration_stop p session hstop]
    simp [LoopStep.events]
  | false =>
    cases hactive : p.m_active with
    | false =>
      cases hwake : (p.m_hasPending || p.m_activeChanged) with
      | true =>
        rw [worker_iteration_inactive p session hstop hactive hwake]
        simp only [Bool.or_eq_true] at hwake
        rcases hwake with h | h <;> simp [LoopStep.events, h]
      | false =>
        simp only [Bool.or_eq_false_iff] at hwake
        simp [worker_iteration, hstop, hwake.1, hwake.2, LoopStep.events]
    | true =>
      cases hpending : p.m_hasPending with
      | true =>
        rw [worker_iteration_active_pending p session hstop hactive hpending]
        simp [LoopStep.events, hstop, hactive]
      | false =>
        cases hchanged : p.m_activeChanged with
        | true =>
          rw [worker_iteration_active_idle p session hstop hactive hpending hchanged]
          simp [LoopStep.events]
        | false =>
          simp [worker_iteration, hstop, hpending, hchanged, LoopStep.events]

end GamepadCommandProcessor

theorem failure_message_injective (a b : String) (h : failure_message a = failure_message b) :
    a = b := by
  unfold failure_message at h
  have h2 := congrArg String.data h
  simp only [String.data_append, List.append_cancel_left_eq] at h2
  exact String.ext h2

namespace GamepadCommandProcessor

/-- A cycle whose issuing call fails: what is logged and what is recorded. -/
theorem process_state_failed (p : GamepadCommandProcessor) (session : ControllerSession)
    (state : GamepadState) (hatt : attempts_issue session state = true)
    (herr : session.issue_error ≠ "") :
    (p.process_state session state).2.filter Event.is_log =
      (if p.m_lastError = some (failure_message session.issue_error) then []
       else [Event.log (failure_message session.issue_error)]) ∧
    (p.process_state session state).1.m_lastError =
      some (failure_message session.issue_error) := by
  unfold attempts_issue passes_gates at hatt
  simp only [Bool.and_eq_true, beq_iff_eq, Bool.not_eq_true'] at hatt
  obtain ⟨⟨⟨⟨hpro, hready⟩, hblock⟩, hconn⟩, hnn⟩ := hatt
  rw [process_state_issue _ session _ hpro hready hblock hconn hnn, issue_requests_eq]
  by_cases hle : p.m_lastError = some (failure_message session.issue_error) <;>
  cases hn : p.m_lastNeutral <;>
  cases hrep : (!((apply_to_pro_state state).2 == p.m_lastProState)) <;>
    simp [herr, hle, hrep, Event.is_log, List.filter_cons]

/-- A cycle whose issuing call succeeds: nothing is logged, the recorded error is
cleared. -/
theorem process_state_issued (p : GamepadCommandProcessor) (session : ControllerSession)
    (state : GamepadState) (hatt : attempts_issue session state = true)
    (herr : session.issue_error = "") :
    (p.process_state session state).2.filter Event.is_log = [] ∧
    (p.process_state session state).1.m_lastError = none := by
  unfold attempts_issue passes_gates at hatt
  simp only [Bool.and_eq_true, beq_iff_eq, Bool.not_eq_true'] at hatt
  obtain ⟨⟨⟨⟨hpro, hready⟩, hblock⟩, hconn⟩, hnn⟩ := hatt
  rw [process_state_issue _ session _ hpro hready hblock hconn hnn, issue_requests_eq]
  cases hn : p.m_lastNeutral <;>
  cases hrep : (!((apply_to_pro_state state).2 == p.m_lastProState)) <;>
    simp [herr, hrep, Event.is_log, List.filter_cons]

/-- The recorded error of the dispatcher is the message of the last logged failure
of its history. -/
theorem dispatch_history_lastError (cs : List (ControllerSession × GamepadState))
    (p : GamepadCommandProcessor) (history : List CycleRecord)
    (hinv : p.m_lastError = (last_logged_failure history).map failure_message) :
    (p.dispatch_history history cs).1.m_lastError =
      (last_logged_failure (p.dispatch_history history cs).2).map failure_message := by
  induction cs generalizing p history with
  | nil => exact hinv
  | cons c cs ih =>
    unfold dispatch_history
    apply ih
    cases hatt : attempts_issue c.1 c.2 with
    | false =>
      rw [process_state_dropped p c.1 c.2 hatt]
      simp [last_logged_failure, outcome, hatt, hinv]
    | true =>
      by_cases herr : c.1.issue_error = ""
      · rw [(process_state_issued p c.1 c.2 hatt herr).2]
        simp [last_logged_failure, outcome, hatt, herr]
      · obtain ⟨hlog, hrec⟩ := process_state_failed p c.1 c.2 hatt herr
        rw [hrec]
        have hany : (p.process_state c.1 c.2).2.any Event.is_log =
            !decide (p.m_lastError = some (failure_message c.1.issue_error)) := by
          have h1 : (p.process_state c.1 c.2).2.any Event.is_log =
              ((p.process_state c.1 c.2).2.filter Event.is_log).any Event.is_log := by
            simp [List.any_filter]
          rw [h1, hlog]
          by_cases hle : p.m_lastError = some (failure_message c.1.issue_error) <;>
            simp [hle, Event.is_log]
        simp only [last_logged_failure, outcome, hatt, herr, if_true, if_false, hany]
        by_cases hle : p.m_lastError = some (failure_message c.1.issue_error)
        · simp [hle, ← hinv]
        · simp [hle]

/-- Consecutive cycles that all fail with the same error write one line between them,
unless the line is suppressed from the start. -/
theorem dispatch_cycles_same_failure (cs : List (ControllerSession × GamepadState))
    (p : GamepadCommandProcessor) (error : String) (herr : error ≠ "")
    (hall : ∀ c ∈ cs, attempts_issue c.1 c.2 = true ∧ c.1.issue_error = error) :
    (p.dispatch_cycles cs).2.filter Event.is_log =
      (if cs = [] ∨ p.m_lastError = some (failure_message error) then []
       else [Event.log (failure_message error)]) ∧
    (cs ≠ [] → (p.dispatch_cycles cs).1.m_lastError = some (failure_message error)) := by
  induction cs generalizing p with
  | nil => simp [dispatch_cycles]
  | cons c cs ih =>
    obtain ⟨hatt, hce⟩ := hall c (List.mem_cons_self _ _)
    have hrest : ∀ d ∈ cs, attempts_issue d.1 d.2 = true ∧ d.1.issue_error = error :=
      fun d hd => hall d (List.mem_cons_of_mem _ hd)
    obtain ⟨hlog, hrec⟩ := process_state_failed p c.1 c.2 hatt (by rw [hce]; exact herr)
    rw [hce] at hlog hrec
    obtain ⟨ih1, ih2⟩ := ih (p.process_state c.1 c.2).1 hrest
    unfold dispatch_cycles
    refine ⟨?_, fun _ => ?_⟩
    · rw [List.filter_append, hlog, ih1]
      by_cases hle : p.m_lastError = some (failure_message error) <;> simp [hle, hrec]
    · cases cs with
      | nil => simpa [dispatch_cycles] using hrec
      | cons d ds => exact ih2 (List.cons_ne_nil _ _)

/-- A cycle that sees an unsupported controller type. -/
theorem process_state_unsupported (p : GamepadCommandProcessor) (session : ControllerSession)
    (state : GamepadState) (h : is_pro_controller_type session.controller_type = false) :
    p.process_state session state =
      ({ p with m_warnedUnsupported := some session.controller_type, m_lastNeutral := true },
       if p.m_warnedUnsupported = some session.controller_type then []
       else [Event.log unsupported_warning]) := by
  have hatt : attempts_issue session state = false := by
    simp [attempts_issue, passes_gates, h]
  rw [process_state_dropped p session state hatt]
  simp [h]

/-- A cycle that sees a supported controller type forgets the recorded unsupported
type. -/
theorem process_state_supported (p : GamepadCommandProcessor) (session : ControllerSession)
    (state : GamepadState) (h : is_pro_controller_type session.controller_type = true) :
    (p.process_state session state).1.m_warnedUnsupported = none := by
  cases hatt : attempts_issue session state with
  | false =>
    rw [process_state_dropped p session state hatt]
    simp [h]
  | true =>
    unfold attempts_issue passes_gates at hatt
    simp only [Bool.and_eq_true, beq_iff_eq, Bool.not_eq_true'] at hatt
    obtain ⟨⟨⟨⟨hpro, hready⟩, hblock⟩, hconn⟩, hnn⟩ := hatt
    rw [process_state_issue _ session _ hpro hready hblock hconn hnn]
    split <;> rfl

/-- Consecutive cycles that all see the same unsupported controller type log the
warning once between them, unless it is suppressed from the start. -/
theorem dispatch_cycles_unsupported (cs : List (ControllerSession × GamepadState))
    (p : GamepadCommandProcessor) (type : ControllerType)
    (htype : is_pro_controller_type type = false)
    (hall : ∀ c ∈ cs, c.1.controller_type = type) :
    (p.dispatch_cycles cs).2 =
      (if cs = [] ∨ p.m_warnedUnsupported = some type then []
       else [Event.log unsupported_warning]) ∧
    (cs ≠ [] → (p.dispatch_cycles cs).1.m_warnedUnsupported = some type) := by
  induction cs generalizing p with
  | nil => simp [dispatch_cycles]
  | cons c cs ih =>
    have hc : c.1.controller_type = type := hall c (List.mem_cons_self _ _)
    have hrest : ∀ d ∈ cs, d.1.controller_type = type :=
      fun d hd => hall d (List.mem_cons_of_mem _ hd)
    have hstep := process_state_unsupported p c.1 c.2 (by rw [hc]; exact htype)
    rw [hc] at hstep
    obtain ⟨ih1, ih2⟩ := ih (p.process_state c.1 c.2).1 hrest
    unfold dispatch_cycles
    refine ⟨?_, fun _ => ?_⟩
    · rw [ih1, hstep]
      by_cases hw : p.m_warnedUnsupported = some type <;> simp [hw]
    · cases cs with
      | nil => simp [dispatch_cycles, hstep]
      | cons d ds => exact ih2 (List.cons_ne_nil _ _)

end GamepadCommandProcessor

/-! ## Facts about cancellation and issuance in a run -/

namespace GamepadCommandProcessor

/-- A pass of the worker that calls `cancel_all_commands` starts with the target not
known-neutral and a Pro controller type, and ends with the target known-neutral. -/
theorem cancel_in_pass (p : GamepadCommandProcessor) (session : ControllerSession)
    (h : Event.cancel_all_commands ∈ (p.worker_iteration session).events) :
    p.m_lastNeutral = false ∧ is_pro_controller_type session.controller_type = true ∧
    ((p.worker_iteration session).state p).m_lastNeutral = true := by
  cases hstop : p.m_stop with
  | true =>
    rw [worker_iteration_stop p session hstop] at h ⊢
    simp only [LoopStep.events, LoopStep.state] at h ⊢
    cases hn : p.m_lastNeutral <;>
      cases hpro : is_pro_controller_type session.controller_type <;> simp [hn, hpro] at h ⊢
  | false =>
    cases hactive : p.m_active with
    | false =>
      cases hwake : (p.m_hasPending || p.m_activeChanged) with
      | true =>
        rw [worker_iteration_inactive p session hstop hactive hwake] at h ⊢
        simp only [LoopStep.events, LoopStep.state] at h ⊢
        cases hn : p.m_lastNeutral <;>
          cases hpro : is_pro_controller_type session.controller_type <;> simp [hn, hpro] at h ⊢
      | false =>
        simp only [Bool.or_eq_false_iff] at hwake
        simp [worker_iteration, hstop, hwake.1, hwake.2, LoopStep.events] at h
    | true =>
      cases hpending : p.m_hasPending with
      | false =>
        cases hchanged : p.m_activeChanged with
        | true =>
          rw [worker_iteration_active_idle p session hstop hactive hpending hchanged] at h
          simp [LoopStep.events] at h
        | false =>
          simp [worker_iteration, hstop, hpending, hchanged, LoopStep.events] at h
      | true =>
        rw [worker_iteration_active_pending p session hstop hactive hpending] at h ⊢
        simp only [LoopStep.events, LoopStep.state] at h ⊢
        cases hatt : attempts_issue session p.m_pending with
        | false =>
          rw [process_state_dropped _ session _ hatt] at h ⊢
          cases hn : p.m_lastNeutral <;>
            cases hpro : is_pro_controller_type session.controller_type <;>
            by_cases hw : p.m_warnedUnsupported = some session.controller_type <;>
              simp [hn, hpro, hw] at h ⊢
        | true =>
          have hatt2 := hatt
          unfold attempts_issue passes_gates at hatt2
          simp only [Bool.and_eq_true, beq_iff_eq, Bool.not_eq_true'] at hatt2
          obtain ⟨⟨⟨⟨hpro, hready⟩, hblock⟩, hconn⟩, hnn⟩ := hatt2
          rw [process_state_issue _ session _ hpro hready hblock hconn hnn,
            issue_requests_eq] at h ⊢
          by_cases herr : session.issue_error = "" <;>
          by_cases hle : p.m_lastError = some (failure_message session.issue_error) <;>
          cases hn : p.m_lastNeutral <;>
          cases hrep : (!((apply_to_pro_state p.m_pending).2 == p.m_lastProState)) <;>
            simp [herr, hle, hn, hrep, hpro] at h ⊢

/-- One pass of the worker calls `cancel_all_commands` at most once. -/
theorem cancel_once_in_pass (p : GamepadCommandProcessor) (session : ControllerSession) :
    ((p.worker_iteration session).events.filter Event.is_cancel).length ≤ 1 := by
  rw [worker_iteration_events]
  split
  · split
    · cases hatt : attempts_issue session p.m_pending with
      | false =>
        rw [process_state_dropped _ session _ hatt]
        simp only []
        cases hn : p.m_lastNeutral <;>
          cases hpro : is_pro_controller_type session.controller_type <;>
          by_cases hw : p.m_warnedUnsupported = some session.controller_type <;>
            simp [hw, Event.is_cancel, List.filter_cons]
      | true =>
        have hatt2 := hatt
        unfold attempts_issue passes_gates at hatt2
        simp only [Bool.and_eq_true, beq_iff_eq, Bool.not_eq_true'] at hatt2
        obtain ⟨⟨⟨⟨hpro, hready⟩, hblock⟩, hconn⟩, hnn⟩ := hatt2
        rw [process_state_issue _ session _ hpro hready hblock hconn hnn, issue_requests_eq]
        by_cases herr : session.issue_error = "" <;>
        by_cases hle : p.m_lastError = some (failure_message session.issue_error) <;>
        cases hn : p.m_lastNeutral <;>
        cases hrep : (!((apply_to_pro_state p.m_pending).2 == p.m_lastProState)) <;>
          simp [herr, hle, hrep, Event.is_cancel, List.filter_cons]
    · simp
  · split <;> simp [Event.is_cancel, List.filter_cons]

/-- An operation that is not a successful issuance keeps a known-neutral target
known-neutral and makes no `cancel_all_commands` call. -/
theorem apply_keeps_neutral (p : GamepadCommandProcessor) (op : Op)
    (hneutral : p.m_lastNeutral = true) (hop : p.issues op = false) :
    (p.apply op).1.m_lastNeutral = true ∧ Event.cancel_all_commands ∉ (p.apply op).2 := by
  cases op with
  | submit_state state => simp [apply, submit_state_eq, hneutral]
  | set_active active =>
    simp only [apply, set_active]
    split <;> simp [hneutral]
  | request_stop => simp [apply, request_stop, hneutral]
  | worker_pass session =>
    have hno : Event.cancel_all_commands ∉ (p.worker_iteration session).events := by
      intro h
      have := (cancel_in_pass p session h).1
      rw [hneutral] at this
      exact Bool.noConfusion this
    refine ⟨?_, hno⟩
    simp only [apply]
    cases hstop : p.m_stop with
    | true =>
      rw [worker_iteration_stop p session hstop]
      rfl
    | false =>
      cases hactive : p.m_active with
      | false =>
        cases hwake : (p.m_hasPending || p.m_activeChanged) with
        | true =>
          rw [worker_iteration_inactive p session hstop hactive hwake]
          rfl
        | false =>
          simp only [Bool.or_eq_false_iff] at hwake
          simp [worker_iteration, hstop, hwake.1, hwake.2, LoopStep.state, hneutral]
      | true =>
        cases hpending : p.m_hasPending with
        | false =>
          cases hchanged : p.m_activeChanged with
          | true =>
            rw [worker_iteration_active_idle p session hstop hactive hpending hchanged]
            exact hneutral
          | false =>
            simp [worker_iteration, hstop, hpending, hchanged, LoopStep.state, hneutral]
        | true =>
          rw [worker_iteration_active_pending p session hstop hactive hpending]
          simp only [LoopStep.state]
          cases hatt : attempts_issue session p.m_pending with
          | false =>
            rw [process_state_dropped _ session _ hatt]
          | true =>
            have herr : session.issue_error ≠ "" := by
              intro herr
              simp [issues, hstop, hactive, hpending, hatt, herr] at hop
            have hatt2 := hatt
            unfold attempts_issue passes_gates at hatt2
            simp only [Bool.and_eq_true, beq_iff_eq, Bool.not_eq_true'] at hatt2
            obtain ⟨⟨⟨⟨hpro, hready⟩, hblock⟩, hconn⟩, hnn⟩ := hatt2
            rw [process_state_issue _ session _ hpro hready hblock hconn hnn, if_neg herr]

/-- A stretch of a run without a successful issuance, started with the target
known-neutral, makes no `cancel_all_commands` call and ends known-neutral. -/
theorem run_never_issues (ops : List Op) (p : GamepadCommandProcessor)
    (hneutral : p.m_lastNeutral = true) (hnever : p.never_issues ops = true) :
    (p.run ops).1.m_lastNeutral = true ∧ Event.cancel_all_commands ∉ (p.run ops).2 := by
  induction ops generalizing p with
  | nil => exact ⟨hneutral, by simp [run]⟩
  | cons op ops ih =>
    simp only [never_issues, Bool.and_eq_true, Bool.not_eq_true'] at hnever
    obtain ⟨k1, k2⟩ := apply_keeps_neutral p op hneutral hnever.1
    obtain ⟨i1, i2⟩ := ih (p.apply op).1 k1 hnever.2
    refine ⟨i1, ?_⟩
    show Event.cancel_all_commands ∉ (p.apply op).2 ++ ((p.apply op).1.run ops).2
    simp [k2, i2]

theorem run_append (a b : List Op) (p : GamepadCommandProcessor) :
    p.run (a ++ b) = (((p.run a).1.run b).1, (p.run a).2 ++ ((p.run a).1.run b).2) := by
  induction a generalizing p with
  | nil => simp [run]
  | cons op ops ih =>
    show (((p.apply op).1.run (ops ++ b)).1, (p.apply op).2 ++ ((p.apply op).1.run (ops ++ b)).2)
      = _
    rw [ih]
    simp only [run, List.append_assoc]

end GamepadCommandProcessor

namespace GamepadCommandProcessor

/-- An operation issues a command to the target exactly if it is a pass of the worker
that gets through all gates with a non-neutral command and meets no error; the
command is the translation of the pending state. -/
theorem issued_by_eq (p : GamepadCommandProcessor) (op : Op) :
    p.issued_by op =
      if p.issues op = true then some (apply_to_pro_state p.m_pending).2 else none := by
  cases op with
  | submit_state state => rfl
  | set_active active => rfl
  | request_stop => rfl
  | worker_pass session =>
    simp only [issued_by, issues]
    by_cases herr : session.issue_error = ""
    · rw [if_pos herr, worker_iteration_events]
      rcases Bool.eq_false_or_eq_true p.m_stop with hstop | hstop
      · simp [hstop, Event.issued_state]
        intros
        subst_vars
        rfl
      · rcases Bool.eq_false_or_eq_true p.m_active with hactive | hactive
        · rcases Bool.eq_false_or_eq_true p.m_hasPending with hpending | hpending
          · rcases Bool.eq_false_or_eq_true (attempts_issue session p.m_pending) with hatt | hatt
            · have hatt2 := hatt
              unfold attempts_issue passes_gates at hatt2
              simp only [Bool.and_eq_true, beq_iff_eq, Bool.not_eq_true'] at hatt2
              obtain ⟨⟨⟨⟨hpro, hready⟩, hblock⟩, hconn⟩, hnn⟩ := hatt2
              simp only [hstop, hactive, hpending, hatt, and_self, if_true]
              rw [process_state_issue _ session _ hpro hready hblock hconn hnn,
                issue_requests_eq]
              rcases Bool.eq_false_or_eq_true p.m_lastNeutral with hn | hn <;>
              rcases Bool.eq_false_or_eq_true
                (!((apply_to_pro_state p.m_pending).2 == p.m_lastProState)) with hrep | hrep <;>
                simp [herr, hn, hrep, Event.issued_state]
            · simp only [hstop, hactive, hpending, hatt, and_self, if_true]
              rw [process_state_dropped _ session _ hatt]
              rcases Bool.eq_false_or_eq_true p.m_lastNeutral with hn | hn <;>
                rcases Bool.eq_false_or_eq_true
                  (is_pro_controller_type session.controller_type) with hpro | hpro <;>
                by_cases hw : p.m_warnedUnsupported = some session.controller_type <;>
                simp [hn, hpro, hw, herr, Event.issued_state]
          · simp [hstop, hactive, hpending]
        · simp [hstop, hactive, Event.issued_state]
          intros
          subst_vars
          rfl
    · rw [if_neg herr]
      have : (session.issue_error == "") = false := by simpa using herr
      simp [this]

/-- The record `m_lastProState` after an operation is the command the operation issued,
and is left alone if it issued none. -/
theorem apply_lastProState (p : GamepadCommandProcessor) (op : Op) :
    (p.apply op).1.m_lastProState = (p.issued_by op).getD p.m_lastProState := by
  rw [issued_by_eq]
  cases op with
  | submit_state state => simp [apply, submit_state_eq, issues]
  | set_active active =>
    simp only [apply, set_active, issues]
    split <;> simp
  | request_stop => simp [apply, request_stop, issues]
  | worker_pass session =>
    simp only [apply, issues]
    rcases Bool.eq_false_or_eq_true p.m_stop with hstop | hstop
    · rw [worker_iteration_stop p session hstop]
      simp [LoopStep.state, ensure_cancel_state, hstop]
    · rcases Bool.eq_false_or_eq_true p.m_active with hactive | hactive
      · rcases Bool.eq_false_or_eq_true p.m_hasPending with hpending | hpending
        · rw [worker_iteration_active_pending p session hstop hactive hpending]
          simp only [LoopStep.state]
          rcases Bool.eq_false_or_eq_true (attempts_issue session p.m_pending) with hatt | hatt
          · have hatt2 := hatt
            unfold attempts_issue passes_gates at hatt2
            simp only [Bool.and_eq_true, beq_iff_eq, Bool.not_eq_true'] at hatt2
            obtain ⟨⟨⟨⟨hpro, hready⟩, hblock⟩, hconn⟩, hnn⟩ := hatt2
            rw [process_state_issue _ session _ hpro hready hblock hconn hnn]
            by_cases herr : session.issue_error = ""
            · simp [herr, hstop, hactive, hpending, hatt]
            · have : (session.issue_error == "") = false := by simpa using herr
              simp [herr, this]
          · rw [process_state_dropped _ session _ hatt]
            simp [hatt]
        · rcases Bool.eq_false_or_eq_true p.m_activeChanged with hchanged | hchanged
          · rw [worker_iteration_active_idle p session hstop hactive hpending hchanged]
            simp [LoopStep.state, hpending]
          · simp [worker_iteration, hstop, hpending, hchanged, LoopStep.state]
      · rcases Bool.eq_false_or_eq_true (p.m_hasPending || p.m_activeChanged) with hwake | hwake
        · rw [worker_iteration_inactive p session hstop hactive hwake]
          simp [LoopStep.state, hactive]
        · simp only [Bool.or_eq_false_iff] at hwake
          simp [worker_iteration, hstop, hwake.1, hwake.2, LoopStep.state, hactive]

/-- Over a run, `m_lastProState` is the command most recently issued to the target,
and the target is marked not known-neutral only if a command has been issued. -/
theorem run_previously_issued (ops : List Op) (p : GamepadCommandProcessor)
    (previous : Option ProControllerState)
    (hrecord : p.m_lastProState = previous.getD ProControllerState.clear)
    (hheld : p.m_lastNeutral = false → previous.isSome = true) :
    (p.run ops).1.m_lastProState =
      (p.previously_issued previous ops).getD ProControllerState.clear ∧
    ((p.run ops).1.m_lastNeutral = false → (p.previously_issued previous ops).isSome = true) := by
  induction ops generalizing p previous with
  | nil => exact ⟨hrecord, hheld⟩
  | cons op ops ih =>
    show ((p.apply op).1.run ops).1.m_lastProState =
        ((p.apply op).1.previously_issued ((p.issued_by op).or previous) ops).getD
          ProControllerState.clear ∧
      (((p.apply op).1.run ops).1.m_lastNeutral = false →
        ((p.apply op).1.previously_issued ((p.issued_by op).or previous) ops).isSome = true)
    apply ih
    · rw [apply_lastProState, hrecord]
      cases p.issued_by op <;> rfl
    · intro hafter
      cases hissued : p.issued_by op with
      | some command => rfl
      | none =>
        have hno : p.issues op = false := by
          rw [issued_by_eq] at hissued
          cases h : p.issues op
          · rfl
          · rw [h] at hissued
            simp at hissued
        cases hn : p.m_lastNeutral with
        | false => exact hheld hn
        | true =>
          have := (apply_keeps_neutral p op hn hno).1
          rw [this] at hafter
          cases hafter

end GamepadCommandProcessor

/-! ## C1: deactivation while a command is held -/

/-- C1, as stated, fails: `held_processor` is active and holds a non-neutral command;
after `set_active(false)`, the next pass of the worker against a session whose
controller type is not a Pro-controller type makes no `cancel_all_commands` call
(`ensure_cancel` returns at line 559). -/
theorem C1_deactivation_counterexample :
    held_processor.m_active = true ∧ held_processor.m_lastNeutral = false ∧
    ((held_processor.set_active false).worker_iteration unsupported_session).events = [] ∧
    (((held_processor.set_active false).worker_iteration unsupported_session).events.countP
      Event.is_cancel) ≠ 1 := by
  decide

/-- C1, amended: when `set_active(false)` is called on an active dispatcher that holds a
non-neutral command (whatever is submitted around it), the worker's next pass
makes exactly one `cancel_all_commands` call if the session's controller type is
a Pro-controller type and none otherwise, makes no other call, and leaves the
target marked known-neutral; whatever happens afterwards while the flag stays
false (submissions, passes, the stop request) produces no event at all. -/
theorem C1_deactivation_cancel (p : GamepadCommandProcessor) (states : List GamepadState)
    (session : ControllerSession) (ops : List Op)
    (hactive : p.m_active = true) (hheld : p.m_lastNeutral = false)
    (hops : ∀ op ∈ ops, op ≠ Op.set_active true) :
    (((p.set_active false).submit_all states).worker_iteration session).events =
      (if is_pro_controller_type session.controller_type
       then [Event.cancel_all_commands] else []) ∧
    ((((p.set_active false).submit_all states).worker_iteration session).state
      ((p.set_active false).submit_all states)).m_lastNeutral = true ∧
    (((((p.set_active false).submit_all states).worker_iteration session).state
      ((p.set_active false).submit_all states)).run ops).2 = [] := by
  obtain ⟨x, b, hx⟩ := GamepadCommandProcessor.submit_all_frame states (p.set_active false)
  have hset : p.set_active false = { p with m_active := false, m_activeChanged := true } := by
    simp [GamepadCommandProcessor.set_active, hactive]
  rw [hx, hset]
  cases hstop : p.m_stop with
  | true =>
    rw [GamepadCommandProcessor.worker_iteration_stop _ session (by simp [hstop])]
    refine ⟨by simp [LoopStep.events, hheld], by simp [LoopStep.state], ?_⟩
    exact (GamepadCommandProcessor.run_inactive_neutral ops _ rfl rfl hops).1
  | false =>
    rw [GamepadCommandProcessor.worker_iteration_inactive _ session (by simp [hstop]) rfl
      (by simp)]
    refine ⟨by simp [LoopStep.events, hheld], by simp [LoopStep.state], ?_⟩
    exact (GamepadCommandProcessor.run_inactive_neutral ops _ rfl rfl hops).1

/-- C1, amended, at a concrete input: `held_processor`, deactivated while `press_east` is
being submitted, against `pro_session`, followed by two more submissions and
passes. -/
theorem C1_deactivation_cancel_witness :
    held_processor.m_active = true ∧ held_processor.m_lastNeutral = false ∧
    (((held_processor.set_active false).submit_all [press_east]).worker_iteration
      pro_session).events = [Event.cancel_all_commands] ∧
    (((((held_processor.set_active false).submit_all [press_east]).worker_iteration
      pro_session).state ((held_processor.set_active false).submit_all [press_east])).run
        [Op.submit_state press_south, Op.worker_pass pro_session,
         Op.submit_state press_east, Op.worker_pass pro_session]).2 = [] :=
  ⟨by decide, by decide,
   (C1_deactivation_cancel held_processor [press_east] pro_session
      [Op.submit_state press_south, Op.worker_pass pro_session,
       Op.submit_state press_east, Op.worker_pass pro_session]
      (by decide) (by decide) (by decide)).1,
   (C1_deactivation_cancel held_processor [press_east] pro_session
      [Op.submit_state press_south, Op.worker_pass pro_session,
       Op.submit_state press_east, Op.worker_pass pro_session]
      (by decide) (by decide) (by decide)).2.2⟩

/-! ## C2: when `replace_on_next_command` is called -/

/-- C2, as stated, fails: from the initial (known-neutral) state, the first
non-neutral command is issued with no `replace_on_next_command` call before it
(line 610 asks for `!m_lastNeutral`). -/
theorem C2_replace_counterexample :
    ({} : GamepadCommandProcessor).m_lastNeutral = true ∧
    (({} : GamepadCommandProcessor).run
      [Op.set_active true, Op.submit_state press_south, Op.worker_pass pro_session]).2 =
      [Event.issue_full_controller_state 2000
        { buttons := 2, dpad := DpadPosition.DPAD_NONE,
          left_x := 128, left_y := 128, right_x := 128, right_y := 128 }] ∧
    Event.replace_on_next_command ∉
      (GamepadCommandProcessor.process_state {} pro_session press_south).2 := by
  decide

/-- What `process_state` requests when it handles a connected state whose translation is
non-neutral and all gates pass: `replace_on_next_command` exactly when the target
is not known-neutral and the new command differs from the record
`m_lastProState`, and then right before the one `issue_full_controller_state`. -/
theorem GamepadCommandProcessor.process_state_replace (p : GamepadCommandProcessor)
    (session : ControllerSession) (state : GamepadState)
    (hpro : is_pro_controller_type session.controller_type = true)
    (hready : session.ready = true) (hblock : session.user_input_blocked = "")
    (hconn : state.connected = true) (hnn : (apply_to_pro_state state).1 = false) :
    (Event.replace_on_next_command ∈ (p.process_state session state).2 ↔
      (p.m_lastNeutral = false ∧ (apply_to_pro_state state).2 ≠ p.m_lastProState)) ∧
    (p.process_state session state).2.takeWhile (fun e => !e.is_issue) =
      (if p.m_lastNeutral = false ∧ (apply_to_pro_state state).2 ≠ p.m_lastProState
       then [Event.replace_on_next_command] else []) ∧
    (p.process_state session state).2.countP Event.is_issue = 1 ∧
    (p.process_state session state).2.findSome? Event.issued_state =
      some (apply_to_pro_state state).2 := by
  rw [GamepadCommandProcessor.process_state_issue p session state hpro hready hblock hconn hnn,
    GamepadCommandProcessor.issue_requests_eq]
  by_cases hcond : p.m_lastNeutral = false ∧ (apply_to_pro_state state).2 ≠ p.m_lastProState
  · obtain ⟨h1, h2⟩ := hcond
    by_cases herr : session.issue_error = "" <;>
    by_cases hle : p.m_lastError = some (failure_message session.issue_error) <;>
      simp [herr, hle, h1, h2, Event.is_issue, Event.issued_state, List.takeWhile,
        List.countP_cons]
  · have hc : (!p.m_lastNeutral && !((apply_to_pro_state state).2 == p.m_lastProState)) = false := by
      cases hn : p.m_lastNeutral
      · simp only [hn, true_and, ne_eq, not_not] at hcond
        simp [hcond]
      · simp
    by_cases herr : session.issue_error = "" <;>
    by_cases hle : p.m_lastError = some (failure_message session.issue_error) <;>
    cases hn : p.m_lastNeutral <;>
      simp_all [Event.is_issue, Event.issued_state, List.takeWhile, List.countP_cons]

/-- C2, amended: take the dispatcher `p` after any run from its initial state, and a pass
of the worker in which the active dispatcher processes a pending connected state
whose translation is non-neutral, all gates passing.  The pass calls
`replace_on_next_command` exactly when the target is not known-neutral and the
new command differs from the command previously issued to the target (the one of
the most recent issue request of the run that the session took without error);
the call is then what immediately precedes the one `issue_full_controller_state`
call, which carries the new command; when the target is known-neutral no
`replace_on_next_command` call is made.  A target that is not known-neutral has
been issued a command, and `m_lastProState` is that command. -/
theorem C2_replace_policy (ops : List Op) (p : GamepadCommandProcessor)
    (session : ControllerSession)
    (hrun : (({} : GamepadCommandProcessor).run ops).1 = p)
    (hstop : p.m_stop = false) (hactive : p.m_active = true) (hpending : p.m_hasPending = true)
    (hpro : is_pro_controller_type session.controller_type = true)
    (hready : session.ready = true) (hblock : session.user_input_blocked = "")
    (hconn : p.m_pending.connected = true)
    (hnn : (apply_to_pro_state p.m_pending).1 = false) :
    (Event.replace_on_next_command ∈ (p.worker_iteration session).events ↔
      (p.m_lastNeutral = false ∧
        ({} : GamepadCommandProcessor).previously_issued none ops ≠
          some (apply_to_pro_state p.m_pending).2)) ∧
    (p.worker_iteration session).events.takeWhile (fun e => !e.is_issue) =
      (if p.m_lastNeutral = false ∧
          ({} : GamepadCommandProcessor).previously_issued none ops ≠
            some (apply_to_pro_state p.m_pending).2
       then [Event.replace_on_next_command] else []) ∧
    (p.worker_iteration session).events.countP Event.is_issue = 1 ∧
    (p.worker_iteration session).events.findSome? Event.issued_state =
      some (apply_to_pro_state p.m_pending).2 ∧
    (p.m_lastNeutral = true →
      Event.replace_on_next_command ∉ (p.worker_iteration session).events) ∧
    (p.m_lastNeutral = false →
      ({} : GamepadCommandProcessor).previously_issued none ops = some p.m_lastProState) := by
  have hinv := GamepadCommandProcessor.run_previously_issued ops {} none rfl
    (fun h => Bool.noConfusion h)
  rw [hrun] at hinv
  obtain ⟨hrecord, hheld⟩ := hinv
  have hsome : p.m_lastNeutral = false →
      ({} : GamepadCommandProcessor).previously_issued none ops = some p.m_lastProState := by
    intro hn
    have := hheld hn
    rw [hrecord]
    cases hprev : ({} : GamepadCommandProcessor).previously_issued none ops with
    | none =>
      rw [hprev] at this
      cases this
    | some command => rfl
  have hev : (p.worker_iteration session).events =
      (GamepadCommandProcessor.process_state
        { p with m_hasPending := false, m_activeChanged := false } session p.m_pending).2 := by
    rw [GamepadCommandProcessor.worker_iteration_events]
    simp [hstop, hactive, hpending]
  have hold := GamepadCommandProcessor.process_state_replace
    { p with m_hasPending := false, m_activeChanged := false } session p.m_pending
    hpro hready hblock hconn hnn
  rw [← hev] at hold
  have hiff : (p.m_lastNeutral = false ∧ (apply_to_pro_state p.m_pending).2 ≠ p.m_lastProState) ↔
      (p.m_lastNeutral = false ∧
        ({} : GamepadCommandProcessor).previously_issued none ops ≠
          some (apply_to_pro_state p.m_pending).2) := by
    constructor
    · rintro ⟨hn, hne⟩
      refine ⟨hn, fun hprev => hne ?_⟩
      rw [hsome hn] at hprev
      exact (Option.some.inj hprev).symm
    · rintro ⟨hn, hne⟩
      refine ⟨hn, fun heq => hne ?_⟩
      rw [hsome hn, heq]
  obtain ⟨h1, h2, h3, h4⟩ := hold
  refine ⟨h1.trans hiff, ?_, h3, h4, ?_, hsome⟩
  · rw [h2]
    by_cases hcond : p.m_lastNeutral = false ∧
        (apply_to_pro_state p.m_pending).2 ≠ p.m_lastProState
    · rw [if_pos hcond, if_pos (hiff.mp hcond)]
    · rw [if_neg hcond, if_neg (fun h => hcond (hiff.mpr h))]
  · intro hn hmem
    have := (h1.mp hmem).1
    rw [hn] at this
    cases this

/-- C2, amended, at a concrete run: `press_south` is issued and, while it is held,
`press_east` is submitted; the next pass asks for the replacement and issues
`press_east`. -/
theorem C2_replace_policy_witness :
    (({} : GamepadCommandProcessor).run
      [Op.set_active true, Op.submit_state press_south, Op.worker_pass pro_session,
       Op.submit_state press_east]).1 = held_processor.submit_state press_east ∧
    ({} : GamepadCommandProcessor).previously_issued none
      [Op.set_active true, Op.submit_state press_south, Op.worker_pass pro_session,
       Op.submit_state press_east] = some (apply_to_pro_state press_south).2 ∧
    ((held_processor.submit_state press_east).worker_iteration pro_session).events =
      [Event.replace_on_next_command,
       Event.issue_full_controller_state 2000 (apply_to_pro_state press_east).2] ∧
    (Event.replace_on_next_command ∈
      ((held_processor.submit_state press_east).worker_iteration pro_session).events ↔
      ((held_processor.submit_state press_east).m_lastNeutral = false ∧
        ({} : GamepadCommandProcessor).previously_issued none
          [Op.set_active true, Op.submit_state press_south, Op.worker_pass pro_session,
           Op.submit_state press_east] ≠
          some (apply_to_pro_state (held_processor.submit_state press_east).m_pending).2)) :=
  ⟨by decide, by decide, by decide,
   (C2_replace_policy
      [Op.set_active true, Op.submit_state press_south, Op.worker_pass pro_session,
       Op.submit_state press_east]
      (held_processor.submit_state press_east) pro_session
      (by decide) (by decide) (by decide) (by decide) (by decide) (by decide) (by decide)
      (by decide) (by decide)).1⟩

/-! ## C3: coalescing of submissions -/

/-- C3: after any non-empty sequence of `submit_state` calls with no pass of the worker
in between, the pending slot holds exactly the last submitted state and
has-pending is true; the dispatcher is in the very state it would be in had only
the last state been submitted, so no earlier submission of the sequence can be
acted on.  The worker's next pass (the worker not having been told to stop)
clears the slot and, if the dispatcher is active, hands that one state to
`process_state`; if it is inactive it issues nothing. -/
theorem C3_coalescing (p : GamepadCommandProcessor) (states : List GamepadState)
    (state : GamepadState) (session : ControllerSession) (hstop : p.m_stop = false) :
    (p.submit_all (states ++ [state])).m_hasPending = true ∧
    (p.submit_all (states ++ [state])).m_pending = state ∧
    p.submit_all (states ++ [state]) = p.submit_state state ∧
    (∃ q ev, (p.submit_all (states ++ [state])).worker_iteration session =
        LoopStep.continued q ev ∧
      q.m_hasPending = false ∧
      (q, ev) =
        if p.m_active then
          GamepadCommandProcessor.process_state
            { p with m_pending := state, m_hasPending := false, m_activeChanged := false }
            session state
        else
          ({ p with m_pending := state, m_hasPending := false, m_activeChanged := false,
                    m_lastNeutral := true },
           if !p.m_lastNeutral && is_pro_controller_type session.controller_type
           then [Event.cancel_all_commands] else [])) := by
  rw [GamepadCommandProcessor.submit_all_snoc, GamepadCommandProcessor.submit_state_eq]
  refine ⟨rfl, rfl, rfl, ?_⟩
  obtain ⟨st, ac, ch, hp, pe, ln, lp, le, wu⟩ := p
  simp only at hstop
  subst hstop
  cases ac with
  | true =>
    have h := GamepadCommandProcessor.worker_iteration_active_pending
      ⟨false, true, ch, true, state, ln, lp, le, wu⟩ session rfl rfl rfl
    refine ⟨_, _, h, ?_, ?_⟩
    · -- `process_state` never touches the pending slot
      have hframe : ∀ (q : GamepadCommandProcessor) (st : GamepadState),
          (q.process_state session st).1.m_hasPending = q.m_hasPending := by
        intro q st
        unfold GamepadCommandProcessor.process_state
        simp only [GamepadCommandProcessor.log_once]
        repeat' split
        all_goals simp only [GamepadCommandProcessor.ensure_cancel_state]
      rw [hframe]
    · simp
  | false =>
    have h := GamepadCommandProcessor.worker_iteration_inactive
      ⟨false, false, ch, true, state, ln, lp, le, wu⟩ session rfl rfl rfl
    exact ⟨_, _, h, rfl, by simp⟩

/-- C3 at a concrete input: three submissions to an active dispatcher before the worker
wakes; only `press_east`, the last, is issued. -/
theorem C3_coalescing_witness :
    (({} : GamepadCommandProcessor).set_active true).m_stop = false ∧
    (((({} : GamepadCommandProcessor).set_active true).submit_all
        ([press_south, at_rest] ++ [press_east])).worker_iteration pro_session).events =
      [Event.issue_full_controller_state 2000 (apply_to_pro_state press_east).2] ∧
    ((({} : GamepadCommandProcessor).set_active true).submit_all
        ([press_south, at_rest] ++ [press_east])).m_hasPending = true ∧
    ((({} : GamepadCommandProcessor).set_active true).submit_all
        ([press_south, at_rest] ++ [press_east])).m_pending = press_east :=
  ⟨by decide, by decide,
   (C3_coalescing (({} : GamepadCommandProcessor).set_active true) [press_south, at_rest]
      press_east pro_session (by decide)).1,
   (C3_coalescing (({} : GamepadCommandProcessor).set_active true) [press_south, at_rest]
      press_east pro_session (by decide)).2.1⟩

/-! ## C4: submissions while inactive -/

/-- C4, as stated, fails: a state submitted to an inactive dispatcher is in the pending
slot until the worker's next pass, and that pass empties the slot (lines
525-529 run before the activation flag is looked at); when the flag then becomes
true, the pass that follows has nothing to act on. -/
theorem C4_inactive_counterexample :
    ({} : GamepadCommandProcessor).m_active = false ∧
    (({} : GamepadCommandProcessor).submit_state press_south).m_hasPending = true ∧
    (((({} : GamepadCommandProcessor).submit_state press_south).worker_iteration
        pro_session).state
      (({} : GamepadCommandProcessor).submit_state press_south)).m_hasPending = false ∧
    (({} : GamepadCommandProcessor).run
      [Op.submit_state press_south, Op.worker_pass pro_session,
       Op.set_active true, Op.worker_pass pro_session]).2 = [] := by
  decide

/-- C4, amended: while the activation flag is false, a state handed to `submit_state` is
stored in the pending slot (has-pending true, with that state) but not acted on:
the pass of the worker that runs while inactive issues no command for it (its
only possible call is the cancellation of a command still held), and it empties
the slot, so the submission is dropped; when the flag later becomes true with
nothing new submitted, the next pass has no events. -/
theorem C4_inactive_submission (p : GamepadCommandProcessor) (state : GamepadState)
    (session later : ControllerSession)
    (hstop : p.m_stop = false) (hactive : p.m_active = false) :
    (p.submit_state state).m_hasPending = true ∧
    (p.submit_state state).m_pending = state ∧
    (∃ q ev, (p.submit_state state).worker_iteration session = LoopStep.continued q ev ∧
      ev = (if !p.m_lastNeutral && is_pro_controller_type session.controller_type
            then [Event.cancel_all_commands] else []) ∧
      q.m_hasPending = false ∧
      ((q.set_active true).worker_iteration later).events = []) := by
  rw [GamepadCommandProcessor.submit_state_eq]
  refine ⟨rfl, rfl, ?_⟩
  obtain ⟨st, ac, ch, hp, pe, ln, lp, le, wu⟩ := p
  simp only at hstop hactive
  subst hstop hactive
  have h := GamepadCommandProcessor.worker_iteration_inactive
    ⟨false, false, ch, true, state, ln, lp, le, wu⟩ session rfl rfl rfl
  refine ⟨_, _, h, rfl, rfl, ?_⟩
  have hset : GamepadCommandProcessor.set_active
      ⟨false, false, false, false, state, true, lp, le, wu⟩ true =
      ⟨false, true, true, false, state, true, lp, le, wu⟩ := by
    simp [GamepadCommandProcessor.set_active]
  have h2 := GamepadCommandProcessor.worker_iteration_active_idle
    ⟨false, true, true, false, state, true, lp, le, wu⟩ later rfl rfl rfl rfl
  simp only [hset, h2, LoopStep.events]

/-- C4, amended, at a concrete input: `press_south` submitted to the initial, inactive
dispatcher. -/
theorem C4_inactive_submission_witness :
    (({} : GamepadCommandProcessor).m_stop = false ∧
      ({} : GamepadCommandProcessor).m_active = false) ∧
    (({} : GamepadCommandProcessor).submit_state press_south).m_hasPending = true ∧
    (({} : GamepadCommandProcessor).submit_state press_south).m_pending = press_south :=
  ⟨by decide,
   (C4_inactive_submission {} press_south pro_session pro_session (by decide) (by decide)).1,
   (C4_inactive_submission {} press_south pro_session pro_session (by decide) (by decide)).2.1⟩

/-! ## C5: the gates of `process_state` -/

/-- C5, as stated, fails: `held_processor` holds a non-neutral command; when the
session's controller type is unsupported, `process_state` logs the warning and
marks the target known-neutral, but makes no `cancel_all_commands` call, so the
held command is not cancelled. -/
theorem C5_gates_counterexample :
    held_processor.m_lastNeutral = false ∧
    is_pro_controller_type unsupported_session.controller_type = false ∧
    (held_processor.process_state unsupported_session press_east).2 =
      [Event.log unsupported_warning] ∧
    Event.cancel_all_commands ∉
      (held_processor.process_state unsupported_session press_east).2 ∧
    (held_processor.process_state unsupported_session press_east).1.m_lastNeutral = true := by
  decide

/-- C5, amended: if the session's controller type is unsupported, or the session is not
ready, or its input-blocked reason is non-empty, or the state is disconnected,
then `process_state` calls neither `replace_on_next_command` nor
`issue_full_controller_state`, ends with the target marked known-neutral, and
calls `cancel_all_commands` (once) exactly when a non-neutral command is held
and the controller type is supported; with an unsupported type its only event
is the warning, logged unless already recorded for that type.  So after ready
turns false while a non-neutral command is held, the cycle's events are the one
`cancel_all_commands` call. -/
theorem C5_gates (p : GamepadCommandProcessor) (session : ControllerSession)
    (state : GamepadState)
    (hgate : is_pro_controller_type session.controller_type = false ∨ session.ready = false ∨
      session.user_input_blocked ≠ "" ∨ state.connected = false) :
    (∀ e ∈ (p.process_state session state).2, e.is_replace = false ∧ e.is_issue = false) ∧
    (p.process_state session state).1.m_lastNeutral = true ∧
    (p.process_state session state).2 =
      (if is_pro_controller_type session.controller_type then
        (if p.m_lastNeutral then [] else [Event.cancel_all_commands])
       else
        (if p.m_warnedUnsupported = some session.controller_type then []
         else [Event.log unsupported_warning])) := by
  have h : attempts_issue session state = false := by
    unfold attempts_issue passes_gates
    rcases hgate with h | h | h | h <;> simp [h]
  rw [GamepadCommandProcessor.process_state_dropped p session state h]
  cases hpro : is_pro_controller_type session.controller_type <;>
  cases hn : p.m_lastNeutral <;>
  by_cases hw : p.m_warnedUnsupported = some session.controller_type <;>
    simp [hw, Event.is_replace, Event.is_issue]

/-- C5, amended, at a concrete input: the session turns not-ready while `held_processor`
holds a command; the cycle's only event is the cancel call. -/
theorem C5_gates_witness :
    not_ready_session.ready = false ∧ held_processor.m_lastNeutral = false ∧
    (held_processor.process_state not_ready_session press_east).2 =
      [Event.cancel_all_commands] ∧
    (held_processor.process_state not_ready_session press_east).1.m_lastNeutral = true :=
  ⟨by decide, by decide,
   (C5_gates held_processor not_ready_session press_east (Or.inr (Or.inl (by decide)))).2.2.trans
     (by decide),
   (C5_gates held_processor not_ready_session press_east (Or.inr (Or.inl (by decide)))).2.1⟩

/-! ## C6: a neutral command is not issued -/

/-- C6: for every connected state whose translated command is fully neutral and that
passes all gates, `process_state` makes no `issue_full_controller_state` call; it
calls `cancel_all_commands` exactly once if a non-neutral command was held and
not at all if the target was already known-neutral (these are all its events),
and leaves the target marked known-neutral. -/
theorem C6_neutral_not_issued (p : GamepadCommandProcessor) (session : ControllerSession)
    (state : GamepadState)
    (hpro : is_pro_controller_type session.controller_type = true)
    (hready : session.ready = true) (hblock : session.user_input_blocked = "")
    (hconn : state.connected = true) (hneutral : (apply_to_pro_state state).1 = true) :
    (∀ e ∈ (p.process_state session state).2, e.is_issue = false) ∧
    (p.process_state session state).2 =
      (if p.m_lastNeutral then [] else [Event.cancel_all_commands]) ∧
    (p.process_state session state).2.countP Event.is_cancel =
      (if p.m_lastNeutral then 0 else 1) ∧
    (p.process_state session state).1.m_lastNeutral = true := by
  obtain ⟨st, ac, ch, hp, pe, ln, lp, le, wu⟩ := p
  unfold GamepadCommandProcessor.process_state
  cases ln <;>
    simp [hpro, hready, hblock, hconn, hneutral, GamepadCommandProcessor.ensure_cancel,
      Event.is_issue, Event.is_cancel]

/-- C6 at a concrete input: `held_processor` receives the connected gamepad at rest. -/
theorem C6_neutral_not_issued_witness :
    (is_pro_controller_type pro_session.controller_type = true ∧ pro_session.ready = true ∧
      pro_session.user_input_blocked = "" ∧ at_rest.connected = true ∧
      (apply_to_pro_state at_rest).1 = true) ∧
    held_processor.m_lastNeutral = false ∧
    (held_processor.process_state pro_session at_rest).2 = [Event.cancel_all_commands] ∧
    (held_processor.process_state pro_session at_rest).1.m_lastNeutral = true :=
  ⟨by decide, by decide,
   (C6_neutral_not_issued held_processor pro_session at_rest (by decide) (by decide)
      (by decide) (by decide) (by decide)).2.1.trans (by decide),
   (C6_neutral_not_issued held_processor pro_session at_rest (by decide) (by decide)
      (by decide) (by decide) (by decide)).2.2.2⟩

/-! ## C7: shutdown -/

/-- C7, as stated, fails: `held_processor` holds a non-neutral command when the stop
flag is raised; with a session whose controller type is not a Pro-controller
type, the final `ensure_cancel` makes no `cancel_all_commands` call. -/
theorem C7_shutdown_counterexample :
    held_processor.request_stop.m_stop = true ∧
    held_processor.request_stop.m_lastNeutral = false ∧
    held_processor.request_stop.worker_iteration unsupported_session =
      LoopStep.exited { held_processor.request_stop with m_lastNeutral := true } [] ∧
    ((held_processor.request_stop.worker_iteration unsupported_session).events.countP
      Event.is_cancel) ≠ 1 := by
  decide

/-- C7, amended: when the worker observes the stop flag it leaves the loop without
touching the pending slot or processing what is in it, after one final
cancellation pass: `cancel_all_commands` is called exactly once if the target is
not known-neutral and the session's controller type is a Pro-controller type,
and not at all otherwise (no other call is made); the target ends marked
known-neutral. -/
theorem C7_shutdown (p : GamepadCommandProcessor) (session : ControllerSession)
    (hstop : p.m_stop = true) :
    ∃ q ev, p.worker_iteration session = LoopStep.exited q ev ∧
      q.m_hasPending = p.m_hasPending ∧ q.m_pending = p.m_pending ∧
      q.m_lastNeutral = true ∧
      ev = (if p.m_lastNeutral = false ∧ is_pro_controller_type session.controller_type = true
            then [Event.cancel_all_commands] else []) ∧
      ev.countP Event.is_cancel =
        (if p.m_lastNeutral = false ∧ is_pro_controller_type session.controller_type = true
         then 1 else 0) := by
  refine ⟨_, _, GamepadCommandProcessor.worker_iteration_stop p session hstop, rfl, rfl, rfl, ?_, ?_⟩
  · cases p.m_lastNeutral <;> cases is_pro_controller_type session.controller_type <;> rfl
  · cases p.m_lastNeutral <;> cases is_pro_controller_type session.controller_type <;> rfl

/-- C7, amended, at a concrete input: the stop flag is raised while `held_processor`
holds a command and `press_east` is pending; the session has a Pro controller. -/
theorem C7_shutdown_witness :
    ((held_processor.submit_state press_east).request_stop).m_stop = true ∧
    ((held_processor.submit_state press_east).request_stop).worker_iteration pro_session =
      LoopStep.exited
        { (held_processor.submit_state press_east).request_stop with m_lastNeutral := true }
        [Event.cancel_all_commands] ∧
    (∃ q ev, ((held_processor.submit_state press_east).request_stop).worker_iteration
        pro_session = LoopStep.exited q ev ∧ q.m_hasPending = true ∧ q.m_pending = press_east ∧
        q.m_lastNeutral = true) :=
  ⟨by decide, by decide,
   (C7_shutdown ((held_processor.submit_state press_east).request_stop) pro_session
      (by decide)).elim
    (fun q h => h.elim (fun ev h => ⟨q, ev, h.1, h.2.1.trans (by decide),
      h.2.2.1.trans (by decide), h.2.2.2.1⟩))⟩

/-! ## C8: cancellation and issuance in one cycle -/

/-- C8, as stated, fails: `held_processor` holds `press_south` and `press_east` is
submitted; the issuing call fails, and the same pass of the worker then calls
`cancel_all_commands` (lines 627-630), after having attempted
`issue_full_controller_state`. -/
theorem C8_exclusive_counterexample :
    ((held_processor.submit_state press_east).worker_iteration failing_session).events =
      [Event.replace_on_next_command,
       Event.issue_full_controller_state 2000 (apply_to_pro_state press_east).2,
       Event.log (failure_message "timeout"),
       Event.cancel_all_commands] ∧
    (∃ e ∈ ((held_processor.submit_state press_east).worker_iteration failing_session).events,
      e.is_issue = true) ∧
    Event.cancel_all_commands ∈
      ((held_processor.submit_state press_east).worker_iteration failing_session).events := by
  refine ⟨by decide, ⟨Event.issue_full_controller_state 2000 (apply_to_pro_state press_east).2,
    by decide, rfl⟩, by decide⟩

/-- C8, amended: in every pass of the worker, for every dispatcher state and every answer
of the session, `issue_full_controller_state` is attempted at most once and
`cancel_all_commands` is called at most once; and either the pass does not have
both (cancellation and issuance exclude each other), or the issuance failed (the
session returned a non-empty error) while a non-neutral command was held, and
the cancel call is the last event of the pass, after the attempt.  In particular
no pass has a successful issuance and a cancellation. -/
theorem C8_exclusive (p : GamepadCommandProcessor) (session : ControllerSession) :
    (p.worker_iteration session).events.countP Event.is_issue ≤ 1 ∧
    (p.worker_iteration session).events.countP Event.is_cancel ≤ 1 ∧
    ((p.worker_iteration session).events.countP Event.is_issue +
        (p.worker_iteration session).events.countP Event.is_cancel ≤ 1 ∨
      (session.issue_error ≠ "" ∧ p.m_lastNeutral = false ∧
        (p.worker_iteration session).events.getLast? = some Event.cancel_all_commands)) := by
  rw [GamepadCommandProcessor.worker_iteration_events]
  by_cases hrun : p.m_stop = false ∧ p.m_active = true
  · rw [if_pos hrun]
    cases hpending : p.m_hasPending with
    | false => simp
    | true =>
      simp only [if_true]
      cases hatt : attempts_issue session p.m_pending with
      | false =>
        rw [GamepadCommandProcessor.process_state_dropped _ session _ hatt]
        cases hpro : is_pro_controller_type session.controller_type <;>
        cases hn : p.m_lastNeutral <;>
        by_cases hw : p.m_warnedUnsupported = some session.controller_type <;>
          simp [hw, Event.is_issue, Event.is_cancel, List.countP_cons]
      | true =>
        unfold attempts_issue passes_gates at hatt
        simp only [Bool.and_eq_true, beq_iff_eq, Bool.not_eq_true'] at hatt
        obtain ⟨⟨⟨⟨hpro, hready⟩, hblock⟩, hconn⟩, hnn⟩ := hatt
        rw [GamepadCommandProcessor.process_state_issue _ session _ hpro hready hblock hconn hnn,
          GamepadCommandProcessor.issue_requests_eq]
        by_cases herr : session.issue_error = "" <;>
        by_cases hle : p.m_lastError = some (failure_message session.issue_error) <;>
        cases hn : p.m_lastNeutral <;>
        cases hrep : (!((apply_to_pro_state p.m_pending).2 == p.m_lastProState)) <;>
          simp [herr, hle, hrep, Event.is_issue, Event.is_cancel, List.countP_cons]
  · rw [if_neg hrun]
    split <;> simp [Event.is_issue, Event.is_cancel, List.countP_cons]

/-! ## C9: a failed issuance is logged once -/

/-- C9: run any sequence `cs` of dispatch cycles from a dispatcher with no error recorded
(such as the initial one), and let a cycle follow whose issuing call fails with
error message `session.issue_error`.
* That cycle writes the failure line, once, unless the immediately preceding
  logged failure of the history had the identical message and no successful
  issuance happened since (`last_logged_failure`); then it writes nothing.
* `fs`, one or more consecutive failures with that same message, write exactly one
  line between them (none if suppressed from the start).
* After them, a failure with a different message is logged again.
* After them, one successful issuance clears the suppression: the same message is
  logged again.
* The pass of the worker in which the issuance fails continues the loop. -/
theorem C9_failure_logged_once (p0 q : GamepadCommandProcessor)
    (cs fs : List (ControllerSession × GamepadState))
    (session other good : ControllerSession) (state state1 state2 : GamepadState)
    (hfresh : p0.m_lastError = none)
    (hatt : attempts_issue session state = true) (herr : session.issue_error ≠ "")
    (hfs : fs ≠ [])
    (hall : ∀ c ∈ fs, attempts_issue c.1 c.2 = true ∧ c.1.issue_error = session.issue_error)
    (hother : attempts_issue other state1 = true ∧ other.issue_error ≠ "" ∧
      other.issue_error ≠ session.issue_error)
    (hgood : attempts_issue good state2 = true ∧ good.issue_error = "")
    (hq : q.m_stop = false ∧ q.m_active = true) :
    (((p0.dispatch_history [] cs).1.process_state session state).2.filter Event.is_log =
      (if last_logged_failure (p0.dispatch_history [] cs).2 = some session.issue_error then []
       else [Event.log (failure_message session.issue_error)])) ∧
    (((p0.dispatch_history [] cs).1.dispatch_cycles fs).2.filter Event.is_log =
      (if last_logged_failure (p0.dispatch_history [] cs).2 = some session.issue_error then []
       else [Event.log (failure_message session.issue_error)])) ∧
    ((((p0.dispatch_history [] cs).1.dispatch_cycles fs).1.process_state other state1).2.filter
      Event.is_log = [Event.log (failure_message other.issue_error)]) ∧
    ((((((p0.dispatch_history [] cs).1.dispatch_cycles fs).1.process_state good state2).1
      ).process_state session state).2.filter Event.is_log =
      [Event.log (failure_message session.issue_error)]) ∧
    (∃ q1 ev, (q.submit_state state).worker_iteration session = LoopStep.continued q1 ev ∧
      q1.m_lastNeutral = true) := by
  have hinv := GamepadCommandProcessor.dispatch_history_lastError cs p0 [] (by simp [hfresh, last_logged_failure])
  have hsupp : ((p0.dispatch_history [] cs).1.m_lastError =
      some (failure_message session.issue_error)) ↔
      last_logged_failure (p0.dispatch_history [] cs).2 = some session.issue_error := by
    rw [hinv]
    cases last_logged_failure (p0.dispatch_history [] cs).2 with
    | none => simp
    | some m =>
      simp only [Option.map_some', Option.some.injEq]
      exact ⟨fun h => failure_message_injective _ _ h, fun h => by rw [h]⟩
  obtain ⟨hfs1, hfs2⟩ := GamepadCommandProcessor.dispatch_cycles_same_failure fs
    (p0.dispatch_history [] cs).1 session.issue_error herr hall
  refine ⟨?_, ?_, ?_, ?_, ?_⟩
  · rw [(GamepadCommandProcessor.process_state_failed _ session state hatt herr).1]
    by_cases h : last_logged_failure (p0.dispatch_history [] cs).2 = some session.issue_error
    · rw [if_pos h, if_pos (hsupp.mpr h)]
    · rw [if_neg h, if_neg (fun h2 => h (hsupp.mp h2))]
  · rw [hfs1]
    by_cases h : last_logged_failure (p0.dispatch_history [] cs).2 = some session.issue_error
    · rw [if_pos h, if_pos (Or.inr (hsupp.mpr h))]
    · rw [if_neg h, if_neg]
      rintro (h2 | h2)
      · exact hfs h2
      · exact h (hsupp.mp h2)
  · rw [(GamepadCommandProcessor.process_state_failed _ other state1 hother.1 hother.2.1).1,
      hfs2 hfs, if_neg]
    intro h
    exact hother.2.2 (failure_message_injective _ _ (Option.some.inj h)).symm
  · rw [(GamepadCommandProcessor.process_state_failed _ session state hatt herr).1,
      (GamepadCommandProcessor.process_state_issued _ good state2 hgood.1 hgood.2).2, if_neg]
    simp
  · rw [GamepadCommandProcessor.submit_state_eq]
    have hpass := GamepadCommandProcessor.worker_iteration_active_pending
      { q with m_pending := state, m_hasPending := true } session hq.1 hq.2 rfl
    refine ⟨_, _, hpass, ?_⟩
    unfold attempts_issue passes_gates at hatt
    simp only [Bool.and_eq_true, beq_iff_eq, Bool.not_eq_true'] at hatt
    obtain ⟨⟨⟨⟨hpro, hready⟩, hblock⟩, hconn⟩, hnn⟩ := hatt
    rw [GamepadCommandProcessor.process_state_issue _ session _ hpro hready hblock hconn hnn,
      if_neg herr]

/-- C9 at a concrete input: from the initial dispatcher, one successful cycle, then the
issuing call fails twice with "timeout" (one line), then with "busy" (logged),
or succeeds and fails with "timeout" again (logged again). -/
theorem C9_failure_logged_once_witness :
    (({} : GamepadCommandProcessor).m_lastError = none ∧
      attempts_issue failing_session press_east = true ∧ failing_session.issue_error ≠ "" ∧
      (attempts_issue busy_session press_east = true ∧ busy_session.issue_error ≠ "" ∧
        busy_session.issue_error ≠ failing_session.issue_error) ∧
      (attempts_issue pro_session press_south = true ∧ pro_session.issue_error = "") ∧
      (held_processor.m_stop = false ∧ held_processor.m_active = true)) ∧
    ((((({} : GamepadCommandProcessor).dispatch_history [] [(pro_session, press_south)]).1
        ).dispatch_cycles [(failing_session, press_east), (failing_session, press_south)]
      ).2.filter Event.is_log = [Event.log (failure_message "timeout")]) ∧
    (((((({} : GamepadCommandProcessor).dispatch_history [] [(pro_session, press_south)]).1
        ).dispatch_cycles [(failing_session, press_east), (failing_session, press_south)]
      ).1.process_state busy_session press_east).2.filter Event.is_log =
      [Event.log (failure_message "busy")]) :=
  ⟨by decide,
   (C9_failure_logged_once {} held_processor [(pro_session, press_south)]
      [(failing_session, press_east), (failing_session, press_south)]
      failing_session busy_session pro_session press_east press_east press_south
      (by decide) (by decide) (by decide) (by decide) (by decide) (by decide) (by decide)
      (by decide)).2.1.trans (by decide),
   (C9_failure_logged_once {} held_processor [(pro_session, press_south)]
      [(failing_session, press_east), (failing_session, press_south)]
      failing_session busy_session pro_session press_east press_east press_south
      (by decide) (by decide) (by decide) (by decide) (by decide) (by decide) (by decide)
      (by decide)).2.2.1⟩

/-! ## C10: the unsupported-type warning is logged once -/

/-- C10: one or more consecutive dispatch cycles `cs` that see the same unsupported
controller type `type`, starting with no suppression recorded for it, have
exactly one event between them, the unsupported-type warning, and leave the type
recorded.  A cycle that then sees a supported type clears the record, so the next
cycle that sees `type` logs the warning again. -/
theorem C10_unsupported_warned_once (p : GamepadCommandProcessor) (type : ControllerType)
    (cs : List (ControllerSession × GamepadState))
    (supported again : ControllerSession) (state1 state2 : GamepadState)
    (htype : is_pro_controller_type type = false)
    (hstart : p.m_warnedUnsupported ≠ some type)
    (hcs : cs ≠ []) (hall : ∀ c ∈ cs, c.1.controller_type = type)
    (hsupported : is_pro_controller_type supported.controller_type = true)
    (hagain : again.controller_type = type) :
    (p.dispatch_cycles cs).2 = [Event.log unsupported_warning] ∧
    (p.dispatch_cycles cs).1.m_warnedUnsupported = some type ∧
    ((p.dispatch_cycles cs).1.process_state again state2).2 = [] ∧
    ((p.dispatch_cycles cs).1.process_state supported state1).1.m_warnedUnsupported = none ∧
    ((((p.dispatch_cycles cs).1.process_state supported state1).1.process_state again
      state2).2.filter Event.is_log = [Event.log unsupported_warning]) := by
  obtain ⟨h1, h2⟩ := GamepadCommandProcessor.dispatch_cycles_unsupported cs p type htype hall
  have hclear := GamepadCommandProcessor.process_state_supported (p.dispatch_cycles cs).1
    supported state1 hsupported
  have hag : is_pro_controller_type again.controller_type = false := by rw [hagain]; exact htype
  refine ⟨?_, h2 hcs, ?_, hclear, ?_⟩
  · rw [h1, if_neg]
    rintro (h | h)
    · exact hcs h
    · exact hstart h
  · rw [GamepadCommandProcessor.process_state_unsupported _ again state2 hag, hagain, h2 hcs]
    simp
  · rw [GamepadCommandProcessor.process_state_unsupported _ again state2 hag, hclear]
    simp [Event.is_log]

/-- C10 at a concrete input: three cycles with the unsupported type `other 0` from the
initial dispatcher, then a supported type, then `other 0` again. -/
theorem C10_unsupported_warned_once_witness :
    (is_pro_controller_type (ControllerType.other 0) = false ∧
      ({} : GamepadCommandProcessor).m_warnedUnsupported ≠ some (ControllerType.other 0) ∧
      is_pro_controller_type pro_session.controller_type = true ∧
      unsupported_session.controller_type = ControllerType.other 0) ∧
    (({} : GamepadCommandProcessor).dispatch_cycles
      [(unsupported_session, press_south), (unsupported_session, at_rest),
       (unsupported_session, press_east)]).2 = [Event.log unsupported_warning] ∧
    ((((({} : GamepadCommandProcessor).dispatch_cycles
      [(unsupported_session, press_south), (unsupported_session, at_rest),
       (unsupported_session, press_east)]).1.process_state pro_session press_south).1
      ).process_state unsupported_session press_east).2.filter Event.is_log =
      [Event.log unsupported_warning] :=
  ⟨by decide,
   (C10_unsupported_warned_once {} (ControllerType.other 0)
      [(unsupported_session, press_south), (unsupported_session, at_rest),
       (unsupported_session, press_east)] pro_session unsupported_session press_south press_east
      (by decide) (by decide) (by decide) (by decide) (by decide) (by decide)).1,
   (C10_unsupported_warned_once {} (ControllerType.other 0)
      [(unsupported_session, press_south), (unsupported_session, at_rest),
       (unsupported_session, press_east)] pro_session unsupported_session press_south press_east
      (by decide) (by decide) (by decide) (by decide) (by decide) (by decide)).2.2.2.2⟩

/-! ## Facts about the translator -/

theorem or_if_testBit (c : Bool) (b : Button) (m i : Nat) :
    (or_if c b m).testBit i = (m.testBit i || (c && decide (b.bit = i))) := by
  unfold or_if Button.mask
  cases c <;> simp [Nat.testBit_lor, Nat.testBit_two_pow]

theorem or_if_eq_zero (c : Bool) (b : Button) (m : Nat) :
    or_if c b m = 0 ↔ (c = false ∧ m = 0) := by
  cases c
  · simp [or_if]
  · simp only [or_if, if_true, Bool.true_eq_false, false_and, iff_false]
    intro h
    have h2 := congrArg (fun n => n.testBit b.bit) h
    simp [Nat.testBit_lor, Button.mask, Nat.testBit_two_pow] at h2

/-- The bits of the button mask, one by one. -/
theorem pro_buttons_testBit (s : GamepadState) (i : Nat) :
    (pro_buttons s).testBit i =
      ((s.south && decide (i = 1)) || (s.east && decide (i = 2)) ||
       (s.west && decide (i = 0)) || (s.north && decide (i = 3)) ||
       (s.l1 && decide (i = 4)) || (s.r1 && decide (i = 5)) ||
       (decide (64 ≤ s.trigger_l2) && decide (i = 6)) ||
       (decide (64 ≤ s.trigger_r2) && decide (i = 7)) ||
       (s.l3 && decide (i = 10)) || (s.r3 && decide (i = 11)) ||
       (s.select && decide (i = 8)) || (s.start && decide (i = 9)) ||
       (s.options && decide (i = 9)) || (s.share && decide (i = 13)) ||
       (s.guide && decide (i = 12)) || (s.center && decide (i = 13)) ||
       (s.dpad_up && decide (i = 16)) || (s.dpad_down && decide (i = 18)) ||
       (s.dpad_left && decide (i = 19)) || (s.dpad_right && decide (i = 17))) := by
  simp only [pro_buttons, or_if_testBit, Nat.zero_testBit, Button.bit, TRIGGER_THRESHOLD,
    Bool.false_or, ge_iff_le, eq_comm]

/-- The button mask is zero exactly when nothing sets a bit. -/
theorem pro_buttons_eq_zero (s : GamepadState) :
    pro_buttons s = 0 ↔
      (s.south = false ∧ s.east = false ∧ s.west = false ∧ s.north = false ∧
       s.l1 = false ∧ s.r1 = false ∧ s.trigger_l2 < 64 ∧ s.trigger_r2 < 64 ∧
       s.l3 = false ∧ s.r3 = false ∧
       s.select = false ∧ s.start = false ∧ s.options = false ∧ s.share = false ∧
       s.guide = false ∧ s.center = false ∧
       s.dpad_up = false ∧ s.dpad_down = false ∧ s.dpad_left = false ∧ s.dpad_right = false) := by
  simp only [pro_buttons, or_if_eq_zero, TRIGGER_THRESHOLD, decide_eq_false_iff_not, ge_iff_le,
    not_le, and_true]
  tauto

theorem compose_dpad_eq (state : GamepadState) :
    compose_dpad state =
      if dpad_dx state = 0 ∧ dpad_dy state = 0 then DpadPosition.DPAD_NONE
      else if dpad_dx state = 0 then
        (if dpad_dy state > 0 then DpadPosition.DPAD_DOWN else DpadPosition.DPAD_UP)
      else if dpad_dy state = 0 then
        (if dpad_dx state > 0 then DpadPosition.DPAD_RIGHT else DpadPosition.DPAD_LEFT)
      else if dpad_dx state > 0 ∧ dpad_dy state > 0 then DpadPosition.DPAD_DOWN_RIGHT
      else if dpad_dx state > 0 ∧ dpad_dy state < 0 then DpadPosition.DPAD_UP_RIGHT
      else if dpad_dx state < 0 ∧ dpad_dy state > 0 then DpadPosition.DPAD_DOWN_LEFT
      else DpadPosition.DPAD_UP_LEFT := rfl

theorem axis_to_switch_eq_centre (axis : Int) : axis_to_switch axis = 128 ↔ axis = 0 := by
  simp only [axis_to_switch, clamp]
  constructor
  · intro h
    split at h
    · simp at h
    · split at h
      · simp at h
      · omega
  · intro h
    subst h
    decide

theorem axis_to_switch_neg_eq_centre (y : Int) (hlo : -32768 ≤ y) (hhi : y ≤ 32767) :
    axis_to_switch (int16_wrap (-y)) = 128 ↔ y = 0 := by
  rw [axis_to_switch_eq_centre]
  unfold int16_wrap
  omega

theorem GamepadState.ne_iff (a b : GamepadState) : a.ne b = true ↔ a ≠ b := by
  unfold GamepadState.ne
  rw [Bool.not_eq_true', ← Bool.not_eq_true, GamepadState.eq_iff]

namespace GamepadInputDevice

/-- The slot `poll`, branch by branch. -/
theorem poll_eq (d : GamepadInputDevice) (connected : Bool) (xstate : XINPUT_STATE) :
    d.poll connected xstate =
      ({ d with
          m_connected := connected
          m_lastState := next_state connected xstate
          m_unchanged_ticks :=
            if next_state connected xstate ≠ d.m_lastState then 0
            else if connected = true then
              (if d.m_unchanged_ticks + 1 ≥ HEARTBEAT_TICKS then 0 else d.m_unchanged_ticks + 1)
            else d.m_unchanged_ticks },
       (if connected ≠ d.m_connected then [Signal.connectionStateChanged connected] else []) ++
       (if next_state connected xstate ≠ d.m_lastState then
          [Signal.stateUpdated (next_state connected xstate)]
        else if connected = true ∧ d.m_unchanged_ticks + 1 ≥ HEARTBEAT_TICKS then
          [Signal.stateUpdated d.m_lastState]
        else [])) := by
  obtain ⟨ta, mc, ls, ut⟩ := d
  unfold poll
  by_cases hne : next_state connected xstate ≠ ls
  · have h1 : (next_state connected xstate).ne ls = true := (GamepadState.ne_iff _ _).mpr hne
    simp [h1, hne]
  · have h1 : (next_state connected xstate).ne ls = false := by
      rw [← Bool.not_eq_true, GamepadState.ne_iff]; exact hne
    have h2 : next_state connected xstate = ls := not_not.mp hne
    have h3 : ls.ne ls = false := by
      rw [← Bool.not_eq_true, GamepadState.ne_iff]; exact fun h => h rfl
    cases connected with
    | false => simp [h2, h3]
    | true =>
      by_cases hb : ut + 1 ≥ HEARTBEAT_TICKS
      · simp [h2, h3, hb]
      · simp [h2, h3, hb]

/-- Unchanged ticks of a connected device: from a counter value `c`, `n` ticks emit
the held state once every 25 ticks and nothing else. -/
theorem ticks_unchanged (n : Nat) (d : GamepadInputDevice) (xstate : XINPUT_STATE) (c : Nat)
    (hc : c < 25) (hlast : d.m_lastState = translate_state xstate)
    (hconn : d.m_connected = true) (hticks : d.m_unchanged_ticks = (c : Int)) :
    (d.ticks (List.replicate n (true, xstate))).2 =
      List.replicate ((c + n) / 25) (Signal.stateUpdated (translate_state xstate)) ∧
    (d.ticks (List.replicate n (true, xstate))).1.m_lastState = translate_state xstate ∧
    (d.ticks (List.replicate n (true, xstate))).1.m_connected = true ∧
    (d.ticks (List.replicate n (true, xstate))).1.m_unchanged_ticks =
      (((c + n) % 25 : Nat) : Int) := by
  induction n generalizing d c with
  | zero =>
    have h0 : c / 25 = 0 := Nat.div_eq_of_lt hc
    have h1 : c % 25 = c := Nat.mod_eq_of_lt hc
    simp [ticks, h0, h1, hlast, hconn, hticks]
  | succ n ih =>
    rw [List.replicate_succ]
    unfold ticks
    have hnext : next_state true xstate = translate_state xstate := rfl
    have hpoll := poll_eq d true xstate
    rw [hnext, hlast, hconn, hticks] at hpoll
    simp only [ne_eq, not_true_eq_false, if_false, true_and, List.nil_append, if_true,
      HEARTBEAT_TICKS] at hpoll
    by_cases hb : c + 1 = 25
    · have hge : ((c : Int) + 1 ≥ 25) := by omega
      simp only [hge, if_true] at hpoll
      obtain ⟨i1, i2, i3, i4⟩ := ih (d.poll true xstate).1 0 (by omega)
        (by rw [hpoll]) (by rw [hpoll]) (by rw [hpoll]; rfl)
      rw [i1, i2, i3, i4, hpoll]
      have e1 : (c + (n + 1)) / 25 = (0 + n) / 25 + 1 := by omega
      have e2 : (c + (n + 1)) % 25 = (0 + n) % 25 := by omega
      rw [e1, e2, List.replicate_succ]
      simp
    · have hlt : ¬ ((c : Int) + 1 ≥ 25) := by omega
      simp only [hlt, if_false] at hpoll
      obtain ⟨i1, i2, i3, i4⟩ := ih (d.poll true xstate).1 (c + 1) (by omega)
        (by rw [hpoll]) (by rw [hpoll]) (by rw [hpoll]; push_cast; rfl)
      rw [i1, i2, i3, i4, hpoll]
      have e1 : (c + (n + 1)) = (c + 1 + n) := by omega
      rw [e1]
      simp

end GamepadInputDevice

/-! ## C11: one tick of the sampler -/

/-- C11: on a tick, with `next_state` the translated sample if the device is connected
and the default state otherwise: if it differs from the last emitted state,
exactly one state event carrying it is emitted, it becomes the last emitted
state and the heartbeat counter is reset to 0; if it is identical and the device
is disconnected, no state event is emitted and the counter is unchanged; if it
is identical and the device is connected, the counter is incremented and a
state event (carrying the same state) is emitted exactly when the incremented
counter reaches `HEARTBEAT_TICKS`, the counter then going back to 0. -/
theorem C11_tick (d : GamepadInputDevice) (connected : Bool) (xstate : XINPUT_STATE) :
    (d.poll connected xstate).2.filter Signal.is_state =
      (if next_state connected xstate ≠ d.m_lastState then
        [Signal.stateUpdated (next_state connected xstate)]
       else if connected = false then []
       else if d.m_unchanged_ticks + 1 ≥ HEARTBEAT_TICKS then
        [Signal.stateUpdated d.m_lastState]
       else []) ∧
    (d.poll connected xstate).1.m_lastState = next_state connected xstate ∧
    (d.poll connected xstate).1.m_unchanged_ticks =
      (if next_state connected xstate ≠ d.m_lastState then 0
       else if connected = false then d.m_unchanged_ticks
       else if d.m_unchanged_ticks + 1 ≥ HEARTBEAT_TICKS then 0
       else d.m_unchanged_ticks + 1) ∧
    next_state connected xstate =
      (if connected = true then translate_state xstate else ({} : GamepadState)) := by
  rw [GamepadInputDevice.poll_eq]
  refine ⟨?_, rfl, ?_, rfl⟩
  · have hconn : (if connected ≠ d.m_connected then [Signal.connectionStateChanged connected]
        else []).filter Signal.is_state = [] := by
      split <;> rfl
    rw [List.filter_append, hconn, List.nil_append]
    by_cases hne : next_state connected xstate ≠ d.m_lastState <;>
    cases connected <;>
    by_cases hb : d.m_unchanged_ticks + 1 ≥ HEARTBEAT_TICKS <;>
      simp [hne, hb, Signal.is_state, List.filter_cons]
  · by_cases hne : next_state connected xstate ≠ d.m_lastState <;>
    cases connected <;> simp [hne]

/-! ## C12: the heartbeat -/

/-- C12: let a tick on which the backend reports the device connected with sample
`xstate` emit a state event, and let the backend give the same answer on the
ticks that follow.  Then the next 24 ticks emit nothing, the 25th emits exactly
one state event carrying the same state, and so on: the tick number `k + 1`
emits (one event) exactly when 25 divides `k + 1`, and `n` such ticks emit
exactly `n / 25` events, all carrying that state. -/
theorem C12_heartbeat (d0 : GamepadInputDevice) (xstate : XINPUT_STATE) (n k : Nat)
    (hemit : Signal.stateUpdated (translate_state xstate) ∈ (d0.poll true xstate).2) :
    ((d0.poll true xstate).1.ticks (List.replicate n (true, xstate))).2 =
      List.replicate (n / 25) (Signal.stateUpdated (translate_state xstate)) ∧
    ((d0.poll true xstate).1.ticks (List.replicate 24 (true, xstate))).2 = [] ∧
    ((d0.poll true xstate).1.ticks (List.replicate 25 (true, xstate))).2 =
      [Signal.stateUpdated (translate_state xstate)] ∧
    ((((d0.poll true xstate).1.ticks (List.replicate k (true, xstate))).1.poll true
      xstate).2 =
        if (k + 1) % 25 = 0 then [Signal.stateUpdated (translate_state xstate)] else []) := by
  have hnext : next_state true xstate = translate_state xstate := rfl
  -- the emitting tick leaves the counter at 0
  have hstart : (d0.poll true xstate).1.m_lastState = translate_state xstate ∧
      (d0.poll true xstate).1.m_connected = true ∧
      (d0.poll true xstate).1.m_unchanged_ticks = ((0 : Nat) : Int) := by
    rw [GamepadInputDevice.poll_eq] at hemit ⊢
    rw [hnext] at hemit ⊢
    refine ⟨rfl, rfl, ?_⟩
    by_cases hne : translate_state xstate ≠ d0.m_lastState
    · simp [hne]
    · by_cases hb : d0.m_unchanged_ticks + 1 ≥ HEARTBEAT_TICKS
      · simp [hne, hb]
      · exfalso
        by_cases hc : true = d0.m_connected <;> simp [hne, hb, hc] at hemit
  obtain ⟨h1, h2, h3⟩ := hstart
  have hrun := fun m => GamepadInputDevice.ticks_unchanged m (d0.poll true xstate).1 xstate 0
    (by decide) h1 h2 h3
  refine ⟨?_, ?_, ?_, ?_⟩
  · simpa using (hrun n).1
  · simpa using (hrun 24).1
  · simpa using (hrun 25).1
  · obtain ⟨-, r2, r3, r4⟩ := hrun k
    rw [GamepadInputDevice.poll_eq, hnext, r2, r3, r4]
    simp only [ne_eq, not_true_eq_false, if_false, true_and, List.nil_append, HEARTBEAT_TICKS]
    split <;> split <;> first | rfl | (exfalso; omega)

/-- C12 at a concrete input: the fresh sampler sees the A button held; the first tick
emits, and of the next 60 ticks the 25th and the 50th do. -/
theorem C12_heartbeat_witness :
    Signal.stateUpdated (translate_state xinput_a) ∈
      (({} : GamepadInputDevice).poll true xinput_a).2 ∧
    ((({} : GamepadInputDevice).poll true xinput_a).1.ticks
      (List.replicate 60 (true, xinput_a))).2 =
      [Signal.stateUpdated (translate_state xinput_a),
       Signal.stateUpdated (translate_state xinput_a)] :=
  ⟨by decide, (C12_heartbeat {} xinput_a 60 0 (by decide)).1⟩

/-! ## C13: stopping the sampler -/

/-- C13: `stop()` emits one state event carrying the default state exactly when the last
emitted state differs from it, then one connectivity event with value false
exactly when the last known connectivity was true (the backend is not asked),
and leaves the last state default and the connectivity false; a `stop()` right
after it emits nothing and changes nothing. -/
theorem C13_stop (d : GamepadInputDevice) :
    d.stop.2 =
      (if d.m_lastState ≠ ({} : GamepadState) then
        [Signal.stateUpdated ({} : GamepadState)] else []) ++
      (if d.m_connected = true then [Signal.connectionStateChanged false] else []) ∧
    d.stop.1.m_lastState = ({} : GamepadState) ∧
    d.stop.1.m_connected = false ∧
    d.stop.1.stop = (d.stop.1, []) := by
  have hstop : ∀ e : GamepadInputDevice, e.stop =
      ({ e with timer_active := false, m_lastState := {}, m_connected := false },
       (if e.m_lastState ≠ ({} : GamepadState) then
          [Signal.stateUpdated ({} : GamepadState)] else []) ++
        (if e.m_connected = true then [Signal.connectionStateChanged false] else [])) := by
    intro e
    obtain ⟨ta, mc, ls, ut⟩ := e
    unfold GamepadInputDevice.stop
    by_cases hne : ls ≠ ({} : GamepadState)
    · have h1 : GamepadState.ne {} ls = true := (GamepadState.ne_iff _ _).mpr (Ne.symm hne)
      cases ta <;> cases mc <;> simp [h1, hne]
    · have h2 : ls = {} := not_not.mp hne
      have h1 : GamepadState.ne {} ({} : GamepadState) = false := by decide
      subst h2
      cases ta <;> cases mc <;> simp [h1]
  refine ⟨?_, ?_, ?_, ?_⟩
  · rw [hstop]
  · rw [hstop]
  · rw [hstop]
  · rw [hstop, hstop]
    simp

/-! ## C14: the directional pad -/

/-- C14: with dx = right - left and dy = down - up, `compose_dpad` returns NONE exactly
when dx = 0 and dy = 0, UP (DOWN) exactly when dx = 0 and dy < 0 (dy > 0), LEFT
(RIGHT) exactly when dy = 0 and dx < 0 (dx > 0), and each diagonal exactly when
the signs of (dx, dy) are those of its name.  Up alone gives UP, up with right
gives UP_RIGHT, nothing pressed gives NONE, and opposite directions pressed
together cancel. -/
theorem C14_compose_dpad (state : GamepadState) :
    (compose_dpad state = DpadPosition.DPAD_NONE ↔ dpad_dx state = 0 ∧ dpad_dy state = 0) ∧
    (compose_dpad state = DpadPosition.DPAD_UP ↔ dpad_dx state = 0 ∧ dpad_dy state < 0) ∧
    (compose_dpad state = DpadPosition.DPAD_DOWN ↔ dpad_dx state = 0 ∧ dpad_dy state > 0) ∧
    (compose_dpad state = DpadPosition.DPAD_LEFT ↔ dpad_dy state = 0 ∧ dpad_dx state < 0) ∧
    (compose_dpad state = DpadPosition.DPAD_RIGHT ↔ dpad_dy state = 0 ∧ dpad_dx state > 0) ∧
    (compose_dpad state = DpadPosition.DPAD_DOWN_RIGHT ↔
      dpad_dx state > 0 ∧ dpad_dy state > 0) ∧
    (compose_dpad state = DpadPosition.DPAD_UP_RIGHT ↔
      dpad_dx state > 0 ∧ dpad_dy state < 0) ∧
    (compose_dpad state = DpadPosition.DPAD_DOWN_LEFT ↔
      dpad_dx state < 0 ∧ dpad_dy state > 0) ∧
    (compose_dpad state = DpadPosition.DPAD_UP_LEFT ↔
      dpad_dx state < 0 ∧ dpad_dy state < 0) ∧
    compose_dpad { state with dpad_up := true, dpad_down := false, dpad_left := false,
                              dpad_right := false } = DpadPosition.DPAD_UP ∧
    compose_dpad { state with dpad_up := true, dpad_down := false, dpad_left := false,
                              dpad_right := true } = DpadPosition.DPAD_UP_RIGHT ∧
    compose_dpad { state with dpad_up := false, dpad_down := false, dpad_left := false,
                              dpad_right := false } = DpadPosition.DPAD_NONE ∧
    compose_dpad { state with dpad_up := true, dpad_down := true, dpad_left := false,
                              dpad_right := false } = DpadPosition.DPAD_NONE ∧
    compose_dpad { state with dpad_up := false, dpad_down := false, dpad_left := true,
                              dpad_right := true } = DpadPosition.DPAD_NONE ∧
    compose_dpad { state with dpad_up := true, dpad_down := true, dpad_left := false,
                              dpad_right := true } = DpadPosition.DPAD_RIGHT ∧
    compose_dpad { state with dpad_up := true, dpad_down := false, dpad_left := true,
                              dpad_right := true } = DpadPosition.DPAD_UP := by
  refine ⟨?_, ?_, ?_, ?_, ?_, ?_, ?_, ?_, ?_, rfl, rfl, rfl, rfl, rfl, rfl, rfl⟩ <;>
  · rw [compose_dpad_eq]
    unfold dpad_dx dpad_dy
    cases state.dpad_up <;> cases state.dpad_down <;> cases state.dpad_left <;>
      cases state.dpad_right <;> decide

/-! ## C15: trigger-to-button promotion -/

/-- C15: for every connected state the ZL bit of the translated button mask is set
exactly when `trigger_l2 >= 64` and the ZR bit exactly when `trigger_r2 >= 64`
(so clear for 0..63, set from 64 on); the promotion is monotonic: when a trigger
magnitude does not decrease, a set bit stays set. -/
theorem C15_trigger_promotion (s t : GamepadState)
    (hs : s.connected = true) (ht : t.connected = true)
    (hl : s.trigger_l2 ≤ t.trigger_l2) (hr : s.trigger_r2 ≤ t.trigger_r2) :
    ((apply_to_pro_state s).2.pressed Button.BUTTON_ZL = true ↔
      TRIGGER_THRESHOLD ≤ s.trigger_l2) ∧
    ((apply_to_pro_state s).2.pressed Button.BUTTON_ZR = true ↔
      TRIGGER_THRESHOLD ≤ s.trigger_r2) ∧
    ((apply_to_pro_state s).2.pressed Button.BUTTON_ZL = true →
      (apply_to_pro_state t).2.pressed Button.BUTTON_ZL = true) ∧
    ((apply_to_pro_state s).2.pressed Button.BUTTON_ZR = true →
      (apply_to_pro_state t).2.pressed Button.BUTTON_ZR = true) := by
  have key : ∀ u : GamepadState, u.connected = true →
      ((apply_to_pro_state u).2.pressed Button.BUTTON_ZL = true ↔ 64 ≤ u.trigger_l2) ∧
      ((apply_to_pro_state u).2.pressed Button.BUTTON_ZR = true ↔ 64 ≤ u.trigger_r2) := by
    intro u hu
    simp [apply_to_pro_state, hu, ProControllerState.pressed, pro_buttons_testBit, Button.bit]
  obtain ⟨s1, s2⟩ := key s hs
  obtain ⟨t1, t2⟩ := key t ht
  refine ⟨s1, s2, fun h => t1.mpr ?_, fun h => t2.mpr ?_⟩
  · exact le_trans (s1.mp h) hl
  · exact le_trans (s2.mp h) hr

/-- C15 at the threshold: a left trigger at 63 leaves ZL clear, at 64 it sets it. -/
theorem C15_trigger_promotion_witness :
    ((pull_l2 63).connected = true ∧ (pull_l2 64).connected = true ∧
      (pull_l2 63).trigger_l2 ≤ (pull_l2 64).trigger_l2) ∧
    (apply_to_pro_state (pull_l2 63)).2.pressed Button.BUTTON_ZL = false ∧
    (apply_to_pro_state (pull_l2 64)).2.pressed Button.BUTTON_ZL = true ∧
    ((apply_to_pro_state (pull_l2 63)).2.pressed Button.BUTTON_ZL = true ↔
      TRIGGER_THRESHOLD ≤ (pull_l2 63).trigger_l2) :=
  ⟨by decide, by decide, by decide,
   (C15_trigger_promotion (pull_l2 63) (pull_l2 64) (by decide) (by decide) (by decide)
      (by decide)).1⟩

/-! ## C16: vertical axes -/

/-- The one `int16_t` value at which the translator does not invert: the negation of
-32768 does not fit the `int16_t` parameter of `axis_to_switch` and wraps to
-32768, so the coordinate is 0, where it is 255 one step up.  The sampler
never hands this value to the translator (`convert_thumb_axis_range`). -/
theorem apply_to_pro_state_axis_minimum :
    (tilt_left_y (-32768)).in_range ∧
    (apply_to_pro_state (tilt_left_y (-32768))).2.left_y = 0 ∧
    (clamp (128 - (-32768)) 0 255).toNat = 255 ∧
    (apply_to_pro_state (tilt_left_y (-32767))).2.left_y = 255 ∧
    (apply_to_pro_state { connected := true, axis_right_y := -32768 }).2.right_y = 0 := by
  decide

/-- C17: the flag returned by `apply_to_pro_state` is true exactly when the resulting
command has no button bit set, pad NONE and all four sticks at 128; in terms of
the input (a `GamepadState` with `uint8_t` triggers and `int16_t` axes), exactly
when the state is disconnected, or none of its 14 button booleans and 4
directional-pad booleans is set, both triggers are below 64 and all four axes
are 0. -/
theorem C17_neutrality (s : GamepadState) (hrange : s.in_range) :
    ((apply_to_pro_state s).1 = true ↔
      ((apply_to_pro_state s).2.buttons = 0 ∧
       (apply_to_pro_state s).2.dpad = DpadPosition.DPAD_NONE ∧
       (apply_to_pro_state s).2.left_x = 128 ∧ (apply_to_pro_state s).2.left_y = 128 ∧
       (apply_to_pro_state s).2.right_x = 128 ∧ (apply_to_pro_state s).2.right_y = 128)) ∧
    ((apply_to_pro_state s).1 = true ↔
      (s.connected = false ∨
       ((s.south = false ∧ s.east = false ∧ s.west = false ∧ s.north = false ∧
         s.l1 = false ∧ s.r1 = false ∧ s.l3 = false ∧ s.r3 = false ∧
         s.select = false ∧ s.start = false ∧ s.guide = false ∧ s.share = false ∧
         s.options = false ∧ s.center = false) ∧
        (s.dpad_up = false ∧ s.dpad_down = false ∧ s.dpad_left = false ∧
         s.dpad_right = false) ∧
        (s.trigger_l2 < 64 ∧ s.trigger_r2 < 64) ∧
        (s.axis_left_x = 0 ∧ s.axis_left_y = 0 ∧ s.axis_right_x = 0 ∧
         s.axis_right_y = 0)))) := by
  obtain ⟨_, _, _, ⟨hly1, hly2⟩, _, ⟨hry1, hry2⟩⟩ := hrange
  cases hconn : s.connected with
  | false =>
    simp [apply_to_pro_state, hconn, ProControllerState.clear]
  | true =>
    have hflag : (apply_to_pro_state s).1 = true ↔
        (pro_buttons s = 0 ∧ compose_dpad s = DpadPosition.DPAD_NONE ∧
          axis_to_switch s.axis_left_x = 128 ∧
          axis_to_switch (int16_wrap (-s.axis_left_y)) = 128 ∧
          axis_to_switch s.axis_right_x = 128 ∧
          axis_to_switch (int16_wrap (-s.axis_right_y)) = 128) := by
      simp [apply_to_pro_state, hconn, ProControllerState.is_neutral, and_assoc]
    refine ⟨?_, ?_⟩
    · rw [hflag]
      simp [apply_to_pro_state, hconn]
    · rw [hflag, pro_buttons_eq_zero, axis_to_switch_neg_eq_centre _ hly1 hly2,
        axis_to_switch_neg_eq_centre _ hry1 hry2, axis_to_switch_eq_centre,
        axis_to_switch_eq_centre]
      constructor
      · rintro ⟨hb, -, hx⟩
        right
        tauto
      · rintro (h | ⟨hb, hd, ht, hx⟩)
        · simp at h
        · refine ⟨by tauto, ?_, hx⟩
          obtain ⟨h1, h2, h3, h4⟩ := hd
          rw [compose_dpad_eq]
          simp [dpad_dx, dpad_dy, h1, h2, h3, h4]

/-- C17 at a concrete input: a connected state whose only activity is a trigger at 63
translates to a neutral command. -/
theorem C17_neutrality_witness :
    (pull_l2 63).in_range ∧ (pull_l2 63).connected = true ∧
    (apply_to_pro_state (pull_l2 63)).1 = true ∧
    ((apply_to_pro_state (pull_l2 63)).1 = true ↔
      ((apply_to_pro_state (pull_l2 63)).2.buttons = 0 ∧
       (apply_to_pro_state (pull_l2 63)).2.dpad = DpadPosition.DPAD_NONE ∧
       (apply_to_pro_state (pull_l2 63)).2.left_x = 128 ∧
       (apply_to_pro_state (pull_l2 63)).2.left_y = 128 ∧
       (apply_to_pro_state (pull_l2 63)).2.right_x = 128 ∧
       (apply_to_pro_state (pull_l2 63)).2.right_y = 128)) :=
  ⟨by decide, by decide, by decide, (C17_neutrality (pull_l2 63) (by decide)).1⟩

/-! ## C18: the menu buttons fold many-to-one -/

/-- C18: for every connected state the PLUS bit is set exactly when start or options is
set, the CAPTURE bit exactly when share or center is set, the HOME bit exactly
when guide is set and the MINUS bit exactly when select is set; states that
differ only in which of start / options (or which of share / center) is pressed
translate to the same command. -/
theorem C18_menu_fold (s : GamepadState) (hconn : s.connected = true) :
    ((apply_to_pro_state s).2.pressed Button.BUTTON_PLUS = true ↔
      (s.start = true ∨ s.options = true)) ∧
    ((apply_to_pro_state s).2.pressed Button.BUTTON_CAPTURE = true ↔
      (s.share = true ∨ s.center = true)) ∧
    ((apply_to_pro_state s).2.pressed Button.BUTTON_HOME = true ↔ s.guide = true) ∧
    ((apply_to_pro_state s).2.pressed Button.BUTTON_MINUS = true ↔ s.select = true) ∧
    apply_to_pro_state { s with start := true, options := false } =
      apply_to_pro_state { s with start := false, options := true } ∧
    apply_to_pro_state { s with start := true, options := false } =
      apply_to_pro_state { s with start := true, options := true } ∧
    apply_to_pro_state { s with share := true, center := false } =
      apply_to_pro_state { s with share := false, center := true } ∧
    apply_to_pro_state { s with share := true, center := false } =
      apply_to_pro_state { s with share := true, center := true } := by
  have hbuttons : ∀ u v : GamepadState,
      (∀ i, (pro_buttons u).testBit i = (pro_buttons v).testBit i) →
      u.connected = v.connected → compose_dpad u = compose_dpad v →
      u.axis_left_x = v.axis_left_x → u.axis_left_y = v.axis_left_y →
      u.axis_right_x = v.axis_right_x → u.axis_right_y = v.axis_right_y →
      apply_to_pro_state u = apply_to_pro_state v := by
    intro u v hb hc hd h1 h2 h3 h4
    have hb2 : pro_buttons u = pro_buttons v := Nat.eq_of_testBit_eq hb
    simp only [apply_to_pro_state, hb2, hc, hd, h1, h2, h3, h4]
  refine ⟨?_, ?_, ?_, ?_, ?_, ?_, ?_, ?_⟩
  · simp [apply_to_pro_state, hconn, ProControllerState.pressed, pro_buttons_testBit, Button.bit]
  · simp [apply_to_pro_state, hconn, ProControllerState.pressed, pro_buttons_testBit, Button.bit]
  · simp [apply_to_pro_state, hconn, ProControllerState.pressed, pro_buttons_testBit, Button.bit]
  · simp [apply_to_pro_state, hconn, ProControllerState.pressed, pro_buttons_testBit, Button.bit]
  all_goals
    refine hbuttons _ _ (fun i => ?_) ?_ ?_ ?_ ?_ ?_ ?_
    · simp only [pro_buttons_testBit]
      by_cases h9 : i = 9 <;> by_cases h13 : i = 13 <;> simp [h9, h13]
    all_goals rfl

/-- C18 at a concrete input: start alone and options alone give the same command, with
the PLUS bit set. -/
theorem C18_menu_fold_witness :
    ({ connected := true, start := true } : GamepadState).connected = true ∧
    apply_to_pro_state { connected := true, start := true, options := false } =
      apply_to_pro_state { connected := true, start := false, options := true } ∧
    (apply_to_pro_state { connected := true, start := true }).2.pressed Button.BUTTON_PLUS =
      true :=
  ⟨rfl,
   (C18_menu_fold { connected := true, start := true } rfl).2.2.2.2.1,
   by decide⟩

/-! ## C19: equality of states -/

/-- C19: `operator==` on `GamepadState` holds exactly when the two states agree on every
one of the 25 fields (so exactly when they are the same value), `operator!=` is
its negation, and a state equals the default-constructed one exactly when it is
disconnected and `is_neutral()`. -/
theorem C19_equality (s t : GamepadState) :
    (s.eq t = true ↔
      (s.connected = t.connected ∧
       s.south = t.south ∧ s.east = t.east ∧ s.west = t.west ∧ s.north = t.north ∧
       s.l1 = t.l1 ∧ s.r1 = t.r1 ∧
       s.trigger_l2 = t.trigger_l2 ∧ s.trigger_r2 = t.trigger_r2 ∧
       s.l3 = t.l3 ∧ s.r3 = t.r3 ∧
       s.select = t.select ∧ s.start = t.start ∧ s.guide = t.guide ∧
       s.share = t.share ∧ s.options = t.options ∧ s.center = t.center ∧
       s.dpad_up = t.dpad_up ∧ s.dpad_down = t.dpad_down ∧
       s.dpad_left = t.dpad_left ∧ s.dpad_right = t.dpad_right ∧
       s.axis_left_x = t.axis_left_x ∧ s.axis_left_y = t.axis_left_y ∧
       s.axis_right_x = t.axis_right_x ∧ s.axis_right_y = t.axis_right_y)) ∧
    (s.eq t = true ↔ s = t) ∧
    s.ne t = !s.eq t ∧
    (s.eq {} = true ↔ (s.connected = false ∧ s.is_neutral = true)) := by
  refine ⟨?_, GamepadState.eq_iff s t, rfl, ?_⟩
  · simp only [GamepadState.eq, Bool.and_eq_true, beq_iff_eq, and_assoc]
  · simp only [GamepadState.eq, GamepadState.is_neutral, Bool.and_eq_true, beq_iff_eq,
      and_assoc, Bool.not_eq_true']

/-! ## C20: activation and status -/

/-- C20: for every facade state and session condition, the flag `update_active_state`
hands to `set_active` is enabled-request AND device-selected AND
device-connected AND session-ready (and is the dispatcher's activation flag
afterwards); `status().active` is the AND of those four flags and "block reason
is empty", so it holds exactly when the pushed flag holds and the session's
block reason is empty. -/
theorem C20_activation (c : GamepadController) (session : ControllerSession) :
    c.update_active_state session =
      { c with m_processor := (c.m_processor.set_active
          (c.m_enabledRequest && c.m_deviceId.isSome && c.m_deviceConnected && session.ready)) } ∧
    (c.update_active_state session).m_processor.m_active =
      (c.m_enabledRequest && c.m_deviceId.isSome && c.m_deviceConnected && session.ready) ∧
    ((c.status session).enabled_request = c.m_enabledRequest ∧
      (c.status session).device_selected = c.m_deviceId.isSome ∧
      (c.status session).device_connected = c.m_deviceConnected ∧
      (c.status session).session_ready = session.ready ∧
      (c.status session).block_reason = session.user_input_blocked) ∧
    (c.status session).active =
      ((c.status session).enabled_request && (c.status session).device_selected &&
        (c.status session).device_connected && (c.status session).session_ready &&
        ((c.status session).block_reason == "")) ∧
    ((c.status session).active = true ↔
      ((c.update_active_state session).m_processor.m_active = true ∧
        session.user_input_blocked = "")) := by
  have hactive : ∀ (p : GamepadCommandProcessor) (b : Bool), (p.set_active b).m_active = b := by
    intro p b
    unfold GamepadCommandProcessor.set_active
    split
    · rename_i h; exact beq_iff_eq.mp h
    · rfl
  refine ⟨rfl, ?_, ⟨rfl, rfl, rfl, rfl, rfl⟩, rfl, ?_⟩
  · exact hactive _ _
  · have h2 : (c.update_active_state session).m_processor.m_active =
        (c.m_enabledRequest && c.m_deviceId.isSome && c.m_deviceConnected && session.ready) :=
      hactive _ _
    rw [h2]
    simp [GamepadController.status, and_assoc]

/-! ## C25: connectivity events alternate -/

theorem connection_values_append (a b : List Signal) :
    connection_values (a ++ b) = connection_values a ++ connection_values b := by
  induction a with
  | nil => rfl
  | cons x xs ih => cases x <;> simp [connection_values, ih]

theorem alternates_chain (first : Bool) (values : List Bool)
    (h : alternates first values = true) : List.Chain' (· ≠ ·) values := by
  induction values generalizing first with
  | nil => exact List.chain'_nil
  | cons x xs ih =>
    simp only [alternates, Bool.and_eq_true, beq_iff_eq] at h
    obtain ⟨hx, hrest⟩ := h
    cases xs with
    | nil => exact List.chain'_singleton _
    | cons y ys =>
      refine List.chain'_cons.mpr ⟨?_, ih _ hrest⟩
      simp only [alternates, Bool.and_eq_true, beq_iff_eq] at hrest
      rw [hx, hrest.1]
      cases first <;> decide

namespace GamepadInputDevice

/-- The connectivity part of one operation: what is emitted is the negation of the
recorded connectedness, and becomes the recorded connectedness. -/
theorem apply_connection (d : GamepadInputDevice) (op : SamplerOp) :
    (connection_values (d.apply op).2 = [] ∧ (d.apply op).1.m_connected = d.m_connected) ∨
    (connection_values (d.apply op).2 = [!d.m_connected] ∧
      (d.apply op).1.m_connected = !d.m_connected) := by
  have hpoll : ∀ (e : GamepadInputDevice) (c : Bool) (x : XINPUT_STATE),
      (connection_values (e.poll c x).2 = [] ∧ (e.poll c x).1.m_connected = e.m_connected) ∨
      (connection_values (e.poll c x).2 = [!e.m_connected] ∧
        (e.poll c x).1.m_connected = !e.m_connected) := by
    intro e c x
    rw [poll_eq]
    simp only [connection_values_append]
    have hstate : connection_values
        (if next_state c x ≠ e.m_lastState then [Signal.stateUpdated (next_state c x)]
         else if c = true ∧ e.m_unchanged_ticks + 1 ≥ HEARTBEAT_TICKS then
          [Signal.stateUpdated e.m_lastState] else []) = [] := by
      split
      · rfl
      · split <;> rfl
    rw [hstate]
    cases c <;> cases hm : e.m_connected <;> simp [connection_values]
  cases op with
  | tick c x => exact hpoll d c x
  | start c x =>
    unfold apply start
    cases d.timer_active
    · simpa using hpoll d c x
    · left; exact ⟨rfl, rfl⟩
  | stop =>
    obtain ⟨ta, mc, ls, ut⟩ := d
    unfold apply stop
    cases ta <;> cases mc <;> cases hne : GamepadState.ne {} ls <;>
      simp [hne, connection_values]

/-- From any sampler state, the connectivity events of a run start with the negation
of the recorded connectedness and alternate. -/
theorem run_alternates (ops : List SamplerOp) (d : GamepadInputDevice) :
    alternates (!d.m_connected) (connection_values (d.run ops).2) = true := by
  induction ops generalizing d with
  | nil => rfl
  | cons op ops ih =>
    unfold run
    rw [connection_values_append]
    rcases apply_connection d op with ⟨h1, h2⟩ | ⟨h1, h2⟩
    · rw [h1, List.nil_append, ← h2]
      exact ih _
    · rw [h1]
      have := ih (d.apply op).1
      rw [h2, Bool.not_not] at this
      simp [alternates, this]

end GamepadInputDevice

/-- C25: on a tick, for every sampler state, a connectivity event is emitted exactly when
the backend's connectedness differs from the recorded one (it carries the new
value, which is then recorded); and over every finite sequence of ticks, `start`
and `stop` calls on a fresh sampler the values of the emitted connectivity
events begin with true and alternate, so no two in a row are equal. -/
theorem C25_connectivity_alternates (d : GamepadInputDevice) (connected : Bool)
    (xstate : XINPUT_STATE) (ops : List SamplerOp) :
    (d.poll connected xstate).2.filter Signal.is_connection =
      (if connected ≠ d.m_connected then [Signal.connectionStateChanged connected] else []) ∧
    (d.poll connected xstate).1.m_connected = connected ∧
    alternates true (connection_values (({} : GamepadInputDevice).run ops).2) = true ∧
    List.Chain' (· ≠ ·) (connection_values (({} : GamepadInputDevice).run ops).2) := by
  have halt := GamepadInputDevice.run_alternates ops {}
  refine ⟨?_, ?_, halt, alternates_chain _ _ halt⟩
  · rw [GamepadInputDevice.poll_eq, List.filter_append]
    have hstate : (if next_state connected xstate ≠ d.m_lastState then
          [Signal.stateUpdated (next_state connected xstate)]
        else if connected = true ∧ d.m_unchanged_ticks + 1 ≥ HEARTBEAT_TICKS then
          [Signal.stateUpdated d.m_lastState] else []).filter Signal.is_connection = [] := by
      split
      · rfl
      · split <;> rfl
    rw [hstate, List.append_nil]
    split <;> rfl
  · rw [GamepadInputDevice.poll_eq]

/-! ## C27: BACK and START on an XInput pad -/

/-- C27: for every XInput sample, `translate_state` copies BACK into both `select` and
`share` and START into both `start` and `options`; after `apply_to_pro_state`
the MINUS bit is set exactly when BACK is down, a sample with BACK down has both
the MINUS and the CAPTURE bit set, and no sample gives MINUS without CAPTURE. -/
theorem C27_back_and_start (xstate : XINPUT_STATE) :
    (translate_state xstate).select = test_mask xstate.Gamepad.wButtons XINPUT_GAMEPAD_BACK ∧
    (translate_state xstate).share = test_mask xstate.Gamepad.wButtons XINPUT_GAMEPAD_BACK ∧
    (translate_state xstate).start = test_mask xstate.Gamepad.wButtons XINPUT_GAMEPAD_START ∧
    (translate_state xstate).options =
      test_mask xstate.Gamepad.wButtons XINPUT_GAMEPAD_START ∧
    ((apply_to_pro_state (translate_state xstate)).2.pressed Button.BUTTON_MINUS =
      test_mask xstate.Gamepad.wButtons XINPUT_GAMEPAD_BACK) ∧
    (test_mask xstate.Gamepad.wButtons XINPUT_GAMEPAD_BACK = true →
      ((apply_to_pro_state (translate_state xstate)).2.pressed Button.BUTTON_MINUS = true ∧
       (apply_to_pro_state (translate_state xstate)).2.pressed Button.BUTTON_CAPTURE = true)) ∧
    ((apply_to_pro_state (translate_state xstate)).2.pressed Button.BUTTON_MINUS = true →
      (apply_to_pro_state (translate_state xstate)).2.pressed Button.BUTTON_CAPTURE = true) := by
  have hconn : (translate_state xstate).connected = true := rfl
  have hsel : (translate_state xstate).select =
      test_mask xstate.Gamepad.wButtons XINPUT_GAMEPAD_BACK := rfl
  have hshare : (translate_state xstate).share =
      test_mask xstate.Gamepad.wButtons XINPUT_GAMEPAD_BACK := rfl
  have hminus : (apply_to_pro_state (translate_state xstate)).2.pressed Button.BUTTON_MINUS =
      (translate_state xstate).select := by
    simp [apply_to_pro_state, hconn, ProControllerState.pressed, pro_buttons_testBit, Button.bit]
  have hcapture : (apply_to_pro_state (translate_state xstate)).2.pressed Button.BUTTON_CAPTURE =
      ((translate_state xstate).share || (translate_state xstate).center) := by
    simp [apply_to_pro_state, hconn, ProControllerState.pressed, pro_buttons_testBit, Button.bit]
  refine ⟨rfl, rfl, rfl, rfl, ?_, ?_, ?_⟩
  · rw [hminus, hsel]
  · intro h
    rw [hminus, hcapture, hsel, hshare, h]
    simp
  · intro h
    rw [hminus, hsel] at h
    rw [hcapture, hshare, h]
    simp

/-- C27 at a concrete input: the sample with only BACK down becomes a command with the
MINUS and the CAPTURE bit set. -/
theorem C27_back_and_start_witness :
    test_mask xinput_back.Gamepad.wButtons XINPUT_GAMEPAD_BACK = true ∧
    (apply_to_pro_state (translate_state xinput_back)).2.pressed Button.BUTTON_MINUS = true ∧
    (apply_to_pro_state (translate_state xinput_back)).2.pressed Button.BUTTON_CAPTURE = true :=
  ⟨by decide, (C27_back_and_start xinput_back).2.2.2.2.2.1 (by decide)⟩

/-! ## C21: the build without gamepad support -/

/-- C21: on the build where `is_gamepad_supported()` is false, after every finite
sequence of `set_device` and `set_enabled` calls on the facade, `status()`
reports active, device_connected and session_ready false and the non-empty
block reason "Controller support unavailable on this platform.", with
enabled_request the argument of the most recent `set_enabled` and
device_selected telling whether the most recent `set_device` named a device;
`devices()` is empty.  (Every operation of the stub is a total function.) -/
theorem C21_unsupported_build (calls : List Unsupported.Call) :
    Unsupported.is_gamepad_supported = false ∧
    ((({} : Unsupported.GamepadController).run calls).status =
      { enabled_request := Unsupported.latest_enabled calls
        device_selected := (Unsupported.latest_device calls).isSome
        device_connected := false
        session_ready := false
        active := false
        device_name := ""
        block_reason := "Controller support unavailable on this platform." }) ∧
    (({} : Unsupported.GamepadController).run calls).status.block_reason ≠ "" ∧
    (({} : Unsupported.GamepadController).run calls).enabled =
      Unsupported.latest_enabled calls ∧
    (({} : Unsupported.GamepadController).run calls).device =
      Unsupported.latest_device calls ∧
    Unsupported.devices = [] := by
  have hstate : ∀ cs : List Unsupported.Call,
      (({} : Unsupported.GamepadController).run cs) =
        { m_deviceId := Unsupported.latest_device cs,
          m_enabled := Unsupported.latest_enabled cs } := by
    intro cs
    induction cs using List.reverseRecOn with
    | nil => rfl
    | append_singleton cs call ih =>
      unfold Unsupported.GamepadController.run at ih ⊢
      rw [List.foldl_append, ih]
      cases call with
      | set_device device_id =>
        simp only [List.foldl_cons, List.foldl_nil, Unsupported.GamepadController.apply,
          Unsupported.GamepadController.set_device, Unsupported.latest_device,
          Unsupported.latest_enabled, List.reverse_append, List.reverse_cons, List.reverse_nil,
          List.nil_append, List.singleton_append, List.findSome?_cons, Option.getD_some]
        split
        · rename_i h; rw [← h]
        · rfl
      | set_enabled enabled =>
        simp only [List.foldl_cons, List.foldl_nil, Unsupported.GamepadController.apply,
          Unsupported.GamepadController.set_enabled, Unsupported.latest_device,
          Unsupported.latest_enabled, List.reverse_append, List.reverse_cons, List.reverse_nil,
          List.nil_append, List.singleton_append, List.findSome?_cons, Option.getD_some]
        split
        · rename_i h; rw [← h]
        · rfl
  rw [hstate]
  refine ⟨rfl, rfl, ?_, rfl, rfl, rfl⟩
  show ("Controller support unavailable on this platform." : String) ≠ ""
  decide

/-! ## C26: cancellations in a run of the dispatcher -/

/-- C26: in a run of the dispatcher from any state (submissions, activation changes, the
stop request and passes of the worker against arbitrary session answers), take
two passes that call `cancel_all_commands`, the operations `before` the first
and the operations `between` them.  Each of the two passes starts with the
target not known-neutral and a session whose controller type is a
Pro-controller type, and ends with the target marked known-neutral (as does
every `ensure_cancel`, whatever it finds); no pass makes the call twice; and
`between` contains a pass in which a non-neutral command is issued with
success. -/
theorem C26_cancel_discipline (p0 : GamepadCommandProcessor) (before between : List Op)
    (first second : ControllerSession)
    (h1 : Event.cancel_all_commands ∈
      ((p0.run before).1.worker_iteration first).events)
    (h2 : Event.cancel_all_commands ∈
      ((p0.run (before ++ [Op.worker_pass first] ++ between)).1.worker_iteration
        second).events) :
    ((p0.run before).1.m_lastNeutral = false ∧
      is_pro_controller_type first.controller_type = true ∧
      (p0.run (before ++ [Op.worker_pass first])).1.m_lastNeutral = true) ∧
    ((p0.run (before ++ [Op.worker_pass first] ++ between)).1.m_lastNeutral = false ∧
      is_pro_controller_type second.controller_type = true ∧
      (p0.run (before ++ [Op.worker_pass first] ++ between ++
        [Op.worker_pass second])).1.m_lastNeutral = true) ∧
    (∀ (p : GamepadCommandProcessor) (session : ControllerSession),
      (p.ensure_cancel session).1.m_lastNeutral = true ∧
      ((p.worker_iteration session).events.filter Event.is_cancel).length ≤ 1) ∧
    (p0.run (before ++ [Op.worker_pass first])).1.never_issues between = false := by
  have hpass : ∀ (q : GamepadCommandProcessor) (ops : List Op) (session : ControllerSession),
      (q.run (ops ++ [Op.worker_pass session])).1 =
        ((q.run ops).1.worker_iteration session).state (q.run ops).1 := by
    intro q ops session
    rw [GamepadCommandProcessor.run_append]
    rfl
  obtain ⟨a1, a2, a3⟩ := GamepadCommandProcessor.cancel_in_pass _ first h1
  obtain ⟨b1, b2, b3⟩ := GamepadCommandProcessor.cancel_in_pass _ second h2
  refine ⟨⟨a1, a2, ?_⟩, ⟨b1, b2, ?_⟩, ?_, ?_⟩
  · rw [hpass]; exact a3
  · rw [hpass]; exact b3
  · intro p session
    rw [GamepadCommandProcessor.ensure_cancel_state]
    exact ⟨rfl, GamepadCommandProcessor.cancel_once_in_pass p session⟩
  · by_contra hnever
    rw [Bool.not_eq_false] at hnever
    have hstart : (p0.run (before ++ [Op.worker_pass first])).1.m_lastNeutral = true := by
      rw [hpass]; exact a3
    have hend := (GamepadCommandProcessor.run_never_issues between _ hstart hnever).1
    rw [GamepadCommandProcessor.run_append (before ++ [Op.worker_pass first]) between] at b1
    rw [hend] at b1
    exact Bool.noConfusion b1

/-- C26 at a concrete run: from `held_processor`, `press_east` is submitted and the pass
finds the session not ready (first cancellation); then `press_south` is issued with
success, `press_east` is submitted and the pass again finds the session not ready
(second cancellation). -/
theorem C26_cancel_discipline_witness :
    Event.cancel_all_commands ∈
      ((held_processor.run [Op.submit_state press_east]).1.worker_iteration
        not_ready_session).events ∧
    Event.cancel_all_commands ∈
      ((held_processor.run ([Op.submit_state press_east] ++ [Op.worker_pass not_ready_session] ++
        [Op.submit_state press_south, Op.worker_pass pro_session,
          Op.submit_state press_east])).1.worker_iteration not_ready_session).events ∧
    (held_processor.run ([Op.submit_state press_east] ++
      [Op.worker_pass not_ready_session])).1.never_issues
        [Op.submit_state press_south, Op.worker_pass pro_session,
          Op.submit_state press_east] = false :=
  ⟨by decide, by decide,
    (C26_cancel_discipline held_processor [Op.submit_state press_east]
      [Op.submit_state press_south, Op.worker_pass pro_session, Op.submit_state press_east]
      not_ready_session not_ready_session (by decide) (by decide)).2.2.2⟩

/-! ## C22: the sorted list of devices -/

namespace DeviceMonitor

theorem devices_less_iff (a b : DeviceInfo) :
    devices_less a b = true ↔
      a.name.data < b.name.data ∨ (a.name.data = b.name.data ∧ a.id < b.id) := by
  unfold devices_less string_less
  by_cases h : a.name = b.name
  · rw [if_pos h, decide_eq_true_iff]
    constructor
    · intro hid
      exact Or.inr ⟨congrArg String.data h, hid⟩
    · rintro (hlt | ⟨_, hid⟩)
      · rw [h] at hlt
        exact absurd hlt (lt_irrefl _)
      · exact hid
  · rw [if_neg h, decide_eq_true_iff]
    constructor
    · intro hlt
      exact Or.inl hlt
    · rintro (hlt | ⟨heq, _⟩)
      · exact hlt
      · exact absurd (String.ext heq) h

/-- The sort key of the comparator: the name, then the id. -/
theorem devices_less_eq_false_iff (a b : DeviceInfo) :
    devices_less b a = false ↔
      toLex (a.name.data, a.id) ≤ toLex (b.name.data, b.id) := by
  rw [← not_lt, Prod.Lex.lt_iff, ← devices_less_iff]
  simp

end DeviceMonitor

/-- C22: for every content of the registry, `devices` returns the registered
entries, each exactly once (a permutation of the values of the map), in ascending order
of name, entries of equal name in ascending order of id.  The method is `const`: it is
a function of the registry, so two calls on the same registry return the same
sequence. -/
theorem C22_devices_sorted (m : Registry) :
    (DeviceMonitor.devices m).Perm (m.map (fun e => e.2)) ∧
    (DeviceMonitor.devices m).length = m.length ∧
    (DeviceMonitor.devices m).Pairwise
      (fun a b => string_less a.name b.name = true ∨ (a.name = b.name ∧ a.id ≤ b.id)) := by
  refine ⟨List.perm_insertionSort _ _, ?_, ?_⟩
  · rw [DeviceMonitor.devices, List.length_insertionSort, List.length_map]
  · haveI : IsTotal DeviceInfo (fun a b => DeviceMonitor.devices_less b a = false) :=
      ⟨fun a b => by
        rw [DeviceMonitor.devices_less_eq_false_iff, DeviceMonitor.devices_less_eq_false_iff]
        exact le_total _ _⟩
    haveI : IsTrans DeviceInfo (fun a b => DeviceMonitor.devices_less b a = false) :=
      ⟨fun a b c => by
        rw [DeviceMonitor.devices_less_eq_false_iff, DeviceMonitor.devices_less_eq_false_iff,
          DeviceMonitor.devices_less_eq_false_iff]
        exact le_trans⟩
    have hsorted := List.sorted_insertionSort
      (fun a b => DeviceMonitor.devices_less b a = false) (m.map (fun e => e.2))
    refine List.Pairwise.imp ?_ hsorted
    intro a b hab
    rw [DeviceMonitor.devices_less_eq_false_iff, Prod.Lex.le_iff] at hab
    rcases hab with hlt | ⟨heq, hid⟩
    · exact Or.inl (by unfold string_less; exact decide_eq_true hlt)
    · exact Or.inr ⟨String.ext heq, hid⟩

/-! ## Facts about the device registry -/

namespace Registry

theorem find_nil (k : Int) : find [] k = none := rfl

theorem find_cons (a : Int) (v : DeviceInfo) (r : Registry) (k : Int) :
    find ((a, v) :: r) k = if k = a then some v else find r k := by
  unfold find
  rw [List.lookup_cons]
  by_cases h : k = a
  · simp [h]
  · have h2 : (k == a) = false := by simpa using h
    simp [h, h2]

theorem find_append (r s : Registry) (k : Int) :
    find (r ++ s) k = (find r k).or (find s k) := by
  unfold find
  exact List.lookup_append

theorem find_filter (r : Registry) (q : Int → Bool) (k : Int) :
    find (r.filter (fun e => q e.1)) k = if q k = true then find r k else none := by
  induction r with
  | nil => simp [find]
  | cons e r ih =>
    obtain ⟨a, v⟩ := e
    by_cases hq : q a = true
    · rw [List.filter_cons_of_pos (by simpa using hq), find_cons, find_cons, ih]
      by_cases hk : k = a
      · subst hk
        simp [hq]
      · simp [hk]
    · rw [List.filter_cons_of_neg (by simpa using hq), find_cons, ih]
      by_cases hk : k = a
      · subst hk
        simp [hq]
      · simp [hk]

theorem find_assign (r : Registry) (id : Int) (info : DeviceInfo) (k : Int) :
    find (assign r id info) k = if k = id then some info else find r k := by
  unfold assign
  rw [find_append, find_append, find_cons, find_nil,
    find_filter r (fun a => decide (a < id)) k, find_filter r (fun a => decide (id < a)) k]
  by_cases hk : k = id
  · subst hk
    simp
  · rcases lt_or_gt_of_ne hk with hlt | hgt
    · have h2 : ¬ id < k := not_lt.mpr (le_of_lt hlt)
      simp [hk, hlt, h2]
    · have h2 : ¬ k < id := not_lt.mpr (le_of_lt hgt)
      have hgt2 : id < k := hgt
      simp [hk, hgt2, h2]

theorem find_erase (r : Registry) (id : Int) (k : Int) :
    find (erase r id).1 k = if k = id then none else find r k := by
  unfold erase
  rw [find_filter r (fun a => a != id) k]
  by_cases hk : k = id
  · simp [hk]
  · simp [hk]

theorem erase_count (r : Registry) (id : Int) :
    (erase r id).2 > 0 ↔ find r id ≠ none := by
  unfold erase
  induction r with
  | nil => simp [find]
  | cons e r ih =>
    obtain ⟨a, v⟩ := e
    rw [find_cons]
    by_cases h : a = id
    · subst h
      simp
    · have h2 : ¬ id = a := fun hh => h hh.symm
      rw [if_neg h2, ← ih]
      simp [h]

theorem erase_absent (r : Registry) (id : Int) (h : find r id = none) :
    (erase r id).1 = r := by
  unfold erase
  induction r with
  | nil => rfl
  | cons e r ih =>
    obtain ⟨a, v⟩ := e
    rw [find_cons] at h
    by_cases hk : id = a
    · rw [if_pos hk] at h
      cases h
    · rw [if_neg hk] at h
      have hne : (fun e : Int × DeviceInfo => e.1 != id) (a, v) = true := by
        simp only [bne_iff_ne, ne_eq]
        exact fun hh => hk hh.symm
      show List.filter (fun e => e.1 != id) ((a, v) :: r) = (a, v) :: r
      rw [List.filter_cons, if_pos hne]
      exact congrArg _ (ih h)

end Registry

namespace DeviceMonitor

theorem slots_eq : slots = [0, 1, 2, 3] := by decide

theorem query_device_info_id (id : Int) (capabilities : Option Nat) (info : DeviceInfo)
    (h : query_device_info id capabilities = some info) :
    info.id = id ∧ info.manufacturer = "XInput" := by
  cases capabilities with
  | none => cases h
  | some subtype =>
    simp only [query_device_info, Option.some.injEq] at h
    subst h
    exact ⟨rfl, rfl⟩

/-- One turn of the loop of `poll` leaves the slot holding what the backend reports
for it, leaves the other keys alone, and sets `changed` if the entry of the slot was
inserted, replaced or removed. -/
theorem poll_slot_spec (capabilities : Int → Option Nat) (m : Registry) (changed : Bool)
    (id : Int) (hid : ∀ v, m.find id = some v → v.id = id) :
    (∀ k, (poll_slot capabilities (m, changed) id).1.find k =
      if k = id then query_device_info id (capabilities id) else m.find k) ∧
    (poll_slot capabilities (m, changed) id).2 =
      (changed || decide (m.find id ≠ query_device_info id (capabilities id))) := by
  unfold poll_slot
  cases hq : query_device_info id (capabilities id) with
  | none =>
    have hcount := Registry.erase_count m id
    by_cases hf : m.find id = none
    · have h0 : ¬ (m.erase id).2 > 0 := fun h => (hcount.mp h) hf
      simp only [h0, if_false]
      refine ⟨fun k => ?_, ?_⟩
      · rw [Registry.find_erase]
      · simp [hf]
    · have h1 : (m.erase id).2 > 0 := hcount.mpr hf
      simp only [h1, if_true]
      refine ⟨fun k => ?_, ?_⟩
      · rw [Registry.find_erase]
      · simp [hf]
  | some info =>
    have hinfo := query_device_info_id id (capabilities id) info hq
    cases hf : m.find id with
    | none =>
      simp only []
      refine ⟨fun k => ?_, ?_⟩
      · rw [Registry.find_assign]
      · simp
    | some entry =>
      simp only []
      have hentry := hid entry hf
      by_cases hd : entry.name ≠ info.name ∨ entry.manufacturer ≠ info.manufacturer
      · rw [if_pos hd]
        refine ⟨fun k => ?_, ?_⟩
        · rw [Registry.find_assign]
        · have hne : entry ≠ info := by
            intro h
            subst h
            rcases hd with h | h
            · exact h rfl
            · exact h rfl
          simp [hne]
      · rw [if_neg hd]
        have heq : entry = info := by
          obtain ⟨eid, ename, eman⟩ := entry
          obtain ⟨iid, iname, iman⟩ := info
          simp only [ne_eq, not_or, not_not] at hd
          simp only at hentry hinfo
          rw [hd.1, hd.2, hentry, hinfo.1]
        subst heq
        refine ⟨fun k => ?_, ?_⟩
        · by_cases hk : k = id
          · rw [if_pos hk, hk]
            exact hf
          · rw [if_neg hk]
        · simp

/-- A slot whose entry already is what the backend reports is left alone. -/
theorem poll_slot_same (capabilities : Int → Option Nat) (acc : Registry × Bool) (id : Int)
    (h : acc.1.find id = query_device_info id (capabilities id)) :
    poll_slot capabilities acc id = acc := by
  obtain ⟨m, changed⟩ := acc
  simp only at h
  unfold poll_slot
  cases hq : query_device_info id (capabilities id) with
  | none =>
    rw [hq] at h
    have h0 : ¬ (m.erase id).2 > 0 := fun hc => ((Registry.erase_count m id).mp hc) h
    simp only [h0, if_false]
    rw [Registry.erase_absent m id h]
  | some info =>
    rw [hq] at h
    simp only [h]
    simp

end DeviceMonitor

namespace DeviceMonitor

/-- The loop of `poll` over distinct slots. -/
theorem poll_fold_spec (capabilities : Int → Option Nat) (ids : List Int) (hnd : ids.Nodup) :
    ∀ (m : Registry) (changed : Bool),
      (∀ id ∈ ids, ∀ v, m.find id = some v → v.id = id) →
      (∀ k, (ids.foldl (poll_slot capabilities) (m, changed)).1.find k =
        if k ∈ ids then query_device_info k (capabilities k) else m.find k) ∧
      (ids.foldl (poll_slot capabilities) (m, changed)).2 =
        (changed ||
          decide (∃ id ∈ ids, m.find id ≠ query_device_info id (capabilities id))) := by
  induction ids with
  | nil =>
    intro m changed _
    simp
  | cons id ids ih =>
    intro m changed hwf
    rw [List.nodup_cons] at hnd
    obtain ⟨hnotin, hnd⟩ := hnd
    have hstep := poll_slot_spec capabilities m changed id
      (hwf id (List.mem_cons_self _ _))
    have hother : ∀ k ∈ ids, (poll_slot capabilities (m, changed) id).1.find k = m.find k := by
      intro k hk
      rw [hstep.1 k, if_neg]
      intro h
      exact hnotin (h ▸ hk)
    have hrest := ih hnd (poll_slot capabilities (m, changed) id).1
      (poll_slot capabilities (m, changed) id).2
      (fun k hk v hv => hwf k (List.mem_cons_of_mem _ hk) v (by rw [← hother k hk]; exact hv))
    rw [List.foldl_cons]
    refine ⟨fun k => ?_, ?_⟩
    · rw [hrest.1 k]
      by_cases hk : k ∈ ids
      · rw [if_pos hk, if_pos (List.mem_cons_of_mem _ hk)]
      · rw [if_neg hk, hstep.1 k]
        by_cases hkid : k = id
        · rw [if_pos hkid, if_pos (by rw [hkid]; exact List.mem_cons_self _ _), hkid]
        · rw [if_neg hkid, if_neg]
          intro h
          rcases List.mem_cons.mp h with h | h
          · exact hkid h
          · exact hk h
    · rw [hrest.2, hstep.2]
      have hiff : (∃ k ∈ ids, (poll_slot capabilities (m, changed) id).1.find k ≠
            query_device_info k (capabilities k)) ↔
          (∃ k ∈ ids, m.find k ≠ query_device_info k (capabilities k)) := by
        constructor
        · rintro ⟨k, hk, h⟩
          exact ⟨k, hk, by rw [← hother k hk]; exact h⟩
        · rintro ⟨k, hk, h⟩
          exact ⟨k, hk, by rw [hother k hk]; exact h⟩
      rw [decide_eq_decide.mpr hiff, Bool.or_assoc, ← Bool.decide_or]
      congr 1
      apply decide_eq_decide.mpr
      simp only [List.mem_cons, exists_eq_or_imp]

/-- The loop of `poll` over slots that already hold what the backend reports. -/
theorem poll_fold_same (capabilities : Int → Option Nat) (ids : List Int) :
    ∀ (acc : Registry × Bool),
      (∀ id ∈ ids, acc.1.find id = query_device_info id (capabilities id)) →
      ids.foldl (poll_slot capabilities) acc = acc := by
  induction ids with
  | nil =>
    intro acc _
    rfl
  | cons id ids ih =>
    intro acc h
    rw [List.foldl_cons, poll_slot_same capabilities acc id (h id (List.mem_cons_self _ _))]
    exact ih acc (fun k hk => h k (List.mem_cons_of_mem _ hk))

theorem slots_nodup : slots.Nodup := by decide

/-- What one polling pass does to a well-formed registry. -/
theorem poll_spec (m : Registry) (capabilities : Int → Option Nat) (hwf : well_formed m) :
    (∀ k, (poll m capabilities).1.find k =
      if k ∈ slots then query_device_info k (capabilities k) else none) ∧
    (poll m capabilities).2 =
      (if ∃ id ∈ slots, m.find id ≠ query_device_info id (capabilities id) then 1 else 0) := by
  have h := poll_fold_spec capabilities slots slots_nodup m false
    (fun id _ v hv => (hwf id v hv).1)
  unfold poll
  refine ⟨fun k => ?_, ?_⟩
  · simp only []
    rw [h.1 k]
    by_cases hk : k ∈ slots
    · rw [if_pos hk, if_pos hk]
    · rw [if_neg hk, if_neg hk]
      cases hf : m.find k with
      | none => rfl
      | some v => exact absurd (hwf k v hf).2 hk
  · simp only []
    rw [h.2, Bool.false_or]
    by_cases hex : ∃ id ∈ slots, m.find id ≠ query_device_info id (capabilities id)
    · rw [if_pos hex, decide_eq_true hex]
      rfl
    · rw [if_neg hex, decide_eq_false hex]
      rfl

/-- The entry of a slot differs from what the backend reports for it exactly if the
pass inserts, replaces (the name or the manufacturer differs) or removes it. -/
theorem slot_differs_iff (m : Registry) (capabilities : Int → Option Nat)
    (hwf : well_formed m) (id : Int) :
    m.find id ≠ query_device_info id (capabilities id) ↔
      (m.find id = none ∧ (query_device_info id (capabilities id)).isSome = true) ∨
      (∃ entry info, m.find id = some entry ∧
        query_device_info id (capabilities id) = some info ∧
        (entry.name ≠ info.name ∨ entry.manufacturer ≠ info.manufacturer)) ∨
      ((m.find id).isSome = true ∧ query_device_info id (capabilities id) = none) := by
  cases hq : query_device_info id (capabilities id) with
  | none =>
    cases hf : m.find id with
    | none => simp
    | some entry => simp
  | some info =>
    have hinfo := query_device_info_id id (capabilities id) info hq
    cases hf : m.find id with
    | none => simp
    | some entry =>
      have hentry := (hwf id entry hf).1
      obtain ⟨eid, ename, eman⟩ := entry
      obtain ⟨iid, iname, iman⟩ := info
      simp only at hentry hinfo
      simp only [ne_eq, Option.some.injEq, DeviceInfo.mk.injEq, reduceCtorEq, false_and,
        Option.isSome_some, and_false, or_false, false_or, exists_and_left, exists_eq_left,
        exists_eq_left']
      rw [hentry, hinfo.1]
      simp only [true_and, not_and_or]

theorem poll_well_formed (m : Registry) (capabilities : Int → Option Nat)
    (hwf : well_formed m) : well_formed (poll m capabilities).1 := by
  intro k v hv
  rw [(poll_spec m capabilities hwf).1 k] at hv
  by_cases hk : k ∈ slots
  · rw [if_pos hk] at hv
    exact ⟨(query_device_info_id k (capabilities k) v hv).1, hk⟩
  · rw [if_neg hk] at hv
    cases hv

theorem registry_after_snoc (answers : List (Int → Option Nat))
    (capabilities : Int → Option Nat) :
    registry_after (answers ++ [capabilities]) =
      (poll (registry_after answers) capabilities).1 := by
  unfold registry_after
  rw [List.foldl_append]
  rfl

theorem registry_after_well_formed (answers : List (Int → Option Nat)) :
    well_formed (registry_after answers) := by
  induction answers using List.reverseRecOn with
  | nil =>
    intro k v hv
    cases hv
  | append_singleton answers capabilities ih =>
    rw [registry_after_snoc]
    exact poll_well_formed _ _ ih

/-- A second pass against the same answers changes nothing and raises nothing. -/
theorem poll_again (m : Registry) (capabilities : Int → Option Nat) (hwf : well_formed m) :
    poll (poll m capabilities).1 capabilities = ((poll m capabilities).1, 0) := by
  have hfind := (poll_spec m capabilities hwf).1
  have hsame := poll_fold_same capabilities slots ((poll m capabilities).1, false)
    (fun id hid => by rw [hfind id, if_pos hid])
  show ((slots.foldl (poll_slot capabilities) ((poll m capabilities).1, false)).1,
    if (slots.foldl (poll_slot capabilities) ((poll m capabilities).1, false)).2 then 1 else 0)
    = _
  rw [hsame]
  rfl

end DeviceMonitor

/-! ## C23: one polling pass of the device monitor -/

/-- C23: take the registry after any number of polling passes (any backend answers
during them) and any backend answer `capabilities` for the slots.  After one more
pass the registry holds, under each of the slots 0..3, exactly what the backend reports
for the slot (the entry built by `query_device_info`, or nothing), and nothing under
any other key; the pass raises `devicesChanged` once if the entry of some slot was
inserted, replaced (the name or the manufacturer differs) or removed, which are the
ways in which the registry can differ from what is reported for the slot, and not at
all otherwise; a second pass against the same answers leaves the
registry as it is and raises nothing. -/
theorem C23_polling_pass (answers : List (Int → Option Nat))
    (capabilities : Int → Option Nat) :
    DeviceMonitor.slots = [0, 1, 2, 3] ∧
    (∀ k, ((DeviceMonitor.poll (DeviceMonitor.registry_after answers) capabilities).1).find k =
      if k ∈ DeviceMonitor.slots then query_device_info k (capabilities k) else none) ∧
    (DeviceMonitor.poll (DeviceMonitor.registry_after answers) capabilities).2 =
      (if ∃ id ∈ DeviceMonitor.slots,
          (DeviceMonitor.registry_after answers).find id ≠
            query_device_info id (capabilities id)
        then 1 else 0) ∧
    (∀ id, (DeviceMonitor.registry_after answers).find id ≠
        query_device_info id (capabilities id) ↔
      ((DeviceMonitor.registry_after answers).find id = none ∧
        (query_device_info id (capabilities id)).isSome = true) ∨
      (∃ entry info, (DeviceMonitor.registry_after answers).find id = some entry ∧
        query_device_info id (capabilities id) = some info ∧
        (entry.name ≠ info.name ∨ entry.manufacturer ≠ info.manufacturer)) ∨
      (((DeviceMonitor.registry_after answers).find id).isSome = true ∧
        query_device_info id (capabilities id) = none)) ∧
    DeviceMonitor.poll
        (DeviceMonitor.poll (DeviceMonitor.registry_after answers) capabilities).1 capabilities =
      ((DeviceMonitor.poll (DeviceMonitor.registry_after answers) capabilities).1, 0) := by
  have hwf := DeviceMonitor.registry_after_well_formed answers
  exact ⟨DeviceMonitor.slots_eq, (DeviceMonitor.poll_spec _ capabilities hwf).1,
    (DeviceMonitor.poll_spec _ capabilities hwf).2,
    DeviceMonitor.slot_differs_iff _ capabilities hwf,
    DeviceMonitor.poll_again _ capabilities hwf⟩

/-! ## C24: submissions do not wait for the session -/

namespace Machine

/-- A step keeps the lock with the worker exactly while the worker is in the block of
lines 519-533. -/
theorem step_lock (s next : Machine) (a : Action)
    (hinv : s.mutex = some Holder.worker ↔ s.pc = WorkerAt.locked)
    (h : s.step a = some next) :
    next.mutex = some Holder.worker ↔ next.pc = WorkerAt.locked := by
  obtain ⟨p, mutex, pc, trace⟩ := s
  simp only at hinv
  cases a with
  | enter holder =>
    simp only [step] at h
    split at h
    · rename_i hfree
      subst hfree
      have hpc : pc ≠ WorkerAt.locked := fun hh => by simpa using hinv.mpr hh
      cases holder with
      | worker =>
        simp only at h
        split at h
        · cases h
          simp
        · cases h
      | submit_state state =>
        cases h
        simp [hpc]
      | set_active active =>
        cases h
        simp [hpc]
      | destructor =>
        cases h
        simp [hpc]
    · cases h
  | leave_block =>
    simp only [step] at h
    cases mutex with
    | none => cases h
    | some holder =>
      cases holder with
      | worker =>
        simp only at h
        split at h
        · cases h
          simp
        · split at h
          · cases h
            simp
          · cases h
            simp
      | submit_state state =>
        have hpc : pc ≠ WorkerAt.locked := fun hh => by simpa using hinv.mpr hh
        cases h
        simp [hpc]
      | set_active active =>
        have hpc : pc ≠ WorkerAt.locked := fun hh => by simpa using hinv.mpr hh
        cases h
        simp [hpc]
      | destructor =>
        have hpc : pc ≠ WorkerAt.locked := fun hh => by simpa using hinv.mpr hh
        cases h
        simp [hpc]
  | session_calls session =>
    simp only [step] at h
    cases pc with
    | dispatching l =>
      cases h
      simpa using hinv
    | leaving =>
      cases h
      simpa using hinv
    | top => cases h
    | locked => cases h
    | suspended => cases h
    | returned => cases h

/-- In every state a run reaches from a state in which no thread holds the lock and the
worker is outside its block, the worker holds the lock exactly while it is in the
block. -/
theorem run_lock (acts : List Action) (s final : Machine)
    (hinv : s.mutex = some Holder.worker ↔ s.pc = WorkerAt.locked)
    (h : s.run acts = some final) :
    final.mutex = some Holder.worker ↔ final.pc = WorkerAt.locked := by
  induction acts generalizing s with
  | nil =>
    simp only [run, Option.some.injEq] at h
    subst h
    exact hinv
  | cons a rest ih =>
    simp only [run] at h
    cases hstep : s.step a with
    | none =>
      rw [hstep] at h
      cases h
    | some next =>
      rw [hstep] at h
      exact ih next (step_lock s next a hinv hstep) h

/-- Only the step `session_calls` makes requests on the session. -/
theorem step_trace (s next : Machine) (a : Action) (h : s.step a = some next)
    (hcalls : next.trace ≠ s.trace) : ∃ session, a = Action.session_calls session := by
  cases a with
  | session_calls session => exact ⟨session, rfl⟩
  | enter holder =>
    exfalso
    apply hcalls
    simp only [step] at h
    split at h
    · cases holder <;> simp only at h
      · split at h
        · cases h; rfl
        · cases h
      all_goals (cases h; rfl)
    · cases h
  | leave_block =>
    exfalso
    apply hcalls
    simp only [step] at h
    split at h
    · cases h
    · split at h
      · cases h; rfl
      · split at h
        · cases h; rfl
        · cases h; rfl
    all_goals (cases h; rfl)

end Machine

namespace Machine

/-- A pass of the worker that no other thread interrupts is the pass
`worker_iteration`. -/
theorem pass_alone (s : Machine) (session : ControllerSession)
    (hpc : s.pc = WorkerAt.top) (hfree : s.mutex = none) :
    (s.p.worker_iteration session = LoopStep.waiting →
      s.run [Action.enter Holder.worker, Action.leave_block] =
        some { s with pc := WorkerAt.suspended }) ∧
    (∀ q events, s.p.worker_iteration session = LoopStep.exited q events →
      s.run [Action.enter Holder.worker, Action.leave_block, Action.session_calls session] =
        some { s with p := q, pc := WorkerAt.returned, trace := s.trace ++ events }) ∧
    (∀ q events, s.p.worker_iteration session = LoopStep.continued q events →
      s.run [Action.enter Holder.worker, Action.leave_block, Action.session_calls session] =
        some { s with p := q, pc := WorkerAt.top, trace := s.trace ++ events }) := by
  obtain ⟨p, mutex, pc, trace⟩ := s
  simp only at hpc hfree
  subst hpc hfree
  unfold GamepadCommandProcessor.worker_iteration
  cases hstop : p.m_stop <;> cases hpending : p.m_hasPending <;>
    cases hchanged : p.m_activeChanged <;>
    simp only [run, step, hstop, hpending, hchanged, Bool.or_false, Bool.or_true, Bool.or_self,
      Bool.not_false, Bool.not_true, if_true, if_false, Bool.false_eq_true, true_or, or_true,
      LoopStep.exited.injEq, LoopStep.continued.injEq, reduceCtorEq, false_implies,
      implies_true, and_true, true_and, and_imp, forall_const, List.append_nil] <;>
    (try (intro q events hq hev; subst hq hev; rfl))

end Machine

/-- C24: in every state reached by an interleaving of the steps of the worker and of
the threads calling `submit_state`, `set_active` and the destructor, started with
the worker at the top of its loop and the lock free:
the worker holds `m_mutex` exactly while it is in the block of lines 519-533; from
there one step of its own releases the lock, makes no request on the session, and
changes the data members at most by moving the pending slot and the flags into the
locals; a step that makes a request on the session is taken while the worker is in
the code after the block, without the lock; and while the worker is there, a thread
in the block of a caller leaves it by a step of its own, and with the lock free
`submit_state` and `set_active` run from taking the lock to releasing it in two
steps of the calling thread, leaving the worker where it is. -/
theorem C24_submission_does_not_wait (acts : List Action) (s : Machine)
    (h : ({} : Machine).run acts = some s) :
    (s.mutex = some Holder.worker ↔ s.pc = WorkerAt.locked) ∧
    (s.pc = WorkerAt.locked →
      ∃ next, s.step Action.leave_block = some next ∧ next.mutex = none ∧
        next.trace = s.trace ∧ (next.p = s.p ∨ next.p = s.p.locked_section.1)) ∧
    (∀ a next, s.step a = some next → next.trace ≠ s.trace →
      s.in_session_calls = true ∧ s.mutex ≠ some Holder.worker ∧ next.mutex = s.mutex) ∧
    (s.in_session_calls = true →
      s.mutex ≠ some Holder.worker ∧
      (∀ holder, s.mutex = some holder →
        ∃ next, s.step Action.leave_block = some next ∧ next.mutex = none ∧
          next.pc = s.pc ∧ next.trace = s.trace) ∧
      (∀ state, s.mutex = none →
        s.run [Action.enter (Holder.submit_state state), Action.leave_block] =
          some { s with p := s.p.submit_state state }) ∧
      (∀ active, s.mutex = none →
        s.run [Action.enter (Holder.set_active active), Action.leave_block] =
          some { s with p := s.p.set_active active })) := by
  have hlock := Machine.run_lock acts {} s (by decide) h
  obtain ⟨p, mutex, pc, trace⟩ := s
  simp only at hlock
  have hnot : Machine.in_session_calls ⟨p, mutex, pc, trace⟩ = true →
      mutex ≠ some Holder.worker := by
    intro hin hw
    have hpc := hlock.mp hw
    subst hpc
    simp [Machine.in_session_calls] at hin
  refine ⟨hlock, ?_, ?_, ?_⟩
  · intro hpc
    simp only at hpc
    have hw := hlock.mpr hpc
    subst hw
    simp only [Machine.step]
    split
    · exact ⟨_, rfl, rfl, rfl, Or.inl rfl⟩
    · split
      · exact ⟨_, rfl, rfl, rfl, Or.inl rfl⟩
      · exact ⟨_, rfl, rfl, rfl, Or.inr rfl⟩
  · intro a next hstep htrace
    obtain ⟨session, ha⟩ := Machine.step_trace _ next a hstep htrace
    subst ha
    have hin : Machine.in_session_calls ⟨p, mutex, pc, trace⟩ = true := by
      cases pc <;> simp [Machine.step] at hstep <;> rfl
    refine ⟨hin, hnot hin, ?_⟩
    cases pc <;> simp [Machine.step] at hstep <;> (subst hstep; rfl)
  · intro hin
    refine ⟨hnot hin, ?_, ?_, ?_⟩
    · intro holder hholder
      simp only at hholder
      subst hholder
      cases holder with
      | worker => exact absurd rfl (hnot hin)
      | submit_state state => exact ⟨_, rfl, rfl, rfl, rfl⟩
      | set_active active => exact ⟨_, rfl, rfl, rfl, rfl⟩
      | destructor => exact ⟨_, rfl, rfl, rfl, rfl⟩
    · intro state hfree
      simp only at hfree
      subst hfree
      rfl
    · intro active hfree
      simp only at hfree
      subst hfree
      rfl

/-- C24 at a concrete interleaving: after `in_flight_steps` the worker is about to issue
`press_south`; `press_east` is submitted before it does. -/
theorem C24_submission_does_not_wait_witness :
    ({} : Machine).run in_flight_steps = some in_flight ∧
    in_flight.in_session_calls = true ∧
    in_flight.run [Action.enter (Holder.submit_state press_east), Action.leave_block] =
      some { in_flight with p := in_flight.p.submit_state press_east } :=
  ⟨by decide, by decide,
    ((C24_submission_does_not_wait in_flight_steps in_flight (by decide)).2.2.2
      (by decide)).2.2.1 press_east rfl⟩

end GamepadInput
